import Mathlib

/-!
# Gateway module interface: framed command/answer protocol

A shallow embedding of `src/lib/gateway-module-interface.c` (with the command
codes of `gateway-module-interface.h`).

Modelling conventions.

* `uint8_t` values are natural numbers, reduced `% 256` wherever the C code
  performs arithmetic on them.  `size_t` values are natural numbers; the only
  `size_t` arithmetic is `counter++` and the 16-bit length assembly, neither
  of which can approach the word size (the counter is reset to `0` when the
  data state is entered and stops at a length below `65536`).
* The file-scope variables of the C file are the fields of `Globals`.
* Pointers are `Ptr`: `NULL`, an address inside the caller memory `heap`, or
  the fixed `g_receive_buffer`.  A store through `NULL` or outside the memory
  is undefined in C; the model drops it.
* The injected collaborators (`g_write_lock`, `g_write`, `g_signal_wait`,
  `g_signal_set`, `g_receive_callback`) append an `Event` to `trace`.  The
  results of `g_write` come from the oracle `write_results` (exhausted oracle:
  the write succeeds); the behaviour of `g_signal_wait` comes from a script of
  `WaitStep`s (exhausted script: the wait times out).  `LOG` has no effect on
  the protocol state and is left out.
* While the caller is blocked in `g_signal_wait`, the reader thread may feed
  bytes to `GatewayModuleInterface_dispatch`; a `WaitStep` lists those bytes.
  This is the sequential model of a call (`sendStart`, `waitLoop`,
  `sendFinish`).
* The reader thread takes no lock, so it may also run between any two
  statements of the calling thread.  `runActions` is the statement-level
  model: an interleaving of single statements of `sendCommandWaitAnswer`
  (`CallerStmt`) with whole calls of `GatewayModuleInterface_dispatch`.  The
  sequential model is one of its interleavings (`timedOut_eq_runActions`).
-/

namespace GatewayModule

/-! ## Constants and types -/

abbrev FRAME_START : Nat := 0x23
abbrev FRAME_CR : Nat := 0x0D

abbrev GATEWAY_MODULE_CMD_NONE : Nat := 0
abbrev GATEWAY_MODULE_CMD_FACTORY : Nat := 0x6E
abbrev GATEWAY_MODULE_CMD_SAVE : Nat := 0x21
abbrev GATEWAY_MODULE_CMD_SETUART : Nat := 0x42
abbrev GATEWAY_MODULE_CMD_GETUART : Nat := 0x62
abbrev GATEWAY_MODULE_CMD_START : Nat := 0x30
abbrev GATEWAY_MODULE_CMD_STOP : Nat := 0x31
abbrev GATEWAY_MODULE_CMD_SEND : Nat := 0x32
abbrev GATEWAY_MODULE_CMD_RECEIVE : Nat := 0x33
abbrev GATEWAY_MODULE_CMD_RFCONFIG : Nat := 0x34
abbrev GATEWAY_MODULE_CMD_IFCONFIG : Nat := 0x35
abbrev GATEWAY_MODULE_CMD_IF8CONFIG : Nat := 0x36
abbrev GATEWAY_MODULE_CMD_IF9CONFIG : Nat := 0x37
abbrev GATEWAY_MODULE_CMD_TXABORT : Nat := 0x38
abbrev GATEWAY_MODULE_CMD_TXSTATUS : Nat := 0x39
abbrev GATEWAY_MODULE_CMD_VERSION : Nat := 0x3A
abbrev GATEWAY_MODULE_CMD_RFCHAIN : Nat := 0x3B
abbrev GATEWAY_MODULE_CMD_IFCHAIN : Nat := 0x3C
abbrev GATEWAY_MODULE_CMD_IF8CHAIN : Nat := 0x3D
abbrev GATEWAY_MODULE_CMD_IF9CHAIN : Nat := 0x3E
abbrev GATEWAY_MODULE_CMD_SETLEDS : Nat := 0x3F
abbrev GATEWAY_MODULE_CMD_SETSYNC : Nat := 0x40
abbrev GATEWAY_MODULE_CMD_GETSYNC : Nat := 0x41
abbrev GATEWAY_MODULE_CMD_RXSTATUS : Nat := 0x43
abbrev GATEWAY_MODULE_CMD_BOOTLOADER_MODE : Nat := 0x50
abbrev GATEWAY_MODULE_CMD_RESET : Nat := 0x51
abbrev GATEWAY_MODULE_CMD_SENDCW : Nat := 0x25
abbrev GATEWAY_MODULE_CMD_INVALID : Nat := 0xFF
abbrev GATEWAY_MODULE_CMD_MFGDATA : Nat := 0x07

inductive STATE_t where
  | STATE_WAIT_FOR_START
  | STATE_WAIT_FOR_CMD
  | STATE_WAIT_FOR_LEN0
  | STATE_WAIT_FOR_LEN1
  | STATE_WAIT_FOR_DATA
  | STATE_WAIT_FOR_CHECKSUM
  | STATE_WAIT_FOR_CR
  deriving DecidableEq, Repr

inductive RX_TYPE_t where
  | RX_TYPE_ANSWER
  | RX_TYPE_INVALID
  | RX_TYPE_RECEIVE
  deriving DecidableEq, Repr

/-- A `uint8_t *`: `NULL`, the address of a byte of the caller memory, or the
array `g_receive_buffer`. -/
inductive Ptr where
  | null
  | heap (addr : Nat)
  | receive_buffer
  deriving DecidableEq, Repr

structure answer_context_t where
  cmd : Nat
  cmd_sequence : Nat
  ans_sequence : Nat
  ans_payload : Ptr
  ans_payload_max_size : Nat
  ans_length : Nat
  deriving DecidableEq, Repr

structure rx_context_t where
  cmd : Nat
  payload : Ptr
  max_size : Nat
  length : Nat
  counter : Nat
  checksum : Nat
  sequence : Nat
  deriving DecidableEq, Repr

/-- One call of an injected collaborator, as seen from outside the library. -/
inductive Event where
  | write_lock (lock : Bool)
  | write (data : List Nat) (ok : Bool)
  | signal_wait (timeout : Nat)
  | signal_set
  | receive_callback (data : List Nat) (size : Nat)
  deriving DecidableEq, Repr

/-- The file-scope state of the library, the memory it can reach, the oracle
for the results of `g_write`, and the trace of collaborator calls. -/
structure Globals where
  g_pending_command : answer_context_t
  g_rx_context : rx_context_t
  g_state : STATE_t
  g_rx_type : RX_TYPE_t
  g_receive_buffer : List Nat
  heap : List Nat
  write_results : List Bool
  trace : List Event
  deriving DecidableEq, Repr

/-- What happens during one call of `g_signal_wait`: the bytes the reader
thread dispatches while the caller is blocked, and the value returned. -/
structure WaitStep where
  fed : List Nat
  signaled : Bool
  deriving DecidableEq, Repr

/-- The zero-initialised statics, with `mem` as caller memory. -/
def zeroGlobals (mem : List Nat) (wr : List Bool) : Globals :=
  { g_pending_command :=
      { cmd := 0, cmd_sequence := 0, ans_sequence := 0, ans_payload := Ptr.null,
        ans_payload_max_size := 0, ans_length := 0 }
    g_rx_context :=
      { cmd := 0, payload := Ptr.null, max_size := 0, length := 0, counter := 0,
        checksum := 0, sequence := 0 }
    g_state := STATE_t.STATE_WAIT_FOR_START
    g_rx_type := RX_TYPE_t.RX_TYPE_ANSWER
    g_receive_buffer := List.replicate 300 0
    heap := mem
    write_results := wr
    trace := [] }

/-! ## Collaborators -/

def g_write_lock (s : Globals) (lock : Bool) : Globals :=
  { s with trace := s.trace ++ [Event.write_lock lock] }

def g_write (s : Globals) (data : List Nat) : Bool × Globals :=
  let ok := s.write_results.headD true
  (ok, { s with write_results := s.write_results.tail,
                trace := s.trace ++ [Event.write data ok] })

def g_signal_set (s : Globals) : Globals :=
  { s with trace := s.trace ++ [Event.signal_set] }

/-- The call `g_receive_callback(g_receive_buffer, size)`: the callback is handed
the `size` bytes found at the pointer. -/
def g_receive_callback (s : Globals) (size : Nat) : Globals :=
  { s with trace := s.trace ++ [Event.receive_callback (s.g_receive_buffer.take size) size] }

/-- The C expression `ret && g_write(data, size)`: the write is attempted only
when `ret` is still true. -/
def andWrite (ret : Bool) (s : Globals) (data : List Nat) : Bool × Globals :=
  if ret then g_write s data else (false, s)

/-! ## The library -/

def setState (s : Globals) (newState : STATE_t) : Globals :=
  { s with g_state := newState }

def maxAnswerLength (cmd : Nat) : Nat :=
  if cmd = GATEWAY_MODULE_CMD_SAVE ∨ cmd = GATEWAY_MODULE_CMD_SETUART
      ∨ cmd = GATEWAY_MODULE_CMD_START ∨ cmd = GATEWAY_MODULE_CMD_STOP
      ∨ cmd = GATEWAY_MODULE_CMD_SEND ∨ cmd = GATEWAY_MODULE_CMD_RFCONFIG
      ∨ cmd = GATEWAY_MODULE_CMD_IFCONFIG ∨ cmd = GATEWAY_MODULE_CMD_IF8CONFIG
      ∨ cmd = GATEWAY_MODULE_CMD_IF9CONFIG ∨ cmd = GATEWAY_MODULE_CMD_TXABORT
      ∨ cmd = GATEWAY_MODULE_CMD_TXSTATUS ∨ cmd = GATEWAY_MODULE_CMD_SETLEDS
      ∨ cmd = GATEWAY_MODULE_CMD_SETSYNC ∨ cmd = GATEWAY_MODULE_CMD_GETSYNC
      ∨ cmd = GATEWAY_MODULE_CMD_RXSTATUS ∨ cmd = GATEWAY_MODULE_CMD_SENDCW
      ∨ cmd = GATEWAY_MODULE_CMD_INVALID ∨ cmd = GATEWAY_MODULE_CMD_MFGDATA
      ∨ cmd = GATEWAY_MODULE_CMD_BOOTLOADER_MODE then 1
  else if cmd = GATEWAY_MODULE_CMD_GETUART then 4
  else if cmd = GATEWAY_MODULE_CMD_RFCHAIN then 5
  else if cmd = GATEWAY_MODULE_CMD_IFCHAIN then 7
  else if cmd = GATEWAY_MODULE_CMD_IF8CHAIN then 8
  else if cmd = GATEWAY_MODULE_CMD_VERSION then 16
  else if cmd = GATEWAY_MODULE_CMD_IF9CHAIN then 11
  else if cmd = GATEWAY_MODULE_CMD_RECEIVE then 300
  else 0

/-- The loop `chksum += p[i]` over a byte array, on a `uint8_t` accumulator. -/
def sum8 (init : Nat) (bytes : List Nat) : Nat :=
  bytes.foldl (fun c b => (c + b) % 256) init

/-- The four bytes of `header_t` as filled by `sendCommandWaitAnswer`. -/
def commandHeader (cmd : Nat) (cmd_payload_size : Nat) : List Nat :=
  [FRAME_START, cmd % 256, cmd_payload_size % 256, (cmd_payload_size / 256) % 256]

/-- The two bytes of `footer_t` as filled by `sendCommandWaitAnswer`. -/
def commandFooter (cmd : Nat) (cmd_payload : List Nat) : List Nat :=
  [sum8 (sum8 0 (commandHeader cmd cmd_payload.length)) cmd_payload, FRAME_CR]

/-- The bytes of the three writes of `sendCommandWaitAnswer`, in order. -/
def encodeFrame (cmd : Nat) (cmd_payload : List Nat) : List Nat :=
  commandHeader cmd cmd_payload.length ++ cmd_payload ++ commandFooter cmd cmd_payload

def GatewayModuleInterface_sendAck (s : Globals) (cmd : Nat) (ack : Bool) : Globals :=
  let s := g_write_lock s true
  let header : List Nat := [FRAME_START, cmd % 256, 1, 0]
  let data : Nat := if ack then 0 else 1
  let chksum := (sum8 0 header + data) % 256
  let footer : List Nat := [chksum, FRAME_CR]
  let r1 := andWrite true s header
  let r2 := andWrite r1.1 r1.2 [data]
  let r3 := andWrite r2.1 r2.2 footer
  g_write_lock r3.2 false

/-- The assignment `payload[counter] = d`. -/
def store (s : Globals) (p : Ptr) (i : Nat) (d : Nat) : Globals :=
  match p with
  | Ptr.null => s
  | Ptr.heap a => { s with heap := s.heap.set (a + i) d }
  | Ptr.receive_buffer => { s with g_receive_buffer := s.g_receive_buffer.set i d }

def GatewayModuleInterface_dispatch (s : Globals) (d : Nat) : Globals :=
  match s.g_state with
  | STATE_t.STATE_WAIT_FOR_START =>
    if d = FRAME_START then
      setState { s with g_rx_context := { s.g_rx_context with checksum := FRAME_START } }
        STATE_t.STATE_WAIT_FOR_CMD
    else s
  | STATE_t.STATE_WAIT_FOR_CMD =>
    let s := { s with g_rx_context :=
      { s.g_rx_context with checksum := (s.g_rx_context.checksum + d) % 256, cmd := d } }
    if s.g_rx_context.cmd = s.g_pending_command.cmd then
      setState { s with
        g_rx_type := RX_TYPE_t.RX_TYPE_ANSWER
        g_rx_context := { s.g_rx_context with
          payload := s.g_pending_command.ans_payload
          max_size := s.g_pending_command.ans_payload_max_size }
        g_pending_command := { s.g_pending_command with
          ans_sequence := s.g_pending_command.cmd_sequence } }
        STATE_t.STATE_WAIT_FOR_LEN0
    else if s.g_rx_context.cmd = GATEWAY_MODULE_CMD_RECEIVE then
      setState { s with
        g_rx_type := RX_TYPE_t.RX_TYPE_RECEIVE
        g_rx_context := { s.g_rx_context with
          payload := Ptr.receive_buffer
          max_size := 300 } }
        STATE_t.STATE_WAIT_FOR_LEN0
    else if s.g_rx_context.cmd = GATEWAY_MODULE_CMD_INVALID then
      setState { s with
        g_rx_type := RX_TYPE_t.RX_TYPE_INVALID
        g_rx_context := { s.g_rx_context with
          payload := Ptr.null
          max_size := 0 } }
        STATE_t.STATE_WAIT_FOR_LEN0
    else
      setState s STATE_t.STATE_WAIT_FOR_START
  | STATE_t.STATE_WAIT_FOR_LEN0 =>
    setState { s with g_rx_context :=
      { s.g_rx_context with checksum := (s.g_rx_context.checksum + d) % 256, length := d } }
      STATE_t.STATE_WAIT_FOR_LEN1
  | STATE_t.STATE_WAIT_FOR_LEN1 =>
    let s := { s with g_rx_context :=
      { s.g_rx_context with checksum := (s.g_rx_context.checksum + d) % 256,
                            length := s.g_rx_context.length + d * 256 } }
    if s.g_rx_context.length ≤ maxAnswerLength s.g_rx_context.cmd then
      setState { s with g_rx_context := { s.g_rx_context with counter := 0 } }
        STATE_t.STATE_WAIT_FOR_DATA
    else
      setState s STATE_t.STATE_WAIT_FOR_START
  | STATE_t.STATE_WAIT_FOR_DATA =>
    let s := { s with g_rx_context :=
      { s.g_rx_context with checksum := (s.g_rx_context.checksum + d) % 256 } }
    let s := if s.g_rx_context.counter < s.g_rx_context.max_size then
        store s s.g_rx_context.payload s.g_rx_context.counter d
      else s
    let s := { s with g_rx_context :=
      { s.g_rx_context with counter := s.g_rx_context.counter + 1 } }
    if s.g_rx_context.counter ≥ s.g_rx_context.length then
      setState s STATE_t.STATE_WAIT_FOR_CHECKSUM
    else s
  | STATE_t.STATE_WAIT_FOR_CHECKSUM =>
    if s.g_rx_context.checksum = d then
      setState s STATE_t.STATE_WAIT_FOR_CR
    else
      setState (GatewayModuleInterface_sendAck s s.g_rx_context.cmd false)
        STATE_t.STATE_WAIT_FOR_START
  | STATE_t.STATE_WAIT_FOR_CR =>
    let s := if d = FRAME_CR then
        match s.g_rx_type with
        | RX_TYPE_t.RX_TYPE_ANSWER =>
          if s.g_pending_command.ans_sequence = s.g_pending_command.cmd_sequence then
            g_signal_set { s with g_pending_command :=
              { s.g_pending_command with ans_length := s.g_rx_context.length } }
          else s
        | RX_TYPE_t.RX_TYPE_INVALID =>
          g_signal_set { s with g_pending_command :=
            { s.g_pending_command with ans_length := 0 } }
        | RX_TYPE_t.RX_TYPE_RECEIVE =>
          g_receive_callback s s.g_rx_context.length
      else s
    setState s STATE_t.STATE_WAIT_FOR_START

/-- The reader thread: one `GatewayModuleInterface_dispatch` call per byte. -/
def feed (s : Globals) (bytes : List Nat) : Globals :=
  bytes.foldl GatewayModuleInterface_dispatch s

def g_signal_wait (s : Globals) (timeout : Nat) (w : WaitStep) : Bool × Globals :=
  (w.signaled, feed { s with trace := s.trace ++ [Event.signal_wait timeout] } w.fed)

/-- Lines 100-135: lock, publish the pending command, write the frame. -/
def sendStart (s : Globals) (cmd : Nat) (cmd_payload : List Nat) (ans_payload : Ptr)
    (ans_payload_max_size : Nat) : Bool × Globals :=
  let s := g_write_lock s true
  let s := { s with g_pending_command := { s.g_pending_command with
    cmd := cmd
    ans_payload := ans_payload
    ans_payload_max_size := ans_payload_max_size
    ans_length := 0 } }
  let r1 := andWrite true s (commandHeader cmd cmd_payload.length)
  let r2 := andWrite r1.1 r1.2 cmd_payload
  andWrite r2.1 r2.2 (commandFooter cmd cmd_payload)

/-- Lines 138-144: the loop `while ((ret = g_signal_wait(1000)) == true)`. -/
def waitLoop (s : Globals) : List WaitStep → Bool × Globals
  | [] => (false, (g_signal_wait s 1000 { fed := [], signaled := false }).2)
  | w :: ws =>
    let r := g_signal_wait s 1000 w
    if r.1 then
      if r.2.g_pending_command.ans_sequence = r.2.g_pending_command.cmd_sequence then
        (true, r.2)
      else waitLoop r.2 ws
    else (false, r.2)

/-- Lines 150-157: advance the sequence, clear the pending command, unlock. -/
def sendFinish (s : Globals) : Globals :=
  let s := { s with g_pending_command := { s.g_pending_command with
    cmd_sequence := (s.g_pending_command.cmd_sequence + 1) % 256
    cmd := GATEWAY_MODULE_CMD_NONE
    ans_payload := Ptr.null
    ans_payload_max_size := 0
    ans_length := 0 } }
  g_write_lock s false

/-- The state when the wait of `sendCommandWaitAnswer` is over (line 149),
before the pending command is cleared. -/
def sendAndWait (s : Globals) (cmd : Nat) (cmd_payload : List Nat) (ans_payload : Ptr)
    (ans_payload_max_size : Nat) (script : List WaitStep) : Bool × Globals :=
  let r := sendStart s cmd cmd_payload ans_payload ans_payload_max_size
  if r.1 then waitLoop r.2 script else (false, r.2)

def GatewayModuleInterface_sendCommandWaitAnswer (s : Globals) (cmd : Nat)
    (cmd_payload : List Nat) (ans_payload : Ptr) (ans_payload_max_size : Nat)
    (script : List WaitStep) : Bool × Globals :=
  let r := sendAndWait s cmd cmd_payload ans_payload ans_payload_max_size script
  (r.1, sendFinish r.2)

/-- The local `ack` lives at address `ack_addr` of the caller memory; it is not
initialised, so it holds whatever the memory holds there. -/
def GatewayModuleInterface_sendCommandWaitAck (s : Globals) (cmd : Nat)
    (cmd_payload : List Nat) (ack_addr : Nat) (script : List WaitStep) : Bool × Globals :=
  let r := GatewayModuleInterface_sendCommandWaitAnswer s cmd cmd_payload
    (Ptr.heap ack_addr) 1 script
  (r.1 && decide (r.2.heap[ack_addr]? = some 0), r.2)

def GatewayModuleInterface_init (s : Globals) : Globals :=
  setState s STATE_t.STATE_WAIT_FOR_START

/-! ## Auxiliary definitions used to state the theorems -/

/-- Memory after the stores of the data state: byte `j` of `p` goes to index
`base + k + j` as long as `k + j < cap`. -/
def blit (mem : List Nat) (base cap k : Nat) : List Nat → List Nat
  | [] => mem
  | d :: ds => blit (if k < cap then mem.set (base + k) d else mem) base cap (k + 1) ds

/-- The caller memory after the data state has stored `p` through `ptr`. -/
def heapAfter (ptr : Ptr) (cap : Nat) (heap : List Nat) (k : Nat) (p : List Nat) : List Nat :=
  match ptr with
  | Ptr.heap a => blit heap a cap k p
  | _ => heap

/-- The receive buffer after the data state has stored `p` through `ptr`. -/
def rbufAfter (ptr : Ptr) (cap : Nat) (rbuf : List Nat) (k : Nat) (p : List Nat) : List Nat :=
  match ptr with
  | Ptr.receive_buffer => blit rbuf 0 cap k p
  | _ => rbuf

/-- The state in which `sendCommandWaitAnswer(VERSION, NULL, 0, buf, cap)` starts
waiting, from zero-initialised statics with `mem` as caller memory and `buf` at
address `0`. -/
def versionPending (mem : List Nat) (cap : Nat) : Globals :=
  (sendStart (zeroGlobals mem []) GATEWAY_MODULE_CMD_VERSION [] (Ptr.heap 0) cap).2

/-- The bytes handed to `g_write`, in order, over a trace. -/
def writtenBytes : List Event → List Nat
  | [] => []
  | Event.write data _ :: es => data ++ writtenBytes es
  | _ :: es => writtenBytes es

/-- Every result still in the oracle of `g_write` is a success. -/
def writesSucceed (s : Globals) : Prop :=
  ∀ b ∈ s.write_results, b = true

instance (s : Globals) : Decidable (writesSucceed s) := by
  unfold writesSucceed; infer_instance

/-- The reader thread dispatches nothing during the waits of the script. -/
def silent (script : List WaitStep) : Prop :=
  ∀ w ∈ script, w.fed = []

instance (script : List WaitStep) : Decidable (silent script) := by
  unfold silent; infer_instance

/-- Lock events. -/
def Event.isLock : Event → Bool
  | Event.write_lock _ => true
  | _ => false

/-- Write events. -/
def Event.isWrite : Event → Bool
  | Event.write _ _ => true
  | _ => false

/-- Wait events. -/
def Event.isWait : Event → Bool
  | Event.signal_wait _ => true
  | _ => false

/-- Lock and write events: the collaborator calls `sendAck` can make. -/
def Event.isTransport (e : Event) : Bool :=
  e.isLock || e.isWrite

/-- From `s` to `t` the protocol state and the memory stayed the same and the
trace grew by events that satisfy `P` (the write oracle may have advanced). -/
def grewBy (P : Event → Bool) (s t : Globals) : Prop :=
  t.g_pending_command = s.g_pending_command ∧ t.g_rx_context = s.g_rx_context ∧
  t.g_state = s.g_state ∧ t.g_rx_type = s.g_rx_type ∧
  t.g_receive_buffer = s.g_receive_buffer ∧ t.heap = s.heap ∧
  ∃ evs, t.trace = s.trace ++ evs ∧ ∀ e ∈ evs, P e = true

/-- What the reader thread leaves alone: the command, send sequence, buffer
and capacity of the pending command; and the trace only grows. -/
def readerKeeps (s t : Globals) : Prop :=
  t.g_pending_command.cmd = s.g_pending_command.cmd ∧
  t.g_pending_command.cmd_sequence = s.g_pending_command.cmd_sequence ∧
  t.g_pending_command.ans_payload = s.g_pending_command.ans_payload ∧
  t.g_pending_command.ans_payload_max_size = s.g_pending_command.ans_payload_max_size ∧
  ∃ evs, t.trace = s.trace ++ evs

/-- The result the `i`-th next call of `g_write` will report. -/
def writeResult (s : Globals) (i : Nat) : Bool :=
  (s.write_results.drop i).headD true

/-- A receiver state and next byte for which `dispatch` neither reads nor
writes the pending command or the trace: the length and data states, and the
checksum state when the byte matches. -/
def quiet (u : Globals) (d : Nat) : Prop :=
  u.g_state = STATE_t.STATE_WAIT_FOR_LEN0 ∨ u.g_state = STATE_t.STATE_WAIT_FOR_LEN1 ∨
  u.g_state = STATE_t.STATE_WAIT_FOR_DATA ∨
  (u.g_state = STATE_t.STATE_WAIT_FOR_CHECKSUM ∧ u.g_rx_context.checksum = d)

/-- A call of `sendCommandWaitAnswer` that times out at its first wait, during
which the reader thread dispatched `front`. -/
def timedOut (s : Globals) (cmd : Nat) (cmd_payload : List Nat) (ans_payload : Ptr)
    (cap : Nat) (front : List Nat) : Bool × Globals :=
  GatewayModuleInterface_sendCommandWaitAnswer s cmd cmd_payload ans_payload cap
    [{ fed := front, signaled := false }]

/-- The state after a first, successful exchange: from zero-initialised statics
`sendCommandWaitAnswer(VERSION, NULL, 0, buf, 1)` is called and the peer's
answer frame with payload `[7]` arrives during the first wait. -/
def versionAnswered : Globals :=
  (GatewayModuleInterface_sendCommandWaitAnswer
    (GatewayModuleInterface_init (zeroGlobals [0] [])) GATEWAY_MODULE_CMD_VERSION []
    (Ptr.heap 0) 1 [{ fed := encodeFrame GATEWAY_MODULE_CMD_VERSION [7], signaled := true }]).2

/-- The state after a first call for VERSION that timed out with a silent
peer, followed by an unsolicited-receive frame with payload `[5]`. -/
def timedOutThenReceive : Globals :=
  feed (timedOut (GatewayModuleInterface_init (zeroGlobals [] []))
    GATEWAY_MODULE_CMD_VERSION [] Ptr.null 0 []).2 (encodeFrame GATEWAY_MODULE_CMD_RECEIVE [5])

/-- The enumerators of `GATEWAY_MODULE_CMDS_t`. -/
def isCommandCode (c : Nat) : Prop :=
  c = GATEWAY_MODULE_CMD_NONE ∨ c = GATEWAY_MODULE_CMD_FACTORY ∨ c = GATEWAY_MODULE_CMD_SAVE
    ∨ c = GATEWAY_MODULE_CMD_SETUART ∨ c = GATEWAY_MODULE_CMD_GETUART
    ∨ c = GATEWAY_MODULE_CMD_START ∨ c = GATEWAY_MODULE_CMD_STOP ∨ c = GATEWAY_MODULE_CMD_SEND
    ∨ c = GATEWAY_MODULE_CMD_RECEIVE ∨ c = GATEWAY_MODULE_CMD_RFCONFIG
    ∨ c = GATEWAY_MODULE_CMD_IFCONFIG ∨ c = GATEWAY_MODULE_CMD_IF8CONFIG
    ∨ c = GATEWAY_MODULE_CMD_IF9CONFIG ∨ c = GATEWAY_MODULE_CMD_TXABORT
    ∨ c = GATEWAY_MODULE_CMD_TXSTATUS ∨ c = GATEWAY_MODULE_CMD_VERSION
    ∨ c = GATEWAY_MODULE_CMD_RFCHAIN ∨ c = GATEWAY_MODULE_CMD_IFCHAIN
    ∨ c = GATEWAY_MODULE_CMD_IF8CHAIN ∨ c = GATEWAY_MODULE_CMD_IF9CHAIN
    ∨ c = GATEWAY_MODULE_CMD_SETLEDS ∨ c = GATEWAY_MODULE_CMD_SETSYNC
    ∨ c = GATEWAY_MODULE_CMD_GETSYNC ∨ c = GATEWAY_MODULE_CMD_RXSTATUS
    ∨ c = GATEWAY_MODULE_CMD_BOOTLOADER_MODE ∨ c = GATEWAY_MODULE_CMD_RESET
    ∨ c = GATEWAY_MODULE_CMD_SENDCW ∨ c = GATEWAY_MODULE_CMD_INVALID
    ∨ c = GATEWAY_MODULE_CMD_MFGDATA

instance (c : Nat) : Decidable (isCommandCode c) := by
  unfold isCommandCode; infer_instance

/-- The state in which `sendCommandWaitAck(FACTORY, NULL, 0)` starts waiting,
after `init` on zero-initialised statics, with the local `ack` at address `0`
of a one-byte caller memory holding `1`. -/
def factoryPending : Globals :=
  (sendStart (GatewayModuleInterface_init (zeroGlobals [1] [])) GATEWAY_MODULE_CMD_FACTORY []
    (Ptr.heap 0) 1).2

/-- The successor of a receiver state in the order of the pipeline; the
terminator state is followed by idle. -/
def pipelineNext : STATE_t → STATE_t
  | STATE_t.STATE_WAIT_FOR_START => STATE_t.STATE_WAIT_FOR_CMD
  | STATE_t.STATE_WAIT_FOR_CMD => STATE_t.STATE_WAIT_FOR_LEN0
  | STATE_t.STATE_WAIT_FOR_LEN0 => STATE_t.STATE_WAIT_FOR_LEN1
  | STATE_t.STATE_WAIT_FOR_LEN1 => STATE_t.STATE_WAIT_FOR_DATA
  | STATE_t.STATE_WAIT_FOR_DATA => STATE_t.STATE_WAIT_FOR_CHECKSUM
  | STATE_t.STATE_WAIT_FOR_CHECKSUM => STATE_t.STATE_WAIT_FOR_CR
  | STATE_t.STATE_WAIT_FOR_CR => STATE_t.STATE_WAIT_FOR_START

/-! ## The two threads, one statement at a time -/

/-- The statements of `sendCommandWaitAnswer` that touch the shared state or
call a collaborator, each an atomic step of the calling thread. -/
inductive CallerStmt where
  | write_lock (lock : Bool)
  | set_cmd (cmd : Nat)
  | set_ans_payload (p : Ptr)
  | set_ans_payload_max_size (n : Nat)
  | set_ans_length_zero
  | write (data : List Nat)
  | signal_wait
  | inc_cmd_sequence
  deriving DecidableEq, Repr

/-- One statement of the calling thread: `g_write_lock(lock)` (lines 100, 157),
`g_pending_command.cmd = cmd` (lines 105, 152), `.ans_payload = p` (lines 106,
153), `.ans_payload_max_size = n` (lines 107, 154), `.ans_length = 0` (lines
108, 155), `g_write(data, size)` (lines 133-135), `g_signal_wait(1000)` (line
138), `g_pending_command.cmd_sequence++` (line 151). -/
def callerStep (s : Globals) : CallerStmt → Globals
  | CallerStmt.write_lock b => g_write_lock s b
  | CallerStmt.set_cmd c =>
    { s with g_pending_command := { s.g_pending_command with cmd := c } }
  | CallerStmt.set_ans_payload p =>
    { s with g_pending_command := { s.g_pending_command with ans_payload := p } }
  | CallerStmt.set_ans_payload_max_size n =>
    { s with g_pending_command := { s.g_pending_command with ans_payload_max_size := n } }
  | CallerStmt.set_ans_length_zero =>
    { s with g_pending_command := { s.g_pending_command with ans_length := 0 } }
  | CallerStmt.write data => (g_write s data).2
  | CallerStmt.signal_wait => { s with trace := s.trace ++ [Event.signal_wait 1000] }
  | CallerStmt.inc_cmd_sequence =>
    { s with g_pending_command := { s.g_pending_command with
        cmd_sequence := (s.g_pending_command.cmd_sequence + 1) % 256 } }

/-- A run of statements of the calling thread alone. -/
def callerRun (s : Globals) (ys : List CallerStmt) : Globals :=
  ys.foldl callerStep s

/-- One step of the program: a statement of the calling thread, or one call
of `GatewayModuleInterface_dispatch` by the reader thread. -/
inductive Action where
  | caller (st : CallerStmt)
  | reader (d : Nat)
  deriving DecidableEq, Repr

def act (s : Globals) : Action → Globals
  | Action.caller st => callerStep s st
  | Action.reader d => GatewayModuleInterface_dispatch s d

/-- An interleaving of the two threads. -/
def runActions (s : Globals) (xs : List Action) : Globals :=
  xs.foldl act s

/-- The bytes the reader thread dispatches in an interleaving. -/
def readerBytes : List Action → List Nat
  | [] => []
  | Action.caller _ :: xs => readerBytes xs
  | Action.reader d :: xs => d :: readerBytes xs

/-- How often the send sequence is incremented. -/
def increments : List CallerStmt → Nat
  | [] => 0
  | CallerStmt.inc_cmd_sequence :: ys => increments ys + 1
  | _ :: ys => increments ys

/-- The statements of lines 100-138 of a call whose writes are all attempted. -/
def callStmts (cmd : Nat) (cmd_payload : List Nat) (ans_payload : Ptr)
    (ans_payload_max_size : Nat) : List CallerStmt :=
  [CallerStmt.write_lock true, CallerStmt.set_cmd cmd, CallerStmt.set_ans_payload ans_payload,
   CallerStmt.set_ans_payload_max_size ans_payload_max_size, CallerStmt.set_ans_length_zero,
   CallerStmt.write (commandHeader cmd cmd_payload.length), CallerStmt.write cmd_payload,
   CallerStmt.write (commandFooter cmd cmd_payload), CallerStmt.signal_wait]

/-- The statements of the exit clean-up, lines 151-157. -/
def cleanupStmts : List CallerStmt :=
  [CallerStmt.inc_cmd_sequence, CallerStmt.set_cmd GATEWAY_MODULE_CMD_NONE,
   CallerStmt.set_ans_payload Ptr.null, CallerStmt.set_ans_payload_max_size 0,
   CallerStmt.set_ans_length_zero, CallerStmt.write_lock false]

/-- A frame with command byte `c`, from its start marker to its terminator, in
an interleaving of the two threads: the calling thread executes `ys` between
the start marker and the command byte, and `xs` holds the bytes from length-low
to the checksum together with the statements the calling thread executes
meanwhile. -/
def frameRun (s : Globals) (ys : List CallerStmt) (c : Nat) (xs : List Action) : Globals :=
  runActions s (Action.reader FRAME_START ::
    (ys.map Action.caller ++ Action.reader c :: (xs ++ [Action.reader FRAME_CR])))

/-! ## Memory lemmas -/

theorem blit_getElem? (base cap : Nat) (p : List Nat) : ∀ (mem : List Nat) (k i : Nat),
    (blit mem base cap k p)[i]? =
      if base + k ≤ i ∧ i < base + k + p.length ∧ i < base + cap ∧ i < mem.length
      then p[i - (base + k)]? else mem[i]? := by
  induction p with
  | nil =>
    intro mem k i
    simp only [blit, List.length_nil]
    rw [if_neg (by omega)]
  | cons d ds ih =>
    intro mem k i
    simp only [blit]
    rw [ih]
    have hlen : (if k < cap then mem.set (base + k) d else mem).length = mem.length := by
      split <;> simp
    rw [hlen]
    by_cases h1 : i = base + k
    · subst h1
      have hc1 : ¬ (base + (k + 1) ≤ base + k ∧ base + k < base + (k + 1) + ds.length
          ∧ base + k < base + cap ∧ base + k < mem.length) := by omega
      rw [if_neg hc1]
      by_cases hk : k < cap
      · by_cases hm : base + k < mem.length
        · have hc2 : base + k ≤ base + k ∧ base + k < base + k + (d :: ds).length
              ∧ base + k < base + cap ∧ base + k < mem.length := by
            simp only [List.length_cons]; omega
          rw [if_pos hc2, if_pos hk]
          simp [List.getElem?_set, hm]
        · have hc2 : ¬ (base + k ≤ base + k ∧ base + k < base + k + (d :: ds).length
              ∧ base + k < base + cap ∧ base + k < mem.length) := by omega
          rw [if_neg hc2, if_pos hk]
          simp [List.getElem?_set, hm]
          omega
      · have hc2 : ¬ (base + k ≤ base + k ∧ base + k < base + k + (d :: ds).length
            ∧ base + k < base + cap ∧ base + k < mem.length) := by omega
        rw [if_neg hc2, if_neg hk]
    · have hset : (if k < cap then mem.set (base + k) d else mem)[i]? = mem[i]? := by
        split
        · rw [List.getElem?_set_ne (by omega)]
        · rfl
      rw [hset]
      by_cases h2 : base + k < i
      · obtain ⟨j, hj⟩ : ∃ j, i = base + k + 1 + j := ⟨i - (base + k + 1), by omega⟩
        subst hj
        have e1 : base + k + 1 + j - (base + (k + 1)) = j := by omega
        have e2 : base + k + 1 + j - (base + k) = j + 1 := by omega
        rw [e1, e2]
        simp only [List.length_cons, List.getElem?_cons_succ]
        by_cases hc : base + k + 1 + j < base + k + 1 + ds.length ∧ base + k + 1 + j < base + cap
            ∧ base + k + 1 + j < mem.length
        · rw [if_pos (by omega), if_pos (by omega)]
        · rw [if_neg (by omega), if_neg (by omega)]
      · rw [if_neg (by omega), if_neg (by omega)]

/-- When the whole of `p` fits (below the capacity and inside the memory), the
bytes of `p` are found in the memory at `base`. -/
theorem blit_take_drop (mem : List Nat) (base cap : Nat) (p : List Nat)
    (hcap : p.length ≤ cap) (hmem : base + p.length ≤ mem.length) :
    ((blit mem base cap 0 p).drop base).take p.length = p := by
  apply List.ext_getElem?
  intro j
  rw [List.getElem?_take]
  by_cases hj : j < p.length
  · rw [if_pos hj, List.getElem?_drop, blit_getElem?, if_pos (by omega)]
    congr 1
    omega
  · rw [if_neg hj, List.getElem?_eq_none (by omega)]

/-! ## One step of the receiver -/

theorem feed_nil (s : Globals) : feed s [] = s := rfl

theorem feed_cons (s : Globals) (d : Nat) (ds : List Nat) :
    feed s (d :: ds) = feed (GatewayModuleInterface_dispatch s d) ds := rfl

theorem feed_append (s : Globals) (xs ys : List Nat) :
    feed s (xs ++ ys) = feed (feed s xs) ys := by
  simp [feed, List.foldl_append]

theorem dispatch_start_marker (s : Globals) (h : s.g_state = STATE_t.STATE_WAIT_FOR_START) :
    GatewayModuleInterface_dispatch s FRAME_START =
      { s with g_rx_context := { s.g_rx_context with checksum := FRAME_START },
               g_state := STATE_t.STATE_WAIT_FOR_CMD } := by
  simp [GatewayModuleInterface_dispatch, h, setState]

theorem dispatch_start_other (s : Globals) (d : Nat)
    (h : s.g_state = STATE_t.STATE_WAIT_FOR_START) (hd : d ≠ FRAME_START) :
    GatewayModuleInterface_dispatch s d = s := by
  simp [GatewayModuleInterface_dispatch, h, hd]

theorem dispatch_cmd_answer (s : Globals) (d : Nat)
    (h : s.g_state = STATE_t.STATE_WAIT_FOR_CMD) (hd : d = s.g_pending_command.cmd) :
    GatewayModuleInterface_dispatch s d =
      { s with
        g_rx_type := RX_TYPE_t.RX_TYPE_ANSWER
        g_rx_context := { s.g_rx_context with
          checksum := (s.g_rx_context.checksum + d) % 256
          cmd := d
          payload := s.g_pending_command.ans_payload
          max_size := s.g_pending_command.ans_payload_max_size }
        g_pending_command := { s.g_pending_command with
          ans_sequence := s.g_pending_command.cmd_sequence }
        g_state := STATE_t.STATE_WAIT_FOR_LEN0 } := by
  simp [GatewayModuleInterface_dispatch, h, hd, setState]

theorem dispatch_data (s : Globals) (d : Nat) (h : s.g_state = STATE_t.STATE_WAIT_FOR_DATA) :
    GatewayModuleInterface_dispatch s d =
      { s with
        g_rx_context := { s.g_rx_context with
          checksum := (s.g_rx_context.checksum + d) % 256
          counter := s.g_rx_context.counter + 1 }
        g_state := if s.g_rx_context.counter + 1 ≥ s.g_rx_context.length
          then STATE_t.STATE_WAIT_FOR_CHECKSUM else STATE_t.STATE_WAIT_FOR_DATA
        heap := heapAfter s.g_rx_context.payload s.g_rx_context.max_size s.heap
          s.g_rx_context.counter [d]
        g_receive_buffer := rbufAfter s.g_rx_context.payload s.g_rx_context.max_size
          s.g_receive_buffer s.g_rx_context.counter [d] } := by
  cases hp : s.g_rx_context.payload <;>
    by_cases hc : s.g_rx_context.counter < s.g_rx_context.max_size <;>
    by_cases hl : s.g_rx_context.length ≤ s.g_rx_context.counter + 1 <;>
    simp [GatewayModuleInterface_dispatch, h, hp, hc, hl, setState, store, heapAfter,
      rbufAfter, blit]

theorem feed_data (p : List Nat) : ∀ (s : Globals),
    s.g_state = STATE_t.STATE_WAIT_FOR_DATA → p ≠ [] →
    s.g_rx_context.counter + p.length = max (s.g_rx_context.counter + 1) s.g_rx_context.length →
    feed s p =
      { s with
        g_rx_context := { s.g_rx_context with
          checksum := sum8 s.g_rx_context.checksum p
          counter := s.g_rx_context.counter + p.length }
        g_state := STATE_t.STATE_WAIT_FOR_CHECKSUM
        heap := heapAfter s.g_rx_context.payload s.g_rx_context.max_size s.heap
          s.g_rx_context.counter p
        g_receive_buffer := rbufAfter s.g_rx_context.payload s.g_rx_context.max_size
          s.g_receive_buffer s.g_rx_context.counter p } := by
  induction p with
  | nil => intro s _ h; exact absurd rfl h
  | cons d ds ih =>
    intro s hs _ hlen
    rw [feed_cons, dispatch_data s d hs]
    by_cases hds : ds = []
    · subst hds
      simp only [List.length_cons, List.length_nil] at hlen
      have hl : s.g_rx_context.length ≤ s.g_rx_context.counter + 1 := by omega
      simp [feed, hl, sum8]
    · have hpos : 0 < ds.length := List.length_pos.mpr hds
      simp only [List.length_cons] at hlen
      have hl : ¬ s.g_rx_context.length ≤ s.g_rx_context.counter + 1 := by omega
      rw [ih _ (by simp [hl]) hds (by simp; omega)]
      cases hp : s.g_rx_context.payload <;>
        simp [hl, sum8, heapAfter, rbufAfter, blit, hp, Nat.add_assoc, Nat.add_comm 1]

theorem dispatch_cmd_receive (s : Globals) (d : Nat)
    (h : s.g_state = STATE_t.STATE_WAIT_FOR_CMD) (hne : d ≠ s.g_pending_command.cmd)
    (hd : d = GATEWAY_MODULE_CMD_RECEIVE) :
    GatewayModuleInterface_dispatch s d =
      { s with
        g_rx_type := RX_TYPE_t.RX_TYPE_RECEIVE
        g_rx_context := { s.g_rx_context with
          checksum := (s.g_rx_context.checksum + d) % 256
          cmd := d
          payload := Ptr.receive_buffer
          max_size := 300 }
        g_state := STATE_t.STATE_WAIT_FOR_LEN0 } := by
  subst hd
  simp [GatewayModuleInterface_dispatch, h, hne, setState]

theorem dispatch_cmd_invalid (s : Globals) (d : Nat)
    (h : s.g_state = STATE_t.STATE_WAIT_FOR_CMD) (hne : d ≠ s.g_pending_command.cmd)
    (hd : d = GATEWAY_MODULE_CMD_INVALID) :
    GatewayModuleInterface_dispatch s d =
      { s with
        g_rx_type := RX_TYPE_t.RX_TYPE_INVALID
        g_rx_context := { s.g_rx_context with
          checksum := (s.g_rx_context.checksum + d) % 256
          cmd := d
          payload := Ptr.null
          max_size := 0 }
        g_state := STATE_t.STATE_WAIT_FOR_LEN0 } := by
  subst hd
  simp [GatewayModuleInterface_dispatch, h, hne, setState]

theorem dispatch_cmd_unknown (s : Globals) (d : Nat)
    (h : s.g_state = STATE_t.STATE_WAIT_FOR_CMD) (hne : d ≠ s.g_pending_command.cmd)
    (h1 : d ≠ GATEWAY_MODULE_CMD_RECEIVE) (h2 : d ≠ GATEWAY_MODULE_CMD_INVALID) :
    GatewayModuleInterface_dispatch s d =
      { s with
        g_rx_context := { s.g_rx_context with
          checksum := (s.g_rx_context.checksum + d) % 256
          cmd := d }
        g_state := STATE_t.STATE_WAIT_FOR_START } := by
  simp [GatewayModuleInterface_dispatch, h, hne, h1, h2, setState]

theorem dispatch_len0 (s : Globals) (d : Nat) (h : s.g_state = STATE_t.STATE_WAIT_FOR_LEN0) :
    GatewayModuleInterface_dispatch s d =
      { s with
        g_rx_context := { s.g_rx_context with
          checksum := (s.g_rx_context.checksum + d) % 256
          length := d }
        g_state := STATE_t.STATE_WAIT_FOR_LEN1 } := by
  simp [GatewayModuleInterface_dispatch, h, setState]

theorem dispatch_len1 (s : Globals) (d : Nat) (h : s.g_state = STATE_t.STATE_WAIT_FOR_LEN1) :
    GatewayModuleInterface_dispatch s d =
      if s.g_rx_context.length + d * 256 ≤ maxAnswerLength s.g_rx_context.cmd then
        { s with
          g_rx_context := { s.g_rx_context with
            checksum := (s.g_rx_context.checksum + d) % 256
            length := s.g_rx_context.length + d * 256
            counter := 0 }
          g_state := STATE_t.STATE_WAIT_FOR_DATA }
      else
        { s with
          g_rx_context := { s.g_rx_context with
            checksum := (s.g_rx_context.checksum + d) % 256
            length := s.g_rx_context.length + d * 256 }
          g_state := STATE_t.STATE_WAIT_FOR_START } := by
  by_cases hl : s.g_rx_context.length + d * 256 ≤ maxAnswerLength s.g_rx_context.cmd <;>
    simp [GatewayModuleInterface_dispatch, h, hl, setState]

theorem dispatch_checksum (s : Globals) (d : Nat)
    (h : s.g_state = STATE_t.STATE_WAIT_FOR_CHECKSUM) :
    GatewayModuleInterface_dispatch s d =
      if s.g_rx_context.checksum = d then { s with g_state := STATE_t.STATE_WAIT_FOR_CR }
      else { GatewayModuleInterface_sendAck s s.g_rx_context.cmd false with
              g_state := STATE_t.STATE_WAIT_FOR_START } := by
  by_cases hl : s.g_rx_context.checksum = d <;>
    simp [GatewayModuleInterface_dispatch, h, hl, setState]

theorem dispatch_cr_answer (s : Globals)
    (h : s.g_state = STATE_t.STATE_WAIT_FOR_CR) (ht : s.g_rx_type = RX_TYPE_t.RX_TYPE_ANSWER)
    (hseq : s.g_pending_command.ans_sequence = s.g_pending_command.cmd_sequence) :
    GatewayModuleInterface_dispatch s FRAME_CR =
      { s with
        g_pending_command := { s.g_pending_command with ans_length := s.g_rx_context.length }
        trace := s.trace ++ [Event.signal_set]
        g_state := STATE_t.STATE_WAIT_FOR_START } := by
  simp [GatewayModuleInterface_dispatch, h, ht, hseq, setState, g_signal_set]

theorem dispatch_cr_stale (s : Globals)
    (h : s.g_state = STATE_t.STATE_WAIT_FOR_CR) (ht : s.g_rx_type = RX_TYPE_t.RX_TYPE_ANSWER)
    (hseq : s.g_pending_command.ans_sequence ≠ s.g_pending_command.cmd_sequence) :
    GatewayModuleInterface_dispatch s FRAME_CR =
      { s with g_state := STATE_t.STATE_WAIT_FOR_START } := by
  simp [GatewayModuleInterface_dispatch, h, ht, hseq, setState]

theorem dispatch_cr_invalid (s : Globals)
    (h : s.g_state = STATE_t.STATE_WAIT_FOR_CR) (ht : s.g_rx_type = RX_TYPE_t.RX_TYPE_INVALID) :
    GatewayModuleInterface_dispatch s FRAME_CR =
      { s with
        g_pending_command := { s.g_pending_command with ans_length := 0 }
        trace := s.trace ++ [Event.signal_set]
        g_state := STATE_t.STATE_WAIT_FOR_START } := by
  simp [GatewayModuleInterface_dispatch, h, ht, setState, g_signal_set]

theorem dispatch_cr_receive (s : Globals)
    (h : s.g_state = STATE_t.STATE_WAIT_FOR_CR) (ht : s.g_rx_type = RX_TYPE_t.RX_TYPE_RECEIVE) :
    GatewayModuleInterface_dispatch s FRAME_CR =
      { s with
        trace := s.trace ++
          [Event.receive_callback (s.g_receive_buffer.take s.g_rx_context.length)
            s.g_rx_context.length]
        g_state := STATE_t.STATE_WAIT_FOR_START } := by
  simp [GatewayModuleInterface_dispatch, h, ht, setState, g_receive_callback]

theorem dispatch_cr_other (s : Globals) (d : Nat)
    (h : s.g_state = STATE_t.STATE_WAIT_FOR_CR) (hd : d ≠ FRAME_CR) :
    GatewayModuleInterface_dispatch s d = { s with g_state := STATE_t.STATE_WAIT_FOR_START } := by
  simp [GatewayModuleInterface_dispatch, h, hd, setState]

theorem maxAnswerLength_le (cmd : Nat) : maxAnswerLength cmd ≤ 300 := by
  unfold maxAnswerLength
  repeat' split
  all_goals omega

/-! ## A frame body: length bytes, payload, checksum byte -/

/-- From the state reached after an accepted command byte, the two length
bytes, a non-empty payload within the command's maximum and the matching
checksum byte bring the receiver to the terminator state, with the payload
stored through the target pointer. -/
theorem feed_body (s : Globals) (p : List Nat)
    (hs : s.g_state = STATE_t.STATE_WAIT_FOR_LEN0) (hp : p ≠ [])
    (hmax : p.length ≤ maxAnswerLength s.g_rx_context.cmd) :
    feed s ([p.length % 256, p.length / 256 % 256] ++ p ++
        [sum8 s.g_rx_context.checksum ([p.length % 256, p.length / 256 % 256] ++ p)]) =
      { s with
        g_rx_context := { s.g_rx_context with
          checksum := sum8 s.g_rx_context.checksum ([p.length % 256, p.length / 256 % 256] ++ p)
          length := p.length
          counter := p.length }
        g_state := STATE_t.STATE_WAIT_FOR_CR
        heap := heapAfter s.g_rx_context.payload s.g_rx_context.max_size s.heap 0 p
        g_receive_buffer := rbufAfter s.g_rx_context.payload s.g_rx_context.max_size
          s.g_receive_buffer 0 p } := by
  have h300 := maxAnswerLength_le s.g_rx_context.cmd
  have hL : p.length % 256 + p.length / 256 % 256 * 256 = p.length := by omega
  have hpos : 0 < p.length := List.length_pos.mpr hp
  have e1 : feed s [p.length % 256, p.length / 256 % 256] =
      { s with
        g_rx_context := { s.g_rx_context with
          checksum := ((s.g_rx_context.checksum + p.length % 256) % 256
            + p.length / 256 % 256) % 256
          length := p.length
          counter := 0 }
        g_state := STATE_t.STATE_WAIT_FOR_DATA } := by
    rw [feed_cons, feed_cons, feed_nil, dispatch_len0 s _ hs, dispatch_len1 _ _ rfl]
    simp only [hL, if_pos hmax]
  rw [feed_append, feed_append, e1, feed_data p _ rfl hp (by simp; omega), feed_cons, feed_nil,
    dispatch_checksum _ _ rfl]
  simp [sum8, List.foldl_append]

/-! ## Whole frames -/

theorem encodeFrame_eq (c : Nat) (p : List Nat) (hc : c < 256) :
    encodeFrame c p = [FRAME_START, c] ++
      ([p.length % 256, p.length / 256 % 256] ++ p ++
        [sum8 ((FRAME_START + c) % 256) ([p.length % 256, p.length / 256 % 256] ++ p)]) ++
      [FRAME_CR] := by
  simp [encodeFrame, commandHeader, commandFooter, sum8, Nat.mod_eq_of_lt hc]

/-- A frame for the pending command, fed to the idle receiver. -/
theorem feed_frame_answer (s : Globals) (c : Nat) (p : List Nat)
    (hs : s.g_state = STATE_t.STATE_WAIT_FOR_START) (hc : c < 256)
    (hcmd : c = s.g_pending_command.cmd) (hp : p ≠ [])
    (hmax : p.length ≤ maxAnswerLength c) :
    feed s (encodeFrame c p) =
      { s with
        g_rx_type := RX_TYPE_t.RX_TYPE_ANSWER
        g_rx_context := { s.g_rx_context with
          cmd := c
          payload := s.g_pending_command.ans_payload
          max_size := s.g_pending_command.ans_payload_max_size
          checksum := sum8 ((FRAME_START + c) % 256)
            ([p.length % 256, p.length / 256 % 256] ++ p)
          length := p.length
          counter := p.length }
        g_pending_command := { s.g_pending_command with
          ans_sequence := s.g_pending_command.cmd_sequence
          ans_length := p.length }
        g_state := STATE_t.STATE_WAIT_FOR_START
        heap := heapAfter s.g_pending_command.ans_payload
          s.g_pending_command.ans_payload_max_size s.heap 0 p
        g_receive_buffer := rbufAfter s.g_pending_command.ans_payload
          s.g_pending_command.ans_payload_max_size s.g_receive_buffer 0 p
        trace := s.trace ++ [Event.signal_set] } := by
  have e1 : feed s [FRAME_START, c] =
      { s with
        g_rx_type := RX_TYPE_t.RX_TYPE_ANSWER
        g_rx_context := { s.g_rx_context with
          checksum := (FRAME_START + c) % 256
          cmd := c
          payload := s.g_pending_command.ans_payload
          max_size := s.g_pending_command.ans_payload_max_size }
        g_pending_command := { s.g_pending_command with
          ans_sequence := s.g_pending_command.cmd_sequence }
        g_state := STATE_t.STATE_WAIT_FOR_LEN0 } := by
    rw [feed_cons, feed_cons, feed_nil, dispatch_start_marker s hs]
    simp [GatewayModuleInterface_dispatch, hcmd, setState]
  rw [encodeFrame_eq c p hc, feed_append, feed_append, e1, feed_body _ p rfl hp hmax,
    feed_cons, feed_nil, dispatch_cr_answer _ rfl rfl rfl]

/-- An unsolicited-receive frame, fed to the idle receiver while another
command (or none) is pending. -/
theorem feed_frame_receive (s : Globals) (p : List Nat)
    (hs : s.g_state = STATE_t.STATE_WAIT_FOR_START)
    (hcmd : s.g_pending_command.cmd ≠ GATEWAY_MODULE_CMD_RECEIVE) (hp : p ≠ [])
    (hmax : p.length ≤ 300) :
    feed s (encodeFrame GATEWAY_MODULE_CMD_RECEIVE p) =
      { s with
        g_rx_type := RX_TYPE_t.RX_TYPE_RECEIVE
        g_rx_context := { s.g_rx_context with
          cmd := GATEWAY_MODULE_CMD_RECEIVE
          payload := Ptr.receive_buffer
          max_size := 300
          checksum := sum8 ((FRAME_START + GATEWAY_MODULE_CMD_RECEIVE) % 256)
            ([p.length % 256, p.length / 256 % 256] ++ p)
          length := p.length
          counter := p.length }
        g_state := STATE_t.STATE_WAIT_FOR_START
        g_receive_buffer := blit s.g_receive_buffer 0 300 0 p
        trace := s.trace ++
          [Event.receive_callback ((blit s.g_receive_buffer 0 300 0 p).take p.length)
            p.length] } := by
  have e1 : feed s [FRAME_START, GATEWAY_MODULE_CMD_RECEIVE] =
      { s with
        g_rx_type := RX_TYPE_t.RX_TYPE_RECEIVE
        g_rx_context := { s.g_rx_context with
          checksum := (FRAME_START + GATEWAY_MODULE_CMD_RECEIVE) % 256
          cmd := GATEWAY_MODULE_CMD_RECEIVE
          payload := Ptr.receive_buffer
          max_size := 300 }
        g_state := STATE_t.STATE_WAIT_FOR_LEN0 } := by
    rw [feed_cons, feed_cons, feed_nil, dispatch_start_marker s hs]
    simp [GatewayModuleInterface_dispatch, Ne.symm hcmd, setState]
  rw [encodeFrame_eq _ p (by decide), feed_append, feed_append, e1,
    feed_body _ p rfl hp (by simpa [maxAnswerLength] using hmax),
    feed_cons, feed_nil, dispatch_cr_receive _ rfl rfl]
  simp [heapAfter, rbufAfter]

/-! ## C1: round trip -/

/-- The table of `maxAnswerLength` with the numeric values of the command codes. -/
theorem maxAnswerLength_values (cmd : Nat) :
    maxAnswerLength cmd =
      if cmd = 0x21 ∨ cmd = 0x42 ∨ cmd = 0x30 ∨ cmd = 0x31 ∨ cmd = 0x32 ∨ cmd = 0x34
          ∨ cmd = 0x35 ∨ cmd = 0x36 ∨ cmd = 0x37 ∨ cmd = 0x38 ∨ cmd = 0x39 ∨ cmd = 0x3F
          ∨ cmd = 0x40 ∨ cmd = 0x41 ∨ cmd = 0x43 ∨ cmd = 0x25 ∨ cmd = 0xFF ∨ cmd = 0x07
          ∨ cmd = 0x50 then 1
      else if cmd = 0x62 then 4
      else if cmd = 0x3B then 5
      else if cmd = 0x3C then 7
      else if cmd = 0x3D then 8
      else if cmd = 0x3A then 16
      else if cmd = 0x3E then 11
      else if cmd = 0x33 then 300
      else 0 := rfl

theorem maxAnswerLength_pos_lt (c : Nat) (h : 0 < maxAnswerLength c) : c < 256 := by
  rw [maxAnswerLength_values] at h
  repeat' split at h
  all_goals omega

/-- C1 (amended): for a command code `c` the receiver accepts (the pending
command's code, or the unsolicited-receive code `0x33`) and a payload of
length `L` with `1 ≤ L ≤ maxAnswerLength c` (and, for an answer, `L` within the
capacity of the caller's answer buffer, which lies inside the caller memory),
feeding the encoder's bytes for `(c, payload)` to the idle receiver dispatches
exactly one frame with reported length `L` and the original payload bytes, and
leaves the receiver idle. -/
theorem C1_roundtrip (s : Globals) (c a : Nat) (p : List Nat)
    (hs : s.g_state = STATE_t.STATE_WAIT_FOR_START)
    (hacc : c = s.g_pending_command.cmd ∨ c = GATEWAY_MODULE_CMD_RECEIVE)
    (hL1 : 1 ≤ p.length) (hmax : p.length ≤ maxAnswerLength c)
    (hbuf : c = s.g_pending_command.cmd →
      s.g_pending_command.ans_payload = Ptr.heap a ∧
      p.length ≤ s.g_pending_command.ans_payload_max_size ∧
      a + p.length ≤ s.heap.length)
    (hrbuf : s.g_receive_buffer.length = 300) :
    (feed s (encodeFrame c p)).g_state = STATE_t.STATE_WAIT_FOR_START ∧
    (c = s.g_pending_command.cmd →
      (feed s (encodeFrame c p)).trace = s.trace ++ [Event.signal_set] ∧
      (feed s (encodeFrame c p)).g_pending_command.ans_length = p.length ∧
      (((feed s (encodeFrame c p)).heap.drop a).take p.length = p)) ∧
    (c ≠ s.g_pending_command.cmd →
      (feed s (encodeFrame c p)).trace =
        s.trace ++ [Event.receive_callback p p.length]) := by
  have hp : p ≠ [] := by
    intro h; subst h; simp at hL1
  have hc : c < 256 := maxAnswerLength_pos_lt c (by omega)
  by_cases hcmd : c = s.g_pending_command.cmd
  · obtain ⟨hptr, hcap, hmem⟩ := hbuf hcmd
    rw [feed_frame_answer s c p hs hc hcmd hp hmax]
    refine ⟨rfl, fun _ => ⟨rfl, rfl, ?_⟩, fun h => absurd hcmd h⟩
    simp only [hptr, heapAfter]
    exact blit_take_drop s.heap a _ p hcap hmem
  · have hrecv : c = GATEWAY_MODULE_CMD_RECEIVE := hacc.resolve_left hcmd
    subst hrecv
    have h300 : p.length ≤ 300 := by simpa [maxAnswerLength] using hmax
    rw [feed_frame_receive s p hs (fun h => hcmd h.symm) hp h300]
    refine ⟨rfl, fun h => absurd h hcmd, fun _ => ?_⟩
    have := blit_take_drop s.g_receive_buffer 0 300 p h300 (by omega)
    simp only [List.drop_zero] at this
    simp only [this]

/-- The round trip of C1 on a three-byte VERSION answer into a four-byte buffer. -/
theorem C1_roundtrip_witness :
    (feed (versionPending [0, 0, 0, 0] 4) (encodeFrame 0x3A [7, 8, 9])).g_state
        = STATE_t.STATE_WAIT_FOR_START ∧
    (0x3A = (versionPending [0, 0, 0, 0] 4).g_pending_command.cmd →
      (feed (versionPending [0, 0, 0, 0] 4) (encodeFrame 0x3A [7, 8, 9])).trace =
        (versionPending [0, 0, 0, 0] 4).trace ++ [Event.signal_set] ∧
      (feed (versionPending [0, 0, 0, 0] 4)
        (encodeFrame 0x3A [7, 8, 9])).g_pending_command.ans_length = [7, 8, 9].length ∧
      (((feed (versionPending [0, 0, 0, 0] 4) (encodeFrame 0x3A [7, 8, 9])).heap.drop 0).take
        [7, 8, 9].length = [7, 8, 9])) ∧
    (0x3A ≠ (versionPending [0, 0, 0, 0] 4).g_pending_command.cmd →
      (feed (versionPending [0, 0, 0, 0] 4) (encodeFrame 0x3A [7, 8, 9])).trace =
        (versionPending [0, 0, 0, 0] 4).trace ++ [Event.receive_callback [7, 8, 9] [7, 8, 9].length]) :=
  C1_roundtrip (versionPending [0, 0, 0, 0] 4) 0x3A 0 [7, 8, 9] rfl (Or.inl rfl)
    (by decide) (by decide) (fun _ => ⟨rfl, by decide, by decide⟩)
    (List.length_replicate _ _)

/-- C1 as stated fails: (1) a payload longer than the command's maximum (17
bytes for VERSION, maximum 16) is dropped at the length check, nothing is
dispatched; (2) a payload longer than the answer buffer (2 bytes, capacity 1)
is dispatched with reported length 2 although only one byte is delivered;
(3) the encoder's frame for an empty payload is not dispatched either. -/
theorem C1_counterexample :
    ((feed (versionPending (List.replicate 17 0) 17)
        (encodeFrame 0x3A (List.replicate 17 1))).trace
      = (versionPending (List.replicate 17 0) 17).trace ∧
     (feed (versionPending (List.replicate 17 0) 17)
        (encodeFrame 0x3A (List.replicate 17 1))).heap = List.replicate 17 0) ∧
    ((feed (versionPending [0, 0] 1) (encodeFrame 0x3A [7, 8])).g_pending_command.ans_length = 2 ∧
     (feed (versionPending [0, 0] 1) (encodeFrame 0x3A [7, 8])).heap = [7, 0]) ∧
    (Event.signal_set ∉ (feed (versionPending [] 0) (encodeFrame 0x3A [])).trace) := by
  decide

/-! ## The sending side -/

theorem sum8_eq (l : List Nat) : ∀ (i : Nat), i < 256 → sum8 i l = (i + l.sum) % 256 := by
  induction l with
  | nil => intro i hi; simp [sum8]; omega
  | cons b bs ih =>
    intro i hi
    have h := ih ((i + b) % 256) (Nat.mod_lt _ (by decide))
    simp only [sum8, List.foldl_cons, List.sum_cons] at h ⊢
    rw [h]
    omega

theorem writtenBytes_append (xs ys : List Event) :
    writtenBytes (xs ++ ys) = writtenBytes xs ++ writtenBytes ys := by
  induction xs with
  | nil => rfl
  | cons e es ih => cases e <;> simp [writtenBytes, ih]

theorem g_write_ok (s : Globals) (data : List Nat) (hw : writesSucceed s) :
    g_write s data = (true, { s with write_results := s.write_results.tail,
                                     trace := s.trace ++ [Event.write data true] }) := by
  unfold writesSucceed at hw
  unfold g_write
  cases hws : s.write_results with
  | nil => simp
  | cons b bs =>
    have : b = true := hw b (by simp [hws])
    simp [this]

theorem writesSucceed_tail (s : Globals) (hw : writesSucceed s) (t : List Event)
    (pc : answer_context_t) :
    writesSucceed { s with write_results := s.write_results.tail, trace := t,
                           g_pending_command := pc } := by
  unfold writesSucceed at hw ⊢
  intro b hb
  exact hw b (List.mem_of_mem_tail hb)

/-- With successful writes, `sendStart` publishes the pending command and
writes header, payload and footer. -/
theorem sendStart_ok (s : Globals) (cmd : Nat) (cmd_payload : List Nat) (ans_payload : Ptr)
    (ans_payload_max_size : Nat) (hw : writesSucceed s) :
    sendStart s cmd cmd_payload ans_payload ans_payload_max_size =
      (true, { s with
        g_pending_command := { s.g_pending_command with
          cmd := cmd
          ans_payload := ans_payload
          ans_payload_max_size := ans_payload_max_size
          ans_length := 0 }
        write_results := s.write_results.tail.tail.tail
        trace := s.trace ++ [Event.write_lock true,
          Event.write (commandHeader cmd cmd_payload.length) true,
          Event.write cmd_payload true,
          Event.write (commandFooter cmd cmd_payload) true] }) := by
  unfold writesSucceed at hw
  obtain ⟨ws, hws⟩ : ∃ ws, s.write_results = ws := ⟨_, rfl⟩
  rw [hws] at hw
  rcases ws with _ | ⟨b1, _ | ⟨b2, _ | ⟨b3, r⟩⟩⟩ <;>
    simp_all [sendStart, andWrite, g_write, g_write_lock]

/-! ## What the library never touches -/

theorem grewBy_refl (P : Event → Bool) (s : Globals) : grewBy P s s :=
  ⟨rfl, rfl, rfl, rfl, rfl, rfl, [], by simp, by simp⟩

theorem grewBy_trans {P : Event → Bool} {s t u : Globals} (h1 : grewBy P s t)
    (h2 : grewBy P t u) : grewBy P s u := by
  obtain ⟨a1, a2, a3, a4, a5, a6, e1, ht1, he1⟩ := h1
  obtain ⟨b1, b2, b3, b4, b5, b6, e2, ht2, he2⟩ := h2
  refine ⟨b1.trans a1, b2.trans a2, b3.trans a3, b4.trans a4, b5.trans a5, b6.trans a6,
    e1 ++ e2, by rw [ht2, ht1, List.append_assoc], ?_⟩
  intro e he
  rcases List.mem_append.mp he with h | h
  · exact he1 e h
  · exact he2 e h

theorem grewBy_mono {P Q : Event → Bool} (hPQ : ∀ e, P e = true → Q e = true) {s t : Globals}
    (h : grewBy P s t) : grewBy Q s t := by
  obtain ⟨a1, a2, a3, a4, a5, a6, e1, ht1, he1⟩ := h
  exact ⟨a1, a2, a3, a4, a5, a6, e1, ht1, fun e he => hPQ e (he1 e he)⟩

theorem grewBy_lock (s : Globals) (b : Bool) : grewBy Event.isLock s (g_write_lock s b) :=
  ⟨rfl, rfl, rfl, rfl, rfl, rfl, [Event.write_lock b], rfl, by simp [Event.isLock]⟩

theorem grewBy_andWrite (r : Bool) (s : Globals) (data : List Nat) :
    grewBy Event.isWrite s (andWrite r s data).2 := by
  cases r
  · exact grewBy_refl _ s
  · exact ⟨rfl, rfl, rfl, rfl, rfl, rfl, [Event.write data (s.write_results.headD true)], rfl,
      by simp [Event.isWrite]⟩

theorem isTransport_of_isLock (e : Event) (h : e.isLock = true) : e.isTransport = true := by
  simp [Event.isTransport, h]

theorem isTransport_of_isWrite (e : Event) (h : e.isWrite = true) : e.isTransport = true := by
  simp [Event.isTransport, h]

theorem grewBy_sendAck (s : Globals) (c : Nat) (a : Bool) :
    grewBy Event.isTransport s (GatewayModuleInterface_sendAck s c a) := by
  unfold GatewayModuleInterface_sendAck
  have hl := fun (s : Globals) (b : Bool) => grewBy_mono isTransport_of_isLock (grewBy_lock s b)
  have hw := fun (r : Bool) (s : Globals) (d : List Nat) =>
    grewBy_mono isTransport_of_isWrite (grewBy_andWrite r s d)
  exact grewBy_trans (hl s true)
    (grewBy_trans (hw _ _ _) (grewBy_trans (hw _ _ _) (grewBy_trans (hw _ _ _) (hl _ false))))

theorem readerKeeps_refl (s : Globals) : readerKeeps s s :=
  ⟨rfl, rfl, rfl, rfl, [], by simp⟩

theorem readerKeeps_trans {s t u : Globals} (h1 : readerKeeps s t) (h2 : readerKeeps t u) :
    readerKeeps s u := by
  obtain ⟨a1, a2, a3, a4, e1, ht1⟩ := h1
  obtain ⟨b1, b2, b3, b4, e2, ht2⟩ := h2
  exact ⟨b1.trans a1, b2.trans a2, b3.trans a3, b4.trans a4, e1 ++ e2,
    by rw [ht2, ht1, List.append_assoc]⟩

theorem readerKeeps_dispatch (s : Globals) (d : Nat) :
    readerKeeps s (GatewayModuleInterface_dispatch s d) := by
  cases hst : s.g_state
  · by_cases hd : d = FRAME_START
    · subst hd
      rw [dispatch_start_marker s hst]
      exact ⟨rfl, rfl, rfl, rfl, [], by simp⟩
    · rw [dispatch_start_other s d hst hd]
      exact readerKeeps_refl s
  · by_cases h1 : d = s.g_pending_command.cmd
    · rw [dispatch_cmd_answer s d hst h1]
      exact ⟨rfl, rfl, rfl, rfl, [], by simp⟩
    · by_cases h2 : d = GATEWAY_MODULE_CMD_RECEIVE
      · rw [dispatch_cmd_receive s d hst h1 h2]
        exact ⟨rfl, rfl, rfl, rfl, [], by simp⟩
      · by_cases h3 : d = GATEWAY_MODULE_CMD_INVALID
        · rw [dispatch_cmd_invalid s d hst h1 h3]
          exact ⟨rfl, rfl, rfl, rfl, [], by simp⟩
        · rw [dispatch_cmd_unknown s d hst h1 h2 h3]
          exact ⟨rfl, rfl, rfl, rfl, [], by simp⟩
  · rw [dispatch_len0 s d hst]
    exact ⟨rfl, rfl, rfl, rfl, [], by simp⟩
  · rw [dispatch_len1 s d hst]
    split <;> exact ⟨rfl, rfl, rfl, rfl, [], by simp⟩
  · rw [dispatch_data s d hst]
    exact ⟨rfl, rfl, rfl, rfl, [], by simp⟩
  · rw [dispatch_checksum s d hst]
    split
    · exact ⟨rfl, rfl, rfl, rfl, [], by simp⟩
    · obtain ⟨a1, _, _, _, _, _, evs, ht, _⟩ := grewBy_sendAck s s.g_rx_context.cmd false
      exact ⟨by simp [a1], by simp [a1], by simp [a1], by simp [a1], evs, by simp [ht]⟩
  · by_cases hd : d = FRAME_CR
    · subst hd
      cases hty : s.g_rx_type
      · by_cases hseq : s.g_pending_command.ans_sequence = s.g_pending_command.cmd_sequence
        · rw [dispatch_cr_answer s hst hty hseq]
          exact ⟨rfl, rfl, rfl, rfl, _, rfl⟩
        · rw [dispatch_cr_stale s hst hty hseq]
          exact ⟨rfl, rfl, rfl, rfl, [], by simp⟩
      · rw [dispatch_cr_invalid s hst hty]
        exact ⟨rfl, rfl, rfl, rfl, _, rfl⟩
      · rw [dispatch_cr_receive s hst hty]
        exact ⟨rfl, rfl, rfl, rfl, _, rfl⟩
    · rw [dispatch_cr_other s d hst hd]
      exact ⟨rfl, rfl, rfl, rfl, [], by simp⟩

theorem readerKeeps_feed (bytes : List Nat) : ∀ (s : Globals), readerKeeps s (feed s bytes) := by
  induction bytes with
  | nil => intro s; exact readerKeeps_refl s
  | cons d ds ih =>
    intro s
    rw [feed_cons]
    exact readerKeeps_trans (readerKeeps_dispatch s d) (ih _)

theorem readerKeeps_signal_wait (s : Globals) (t : Nat) (w : WaitStep) :
    readerKeeps s (g_signal_wait s t w).2 := by
  unfold g_signal_wait
  have h1 : readerKeeps s { s with trace := s.trace ++ [Event.signal_wait t] } :=
    ⟨rfl, rfl, rfl, rfl, _, rfl⟩
  exact readerKeeps_trans h1 (readerKeeps_feed _ _)

theorem readerKeeps_waitLoop (script : List WaitStep) :
    ∀ (s : Globals), readerKeeps s (waitLoop s script).2 := by
  induction script with
  | nil => intro s; exact readerKeeps_signal_wait s _ _
  | cons w ws ih =>
    intro s
    simp only [waitLoop]
    split
    · split
      · exact readerKeeps_signal_wait s _ _
      · exact readerKeeps_trans (readerKeeps_signal_wait s _ _) (ih _)
    · exact readerKeeps_signal_wait s _ _

/-! ## The phases of `sendCommandWaitAnswer` -/

theorem sendStart_grew (s : Globals) (cmd : Nat) (cmd_payload : List Nat) (ans_payload : Ptr)
    (ans_payload_max_size : Nat) :
    grewBy Event.isWrite
      { s with
        g_pending_command := { s.g_pending_command with
          cmd := cmd
          ans_payload := ans_payload
          ans_payload_max_size := ans_payload_max_size
          ans_length := 0 }
        trace := s.trace ++ [Event.write_lock true] }
      (sendStart s cmd cmd_payload ans_payload ans_payload_max_size).2 := by
  unfold sendStart
  exact grewBy_trans (grewBy_andWrite _ _ _)
    (grewBy_trans (grewBy_andWrite _ _ _) (grewBy_andWrite _ _ _))

theorem signal_wait_silent (s : Globals) (t : Nat) (b : Bool) :
    grewBy Event.isWait s (g_signal_wait s t { fed := [], signaled := b }).2 :=
  ⟨rfl, rfl, rfl, rfl, rfl, rfl, [Event.signal_wait t], rfl, by simp [Event.isWait]⟩

theorem waitLoop_silent (script : List WaitStep) (hsil : silent script) :
    ∀ (s : Globals), grewBy Event.isWait s (waitLoop s script).2 := by
  induction script with
  | nil => intro s; exact signal_wait_silent s _ _
  | cons w ws ih =>
    intro s
    have hw : w.fed = [] := hsil w (by simp)
    have hws : silent ws := fun x hx => hsil x (by simp [hx])
    obtain ⟨fed, sig⟩ := w
    simp only at hw
    subst hw
    simp only [waitLoop]
    split
    · split
      · exact signal_wait_silent s _ _
      · exact grewBy_trans (signal_wait_silent s _ _) (ih hws _)
    · exact signal_wait_silent s _ _

theorem readerKeeps_of_grewBy {P : Event → Bool} {s t : Globals} (h : grewBy P s t) :
    readerKeeps s t := by
  obtain ⟨a1, _, _, _, _, _, evs, ht, _⟩ := h
  exact ⟨by rw [a1], by rw [a1], by rw [a1], by rw [a1], evs, ht⟩

/-- The state at the end of the wait, relative to the state in which the
pending command has just been published: the reader keeps the command, the
send sequence and the buffer, and the trace has grown. -/
theorem sendAndWait_keeps (s : Globals) (cmd : Nat) (cmd_payload : List Nat) (ans_payload : Ptr)
    (ans_payload_max_size : Nat) (script : List WaitStep) :
    readerKeeps
      { s with
        g_pending_command := { s.g_pending_command with
          cmd := cmd
          ans_payload := ans_payload
          ans_payload_max_size := ans_payload_max_size
          ans_length := 0 }
        trace := s.trace ++ [Event.write_lock true] }
      (sendAndWait s cmd cmd_payload ans_payload ans_payload_max_size script).2 := by
  have h1 := readerKeeps_of_grewBy
    (sendStart_grew s cmd cmd_payload ans_payload ans_payload_max_size)
  unfold sendAndWait
  by_cases h : (sendStart s cmd cmd_payload ans_payload ans_payload_max_size).1 = true
  · simp only [h, if_true]
    exact readerKeeps_trans h1 (readerKeeps_waitLoop _ _)
  · simp only [h, if_false]
    exact h1

/-- With a silent reader, the calling thread only writes and waits. -/
theorem sendAndWait_silent (s : Globals) (cmd : Nat) (cmd_payload : List Nat) (ans_payload : Ptr)
    (ans_payload_max_size : Nat) (script : List WaitStep) (hsil : silent script) :
    grewBy (fun e => e.isWrite || e.isWait)
      { s with
        g_pending_command := { s.g_pending_command with
          cmd := cmd
          ans_payload := ans_payload
          ans_payload_max_size := ans_payload_max_size
          ans_length := 0 }
        trace := s.trace ++ [Event.write_lock true] }
      (sendAndWait s cmd cmd_payload ans_payload ans_payload_max_size script).2 := by
  have h1 : grewBy (fun e => e.isWrite || e.isWait) _ _ :=
    grewBy_mono (fun e he => by simp [he])
      (sendStart_grew s cmd cmd_payload ans_payload ans_payload_max_size)
  unfold sendAndWait
  by_cases h : (sendStart s cmd cmd_payload ans_payload ans_payload_max_size).1 = true
  · simp only [h, if_true]
    exact grewBy_trans h1 (grewBy_mono (fun e he => by simp [he]) (waitLoop_silent _ hsil _))
  · simp only [h, if_false]
    exact h1

/-! ## C2: wire format of an outgoing command -/

theorem writtenBytes_eq_nil (evs : List Event) (h : ∀ e ∈ evs, e.isWrite = false) :
    writtenBytes evs = [] := by
  induction evs with
  | nil => rfl
  | cons e es ih =>
    have he := h e (by simp)
    have hes := ih (fun x hx => h x (by simp [hx]))
    cases e <;> simp_all [writtenBytes, Event.isWrite]

theorem commandHeader_eq (c L : Nat) (hc : c < 256) (hL : L ≤ 65535) :
    commandHeader c L = [0x23, c, L % 256, L / 256] := by
  have h1 : c % 256 = c := Nat.mod_eq_of_lt hc
  have h2 : L / 256 % 256 = L / 256 := Nat.mod_eq_of_lt (by omega)
  simp [commandHeader, h1, h2]

theorem commandFooter_eq (c : Nat) (p : List Nat) :
    commandFooter c p = [(commandHeader c p.length ++ p).sum % 256, 0x0D] := by
  have h1 : sum8 0 (commandHeader c p.length) < 256 := by
    rw [sum8_eq _ 0 (by decide)]
    exact Nat.mod_lt _ (by decide)
  simp only [commandFooter]
  rw [sum8_eq p _ h1, sum8_eq _ 0 (by decide), List.sum_append]
  simp

/-- C2: for a command code `c` (one byte) and a payload `p` of length
`L ≤ 65535`, when every transport write succeeds, `sendCommandWaitAnswer`
writes the header `[0x23, c, L mod 256, L div 256]`, then `p`, then the footer
`[s, 0x0D]`, where `s` is the sum modulo 256 of the header and payload bytes;
with a silent reader thread these are all the bytes written during the call. -/
theorem C2_wire_format (s : Globals) (c : Nat) (p : List Nat) (ans_payload : Ptr) (cap : Nat)
    (script : List WaitStep) (hc : c < 256) (hL : p.length ≤ 65535) (hw : writesSucceed s)
    (hsil : silent script) :
    (sendStart s c p ans_payload cap).2.trace =
      s.trace ++ [Event.write_lock true,
        Event.write [0x23, c, p.length % 256, p.length / 256] true,
        Event.write p true,
        Event.write [([0x23, c, p.length % 256, p.length / 256] ++ p).sum % 256, 0x0D] true] ∧
    writtenBytes (GatewayModuleInterface_sendCommandWaitAnswer s c p ans_payload cap script).2.trace =
      writtenBytes s.trace ++
        ([0x23, c, p.length % 256, p.length / 256] ++ p ++
          [([0x23, c, p.length % 256, p.length / 256] ++ p).sum % 256, 0x0D]) := by
  have hstart := sendStart_ok s c p ans_payload cap hw
  rw [commandFooter_eq, commandHeader_eq c p.length hc hL] at hstart
  refine ⟨by rw [hstart], ?_⟩
  obtain ⟨_, _, _, _, _, _, evs, ht, hev⟩ :=
    waitLoop_silent script hsil (sendStart s c p ans_payload cap).2
  have hnil : writtenBytes evs = [] :=
    writtenBytes_eq_nil evs (fun e he => by
      have := hev e he
      cases e <;> simp_all [Event.isWait, Event.isWrite])
  simp only [GatewayModuleInterface_sendCommandWaitAnswer, sendAndWait, sendFinish, g_write_lock]
  rw [if_pos (by rw [hstart])]
  simp only [ht, writtenBytes_append, hnil]
  rw [hstart]
  simp [writtenBytes_append, writtenBytes]

/-- The wire format of C2 on the command VERSION with the payload `[1, 2]`. -/
theorem C2_wire_format_witness :
    (sendStart (zeroGlobals [] []) 0x3A [1, 2] Ptr.null 0).2.trace =
      (zeroGlobals [] []).trace ++ [Event.write_lock true,
        Event.write [0x23, 0x3A, [1, 2].length % 256, [1, 2].length / 256] true,
        Event.write [1, 2] true,
        Event.write [([0x23, 0x3A, [1, 2].length % 256, [1, 2].length / 256] ++ [1, 2]).sum % 256,
          0x0D] true] ∧
    writtenBytes (GatewayModuleInterface_sendCommandWaitAnswer (zeroGlobals [] []) 0x3A [1, 2]
        Ptr.null 0 []).2.trace =
      writtenBytes (zeroGlobals [] []).trace ++
        ([0x23, 0x3A, [1, 2].length % 256, [1, 2].length / 256] ++ [1, 2] ++
          [([0x23, 0x3A, [1, 2].length % 256, [1, 2].length / 256] ++ [1, 2]).sum % 256, 0x0D]) :=
  C2_wire_format (zeroGlobals [] []) 0x3A [1, 2] Ptr.null 0 [] (by decide) (by decide)
    (by decide) (by decide)

/-! ## C9: a failed write aborts the exchange -/

/-- C9: if one of the writes of `sendCommandWaitAnswer` (header, payload,
footer, in that order) reports failure, the call makes no later write, never
calls `g_signal_wait`, and returns failure: between taking and releasing the
lock, its trace holds the writes up to and including the failed one and
nothing else. -/
theorem C9_write_failure_aborts (s : Globals) (cmd : Nat) (p : List Nat) (ans_payload : Ptr)
    (cap : Nat) (script : List WaitStep)
    (hfail : ¬ (writeResult s 0 = true ∧ writeResult s 1 = true ∧ writeResult s 2 = true)) :
    (GatewayModuleInterface_sendCommandWaitAnswer s cmd p ans_payload cap script).1 = false ∧
    (GatewayModuleInterface_sendCommandWaitAnswer s cmd p ans_payload cap script).2.trace =
      s.trace ++ [Event.write_lock true] ++
        (if writeResult s 0 = false then
          [Event.write (commandHeader cmd p.length) false]
        else if writeResult s 1 = false then
          [Event.write (commandHeader cmd p.length) true, Event.write p false]
        else
          [Event.write (commandHeader cmd p.length) true, Event.write p true,
            Event.write (commandFooter cmd p) false]) ++
        [Event.write_lock false] := by
  obtain ⟨ws, hws⟩ : ∃ ws, s.write_results = ws := ⟨_, rfl⟩
  rcases ws with _ | ⟨b1, _ | ⟨b2, _ | ⟨b3, r⟩⟩⟩ <;>
    simp only [writeResult, hws] at hfail ⊢ <;>
    (try cases b1) <;> (try cases b2) <;> (try cases b3) <;>
    simp_all [GatewayModuleInterface_sendCommandWaitAnswer, sendAndWait, sendStart, sendFinish,
      andWrite, g_write, g_write_lock]

/-- The aborted exchange of C9: the header write succeeds and the payload write
fails. -/
theorem C9_write_failure_aborts_witness :
    (GatewayModuleInterface_sendCommandWaitAnswer (zeroGlobals [] [true, false]) 0x3A [1, 2]
      Ptr.null 0 [{ fed := [], signaled := true }]).1 = false ∧
    (GatewayModuleInterface_sendCommandWaitAnswer (zeroGlobals [] [true, false]) 0x3A [1, 2]
      Ptr.null 0 [{ fed := [], signaled := true }]).2.trace =
      (zeroGlobals [] [true, false]).trace ++ [Event.write_lock true] ++
        (if writeResult (zeroGlobals [] [true, false]) 0 = false then
          [Event.write (commandHeader 0x3A [1, 2].length) false]
        else if writeResult (zeroGlobals [] [true, false]) 1 = false then
          [Event.write (commandHeader 0x3A [1, 2].length) true, Event.write [1, 2] false]
        else
          [Event.write (commandHeader 0x3A [1, 2].length) true, Event.write [1, 2] true,
            Event.write (commandFooter 0x3A [1, 2]) false]) ++
        [Event.write_lock false] :=
  C9_write_failure_aborts (zeroGlobals [] [true, false]) 0x3A [1, 2] Ptr.null 0
    [{ fed := [], signaled := true }] (by decide)

/-! ## C10: exit cleanup -/

/-- C10: every call of `sendCommandWaitAnswer` takes the lock as its first
collaborator call and releases it as its last (and, with a silent reader
thread, no other lock call lies between them); on return the pending command
has the send sequence advanced by one modulo 256, command `NONE`, no answer
buffer, capacity 0 and answer length 0; the clean-up leaves the answer sequence
as the wait left it, and with a silent reader thread it is the value at entry. -/
theorem C10_exit_cleanup (s : Globals) (cmd : Nat) (p : List Nat) (ans_payload : Ptr)
    (cap : Nat) (script : List WaitStep) :
    (∃ mid,
      (GatewayModuleInterface_sendCommandWaitAnswer s cmd p ans_payload cap script).2.trace =
        s.trace ++ [Event.write_lock true] ++ mid ++ [Event.write_lock false] ∧
      (silent script → ∀ e ∈ mid, e.isLock = false)) ∧
    (GatewayModuleInterface_sendCommandWaitAnswer s cmd p ans_payload cap script).2.g_pending_command =
      { cmd := GATEWAY_MODULE_CMD_NONE
        cmd_sequence := (s.g_pending_command.cmd_sequence + 1) % 256
        ans_sequence :=
          (sendAndWait s cmd p ans_payload cap script).2.g_pending_command.ans_sequence
        ans_payload := Ptr.null
        ans_payload_max_size := 0
        ans_length := 0 } ∧
    (silent script →
      (GatewayModuleInterface_sendCommandWaitAnswer s cmd p ans_payload cap
        script).2.g_pending_command.ans_sequence = s.g_pending_command.ans_sequence) := by
  obtain ⟨_, k2, _, _, mid, hmid⟩ := sendAndWait_keeps s cmd p ans_payload cap script
  simp only at k2 hmid
  refine ⟨⟨mid, ?_, ?_⟩, ?_, ?_⟩
  · simp [GatewayModuleInterface_sendCommandWaitAnswer, sendFinish, g_write_lock, hmid]
  · intro hsil
    obtain ⟨_, _, _, _, _, _, evs, ht, hev⟩ := sendAndWait_silent s cmd p ans_payload cap script hsil
    simp only at ht
    have : mid = evs := List.append_cancel_left (hmid.symm.trans ht)
    subst this
    intro e he
    have := hev e he
    cases e <;> simp_all [Event.isLock, Event.isWrite, Event.isWait]
  · simp [GatewayModuleInterface_sendCommandWaitAnswer, sendFinish, g_write_lock, k2]
  · intro hsil
    obtain ⟨a1, _⟩ := sendAndWait_silent s cmd p ans_payload cap script hsil
    simp [GatewayModuleInterface_sendCommandWaitAnswer, sendFinish, g_write_lock, a1]

/-- The exit clean-up of C10 on a VERSION call that times out at once. -/
theorem C10_exit_cleanup_witness :
    (∃ mid,
      (GatewayModuleInterface_sendCommandWaitAnswer (zeroGlobals [] []) 0x3A [] Ptr.null 0
          []).2.trace =
        (zeroGlobals [] []).trace ++ [Event.write_lock true] ++ mid ++ [Event.write_lock false] ∧
      (silent [] → ∀ e ∈ mid, e.isLock = false)) ∧
    (GatewayModuleInterface_sendCommandWaitAnswer (zeroGlobals [] []) 0x3A [] Ptr.null 0
        []).2.g_pending_command =
      { cmd := GATEWAY_MODULE_CMD_NONE
        cmd_sequence := ((zeroGlobals [] []).g_pending_command.cmd_sequence + 1) % 256
        ans_sequence :=
          (sendAndWait (zeroGlobals [] []) 0x3A [] Ptr.null 0 []).2.g_pending_command.ans_sequence
        ans_payload := Ptr.null
        ans_payload_max_size := 0
        ans_length := 0 } ∧
    (silent [] →
      (GatewayModuleInterface_sendCommandWaitAnswer (zeroGlobals [] []) 0x3A [] Ptr.null 0
        []).2.g_pending_command.ans_sequence = (zeroGlobals [] []).g_pending_command.ans_sequence) :=
  C10_exit_cleanup (zeroGlobals [] []) 0x3A [] Ptr.null 0 []

/-! ## An answer that arrives during the first wait -/

/-- The call writes its frame, blocks, and the reader thread receives the whole
answer frame for the pending command before `g_signal_wait` reports a signal:
the state when the wait loop is left. -/
theorem sendAndWait_answer (s : Globals) (c : Nat) (cmd_payload : List Nat) (a cap : Nat)
    (p : List Nat) (rest : List WaitStep)
    (hs : s.g_state = STATE_t.STATE_WAIT_FOR_START) (hw : writesSucceed s)
    (hp : p ≠ []) (hmax : p.length ≤ maxAnswerLength c) :
    sendAndWait s c cmd_payload (Ptr.heap a) cap
        ({ fed := encodeFrame c p, signaled := true } :: rest) =
      (true, { s with
        g_rx_type := RX_TYPE_t.RX_TYPE_ANSWER
        g_rx_context := { s.g_rx_context with
          cmd := c
          payload := Ptr.heap a
          max_size := cap
          checksum := sum8 ((FRAME_START + c) % 256)
            ([p.length % 256, p.length / 256 % 256] ++ p)
          length := p.length
          counter := p.length }
        g_pending_command := { s.g_pending_command with
          cmd := c
          ans_payload := Ptr.heap a
          ans_payload_max_size := cap
          ans_sequence := s.g_pending_command.cmd_sequence
          ans_length := p.length }
        heap := blit s.heap a cap 0 p
        write_results := s.write_results.tail.tail.tail
        trace := s.trace ++ [Event.write_lock true,
          Event.write (commandHeader c cmd_payload.length) true,
          Event.write cmd_payload true,
          Event.write (commandFooter c cmd_payload) true,
          Event.signal_wait 1000,
          Event.signal_set] }) := by
  have hc : c < 256 := maxAnswerLength_pos_lt c (by
    have := List.length_pos.mpr hp
    omega)
  have hfeed := feed_frame_answer
    { s with
      g_pending_command := { s.g_pending_command with
        cmd := c
        ans_payload := Ptr.heap a
        ans_payload_max_size := cap
        ans_length := 0 }
      write_results := s.write_results.tail.tail.tail
      trace := s.trace ++ [Event.write_lock true,
        Event.write (commandHeader c cmd_payload.length) true,
        Event.write cmd_payload true,
        Event.write (commandFooter c cmd_payload) true] ++ [Event.signal_wait 1000] }
    c p hs hc rfl hp hmax
  simp only [sendAndWait, sendStart_ok s c cmd_payload (Ptr.heap a) cap hw, if_true, waitLoop,
    g_signal_wait]
  rw [hfeed]
  simp [heapAfter, rbufAfter, hs]

/-! ## C3: answer delivery -/

/-- C3 (amended): `sendCommandWaitAnswer` is called for command `c` with an
answer buffer of capacity `C` inside the caller memory, its writes succeed, and
while it waits the reader thread receives the well-formed answer frame for `c`
with an `L`-byte payload, `1 ≤ L ≤ C`, `L ≤ maxAnswerLength c`, and the wait
reports the signal.  Then the receiver raises the signal with the answer length
set to `L`; the call returns success; the first `L` bytes of the caller's
buffer are the transmitted payload; and the answer length has been cleared to
`0` when the call returns. -/
theorem C3_answer_delivery (s : Globals) (c : Nat) (cmd_payload : List Nat) (a cap : Nat)
    (p : List Nat) (rest : List WaitStep)
    (hs : s.g_state = STATE_t.STATE_WAIT_FOR_START) (hw : writesSucceed s)
    (hL1 : 1 ≤ p.length) (hcap : p.length ≤ cap) (hmax : p.length ≤ maxAnswerLength c)
    (hmem : a + p.length ≤ s.heap.length) :
    (sendAndWait s c cmd_payload (Ptr.heap a) cap
      ({ fed := encodeFrame c p, signaled := true } :: rest)).2.g_pending_command.ans_length
        = p.length ∧
    (sendAndWait s c cmd_payload (Ptr.heap a) cap
      ({ fed := encodeFrame c p, signaled := true } :: rest)).2.trace.getLast?
        = some Event.signal_set ∧
    (GatewayModuleInterface_sendCommandWaitAnswer s c cmd_payload (Ptr.heap a) cap
      ({ fed := encodeFrame c p, signaled := true } :: rest)).1 = true ∧
    (((GatewayModuleInterface_sendCommandWaitAnswer s c cmd_payload (Ptr.heap a) cap
      ({ fed := encodeFrame c p, signaled := true } :: rest)).2.heap.drop a).take p.length = p) ∧
    (GatewayModuleInterface_sendCommandWaitAnswer s c cmd_payload (Ptr.heap a) cap
      ({ fed := encodeFrame c p, signaled := true } :: rest)).2.g_pending_command.ans_length
        = 0 := by
  have hp : p ≠ [] := by
    intro h; subst h; simp at hL1
  have h := sendAndWait_answer s c cmd_payload a cap p rest hs hw hp hmax
  refine ⟨by rw [h], by rw [h]; simp, ?_, ?_, ?_⟩
  · simp [GatewayModuleInterface_sendCommandWaitAnswer, h]
  · simp only [GatewayModuleInterface_sendCommandWaitAnswer, h, sendFinish, g_write_lock]
    exact blit_take_drop s.heap a cap p hcap hmem
  · simp [GatewayModuleInterface_sendCommandWaitAnswer, sendFinish, g_write_lock]

/-- The answer delivery of C3 on the example of the specification: VERSION, empty
command payload, capacity 16, a 16-byte answer. -/
theorem C3_answer_delivery_witness :
    (sendAndWait (zeroGlobals (List.replicate 16 0) []) 0x3A [] (Ptr.heap 0) 16
      [{ fed := encodeFrame 0x3A [1, 2, 3, 4, 5, 6, 7, 8, 9, 10, 11, 12, 13, 14, 15, 16],
         signaled := true }]).2.g_pending_command.ans_length
        = [1, 2, 3, 4, 5, 6, 7, 8, 9, 10, 11, 12, 13, 14, 15, 16].length ∧
    (sendAndWait (zeroGlobals (List.replicate 16 0) []) 0x3A [] (Ptr.heap 0) 16
      [{ fed := encodeFrame 0x3A [1, 2, 3, 4, 5, 6, 7, 8, 9, 10, 11, 12, 13, 14, 15, 16],
         signaled := true }]).2.trace.getLast?
        = some Event.signal_set ∧
    (GatewayModuleInterface_sendCommandWaitAnswer (zeroGlobals (List.replicate 16 0) []) 0x3A []
      (Ptr.heap 0) 16
      [{ fed := encodeFrame 0x3A [1, 2, 3, 4, 5, 6, 7, 8, 9, 10, 11, 12, 13, 14, 15, 16],
         signaled := true }]).1 = true ∧
    (((GatewayModuleInterface_sendCommandWaitAnswer (zeroGlobals (List.replicate 16 0) []) 0x3A []
      (Ptr.heap 0) 16
      [{ fed := encodeFrame 0x3A [1, 2, 3, 4, 5, 6, 7, 8, 9, 10, 11, 12, 13, 14, 15, 16],
         signaled := true }]).2.heap.drop 0).take
        [1, 2, 3, 4, 5, 6, 7, 8, 9, 10, 11, 12, 13, 14, 15, 16].length
      = [1, 2, 3, 4, 5, 6, 7, 8, 9, 10, 11, 12, 13, 14, 15, 16]) ∧
    (GatewayModuleInterface_sendCommandWaitAnswer (zeroGlobals (List.replicate 16 0) []) 0x3A []
      (Ptr.heap 0) 16
      [{ fed := encodeFrame 0x3A [1, 2, 3, 4, 5, 6, 7, 8, 9, 10, 11, 12, 13, 14, 15, 16],
         signaled := true }]).2.g_pending_command.ans_length = 0 :=
  C3_answer_delivery (zeroGlobals (List.replicate 16 0) []) 0x3A [] 0 16
    [1, 2, 3, 4, 5, 6, 7, 8, 9, 10, 11, 12, 13, 14, 15, 16] [] rfl (by decide) (by decide)
    (by decide) (by decide) (by decide)

/-- C3 as stated fails.  (1) On the spec's own example (VERSION, empty command
payload, capacity 16, a 16-byte answer) the call returns success, but the
answer length of the pending command is `0`, not `16`, when it returns.
(2) For `L = 0` (RESET, whose maximum is 0, with an empty answer buffer) the
well-formed answer frame is not dispatched: the receiver raises no signal while
the call waits, so the wait times out and the call returns failure. -/
theorem C3_counterexample :
    ((GatewayModuleInterface_sendCommandWaitAnswer (zeroGlobals (List.replicate 16 0) []) 0x3A []
      (Ptr.heap 0) 16
      [{ fed := encodeFrame 0x3A [1, 2, 3, 4, 5, 6, 7, 8, 9, 10, 11, 12, 13, 14, 15, 16],
         signaled := true }]).1 = true ∧
    (GatewayModuleInterface_sendCommandWaitAnswer (zeroGlobals (List.replicate 16 0) []) 0x3A []
      (Ptr.heap 0) 16
      [{ fed := encodeFrame 0x3A [1, 2, 3, 4, 5, 6, 7, 8, 9, 10, 11, 12, 13, 14, 15, 16],
         signaled := true }]).2.g_pending_command.ans_length ≠ 16) ∧
    (Event.signal_set ∉
      (sendAndWait (zeroGlobals [] []) 0x51 [] (Ptr.heap 0) 0
        [{ fed := encodeFrame 0x51 [], signaled := false }]).2.trace ∧
     (GatewayModuleInterface_sendCommandWaitAnswer (zeroGlobals [] []) 0x51 [] (Ptr.heap 0) 0
        [{ fed := encodeFrame 0x51 [], signaled := false }]).1 = false) := by
  decide

/-! ## C7: unsolicited receive -/

/-- C7: for every payload of length `L`, `1 ≤ L ≤ 300`, a well-formed frame
with command `0x33` fed to the idle receiver while the pending command is not
`0x33` invokes the receive callback exactly once, with exactly the `L` payload
bytes and size `L`; it raises no signal and writes nothing (the callback is the
only new event and the write oracle is untouched), leaves the whole pending
command and the caller memory unchanged, and returns the receiver to idle. -/
theorem C7_unsolicited_receive (s : Globals) (p : List Nat)
    (hs : s.g_state = STATE_t.STATE_WAIT_FOR_START)
    (hcmd : s.g_pending_command.cmd ≠ GATEWAY_MODULE_CMD_RECEIVE)
    (hL1 : 1 ≤ p.length) (hL : p.length ≤ 300)
    (hrbuf : s.g_receive_buffer.length = 300) :
    (feed s (encodeFrame 0x33 p)).trace = s.trace ++ [Event.receive_callback p p.length] ∧
    (feed s (encodeFrame 0x33 p)).g_pending_command = s.g_pending_command ∧
    (feed s (encodeFrame 0x33 p)).write_results = s.write_results ∧
    (feed s (encodeFrame 0x33 p)).heap = s.heap ∧
    (feed s (encodeFrame 0x33 p)).g_state = STATE_t.STATE_WAIT_FOR_START := by
  have hp : p ≠ [] := by
    intro h; subst h; simp at hL1
  have hb := blit_take_drop s.g_receive_buffer 0 300 p hL (by omega)
  simp only [List.drop_zero] at hb
  rw [feed_frame_receive s p hs hcmd hp hL]
  exact ⟨by simp only [hb], rfl, rfl, rfl, rfl⟩

/-- The unsolicited receive of C7 with payload `[5, 6]` while VERSION is pending. -/
theorem C7_unsolicited_receive_witness :
    (feed (versionPending [] 0) (encodeFrame 0x33 [5, 6])).trace =
      (versionPending [] 0).trace ++ [Event.receive_callback [5, 6] [5, 6].length] ∧
    (feed (versionPending [] 0) (encodeFrame 0x33 [5, 6])).g_pending_command =
      (versionPending [] 0).g_pending_command ∧
    (feed (versionPending [] 0) (encodeFrame 0x33 [5, 6])).write_results =
      (versionPending [] 0).write_results ∧
    (feed (versionPending [] 0) (encodeFrame 0x33 [5, 6])).heap = (versionPending [] 0).heap ∧
    (feed (versionPending [] 0) (encodeFrame 0x33 [5, 6])).g_state
      = STATE_t.STATE_WAIT_FOR_START :=
  C7_unsolicited_receive (versionPending [] 0) [5, 6] rfl (by decide) (by decide) (by decide)
    (List.length_replicate _ _)

/-! ## Partial frames -/

/-- Payload bytes that do not complete the declared length leave the receiver
in the data state. -/
theorem feed_data_part (p : List Nat) : ∀ (s : Globals),
    s.g_state = STATE_t.STATE_WAIT_FOR_DATA →
    s.g_rx_context.counter + p.length < s.g_rx_context.length →
    feed s p =
      { s with
        g_rx_context := { s.g_rx_context with
          checksum := sum8 s.g_rx_context.checksum p
          counter := s.g_rx_context.counter + p.length }
        heap := heapAfter s.g_rx_context.payload s.g_rx_context.max_size s.heap
          s.g_rx_context.counter p
        g_receive_buffer := rbufAfter s.g_rx_context.payload s.g_rx_context.max_size
          s.g_receive_buffer s.g_rx_context.counter p } := by
  induction p with
  | nil =>
    intro s _ _
    cases hp : s.g_rx_context.payload <;> simp [feed, sum8, heapAfter, rbufAfter, blit]
  | cons d ds ih =>
    intro s hs hlen
    simp only [List.length_cons] at hlen
    have hl : ¬ s.g_rx_context.length ≤ s.g_rx_context.counter + 1 := by omega
    rw [feed_cons, dispatch_data s d hs, ih _ (by simp [hl]) (by simp; omega)]
    cases hp : s.g_rx_context.payload <;>
      simp [hl, sum8, heapAfter, rbufAfter, blit, hp, Nat.add_assoc, Nat.add_comm 1, hs]

/-- The two length bytes of a frame within the command's maximum. -/
theorem feed_len (s : Globals) (L : Nat)
    (hs : s.g_state = STATE_t.STATE_WAIT_FOR_LEN0)
    (hmax : L ≤ maxAnswerLength s.g_rx_context.cmd) :
    feed s [L % 256, L / 256 % 256] =
      { s with
        g_rx_context := { s.g_rx_context with
          checksum := sum8 s.g_rx_context.checksum [L % 256, L / 256 % 256]
          length := L
          counter := 0 }
        g_state := STATE_t.STATE_WAIT_FOR_DATA } := by
  have h300 := maxAnswerLength_le s.g_rx_context.cmd
  have hL : L % 256 + L / 256 % 256 * 256 = L := by omega
  rw [feed_cons, feed_cons, feed_nil, dispatch_len0 s _ hs, dispatch_len1 _ _ rfl]
  simp only [hL, if_pos hmax]
  simp [sum8]

/-- Length bytes and a complete non-empty payload: the receiver waits for the
checksum byte. -/
theorem feed_len_data (s : Globals) (L : Nat) (q : List Nat)
    (hs : s.g_state = STATE_t.STATE_WAIT_FOR_LEN0) (hq : q ≠ []) (hqL : q.length = L)
    (hmax : L ≤ maxAnswerLength s.g_rx_context.cmd) :
    feed s ([L % 256, L / 256 % 256] ++ q) =
      { s with
        g_rx_context := { s.g_rx_context with
          checksum := sum8 s.g_rx_context.checksum ([L % 256, L / 256 % 256] ++ q)
          length := L
          counter := L }
        g_state := STATE_t.STATE_WAIT_FOR_CHECKSUM
        heap := heapAfter s.g_rx_context.payload s.g_rx_context.max_size s.heap 0 q
        g_receive_buffer := rbufAfter s.g_rx_context.payload s.g_rx_context.max_size
          s.g_receive_buffer 0 q } := by
  have hpos : 0 < q.length := List.length_pos.mpr hq
  rw [feed_append, feed_len s L hs hmax, feed_data q _ rfl hq (by simp; omega)]
  simp [sum8, List.foldl_append, hqL]

/-! ## C4: corruption of a payload byte -/

theorem sum_set_add (p : List Nat) (v : Nat) : ∀ (i : Nat) (hi : i < p.length),
    (p.set i v).sum + p[i] = p.sum + v := by
  induction p with
  | nil => intro i hi; simp at hi
  | cons b bs ih =>
    intro i hi
    cases i with
    | zero => simp; omega
    | succ j =>
      have := ih j (by simpa using hi)
      simp only [List.set_cons_succ, List.sum_cons, List.getElem_cons_succ]
      omega

/-- Changing one payload byte to a different byte value changes the 8-bit sum. -/
theorem sum8_set_ne (p : List Nat) (h0 : Nat) (pre : List Nat) (i v : Nat) (hi : i < p.length)
    (hh : h0 < 256) (hb : p[i] < 256) (hv : v < 256) (hne : p[i] ≠ v) :
    sum8 h0 (pre ++ p.set i v) ≠ sum8 h0 (pre ++ p) := by
  rw [sum8_eq _ h0 hh, sum8_eq _ h0 hh, List.sum_append, List.sum_append]
  have := sum_set_add p v i hi
  omega

/-- The start marker and an accepted command byte, from the idle state. -/
theorem feed_start_cmd (s : Globals) (c : Nat)
    (hs : s.g_state = STATE_t.STATE_WAIT_FOR_START)
    (hacc : c = s.g_pending_command.cmd ∨ c = GATEWAY_MODULE_CMD_RECEIVE) :
    (feed s [FRAME_START, c]).g_state = STATE_t.STATE_WAIT_FOR_LEN0 ∧
    (feed s [FRAME_START, c]).g_rx_context.cmd = c ∧
    (feed s [FRAME_START, c]).g_rx_context.checksum = (FRAME_START + c) % 256 ∧
    (feed s [FRAME_START, c]).trace = s.trace ∧
    (feed s [FRAME_START, c]).write_results = s.write_results ∧
    (feed s [FRAME_START, c]).g_pending_command.ans_length = s.g_pending_command.ans_length := by
  rw [feed_cons, feed_cons, feed_nil, dispatch_start_marker s hs]
  by_cases hcmd : c = s.g_pending_command.cmd
  · simp [GatewayModuleInterface_dispatch, hcmd, setState]
  · have hr : c = GATEWAY_MODULE_CMD_RECEIVE := hacc.resolve_left hcmd
    subst hr
    simp [GatewayModuleInterface_dispatch, hcmd, setState]

theorem sendAck_congr (s t : Globals) (c : Nat) (a : Bool) (h1 : t.trace = s.trace)
    (h2 : t.write_results = s.write_results) :
    (GatewayModuleInterface_sendAck t c a).trace = (GatewayModuleInterface_sendAck s c a).trace ∧
    (GatewayModuleInterface_sendAck t c a).write_results =
      (GatewayModuleInterface_sendAck s c a).write_results := by
  simp only [GatewayModuleInterface_sendAck, andWrite, g_write, g_write_lock, h1, h2]
  constructor <;> (repeat' split) <;> simp_all

theorem encodeFrame_set (c : Nat) (p : List Nat) (i v : Nat) (hc : c < 256) (hi : i < p.length) :
    (encodeFrame c p).set (4 + i) v = [FRAME_START, c] ++
      ([p.length % 256, p.length / 256 % 256] ++ p.set i v) ++
        [sum8 ((FRAME_START + c) % 256) ([p.length % 256, p.length / 256 % 256] ++ p),
          FRAME_CR] := by
  rw [encodeFrame_eq c p hc, Nat.add_comm 4 i]
  simp [List.set_append_left, hi]

/-- C4 (amended): for every well-formed frame of an accepted command (the
pending command's code or `0x33`, payload within `maxAnswerLength`) and every
position `i` among its payload bytes, replacing the byte at `i` by a different
byte value and feeding the stream to the idle receiver ends in the
checksum-mismatch outcome: the receiver emits exactly the negative
acknowledgement `sendAck(c, false)` (lock and write events only, so no signal
is raised and the receive callback is not invoked), does not set the answer
length, and returns to idle. -/
theorem C4_payload_corruption (s : Globals) (c : Nat) (p : List Nat) (i v : Nat)
    (hs : s.g_state = STATE_t.STATE_WAIT_FOR_START)
    (hacc : c = s.g_pending_command.cmd ∨ c = GATEWAY_MODULE_CMD_RECEIVE)
    (hmax : p.length ≤ maxAnswerLength c) (hi : i < p.length)
    (hbytes : ∀ b ∈ p, b < 256) (hv : v < 256) (hne : p[i]? ≠ some v) :
    (feed s ((encodeFrame c p).set (4 + i) v)).g_state = STATE_t.STATE_WAIT_FOR_START ∧
    (feed s ((encodeFrame c p).set (4 + i) v)).trace =
      (GatewayModuleInterface_sendAck s c false).trace ∧
    (∃ evs, (feed s ((encodeFrame c p).set (4 + i) v)).trace = s.trace ++ evs ∧
      ∀ e ∈ evs, e.isTransport = true) ∧
    (feed s ((encodeFrame c p).set (4 + i) v)).g_pending_command.ans_length =
      s.g_pending_command.ans_length := by
  have hc : c < 256 := maxAnswerLength_pos_lt c (by omega)
  obtain ⟨h1, h2, h3, h4, h5, h6⟩ := feed_start_cmd s c hs hacc
  have hq : p.set i v ≠ [] := by
    intro h
    have hl : (p.set i v).length = 0 := by rw [h]; rfl
    rw [List.length_set] at hl
    omega
  have hbi : p[i] < 256 := hbytes _ (List.getElem_mem _)
  have hpi : p[i] ≠ v := by
    intro h
    apply hne
    rw [List.getElem?_eq_getElem hi, h]
  have hsum := sum8_set_ne p ((FRAME_START + c) % 256) [p.length % 256, p.length / 256 % 256]
    i v hi (Nat.mod_lt _ (by decide)) hbi hv hpi
  have hbody := feed_len_data (feed s [FRAME_START, c]) p.length (p.set i v) h1 hq (by simp)
    (by rw [h2]; exact hmax)
  rw [h3] at hbody
  generalize hsB : feed (feed s [FRAME_START, c])
    ([p.length % 256, p.length / 256 % 256] ++ p.set i v) = sB at hbody
  have hB1 : sB.g_state = STATE_t.STATE_WAIT_FOR_CHECKSUM := by rw [hbody]
  have hB2 : sB.g_rx_context.checksum ≠
      sum8 ((FRAME_START + c) % 256) ([p.length % 256, p.length / 256 % 256] ++ p) := by
    rw [hbody]; exact hsum
  have hB3 : sB.g_rx_context.cmd = c := by rw [hbody]; exact h2
  have hB4 : sB.trace = s.trace := by rw [hbody]; exact h4
  have hB5 : sB.write_results = s.write_results := by rw [hbody]; exact h5
  have hB6 : sB.g_pending_command.ans_length = s.g_pending_command.ans_length := by
    rw [hbody]; exact h6
  have hfinal : feed s ((encodeFrame c p).set (4 + i) v) =
      { GatewayModuleInterface_sendAck sB c false with
        g_state := STATE_t.STATE_WAIT_FOR_START } := by
    rw [encodeFrame_set c p i v hc hi, feed_append, feed_append, hsB, feed_cons, feed_cons,
      feed_nil, dispatch_checksum sB _ hB1, if_neg hB2, dispatch_start_other _ _ rfl (by decide),
      hB3]
  have hcongr := sendAck_congr s sB c false hB4 hB5
  obtain ⟨a1, _, _, _, _, _, evs, ht, hev⟩ := grewBy_sendAck sB c false
  rw [hfinal]
  refine ⟨rfl, hcongr.1, ⟨evs, ?_, hev⟩, ?_⟩
  · show (GatewayModuleInterface_sendAck sB c false).trace = _
    rw [ht, hB4]
  · show (GatewayModuleInterface_sendAck sB c false).g_pending_command.ans_length = _
    rw [a1, hB6]

/-- The corruption of C4 on the receive frame with payload `[5, 6]`, second payload
byte replaced by `7`. -/
theorem C4_payload_corruption_witness :
    (feed (zeroGlobals [] []) ((encodeFrame 0x33 [5, 6]).set (4 + 1) 7)).g_state
      = STATE_t.STATE_WAIT_FOR_START ∧
    (feed (zeroGlobals [] []) ((encodeFrame 0x33 [5, 6]).set (4 + 1) 7)).trace =
      (GatewayModuleInterface_sendAck (zeroGlobals [] []) 0x33 false).trace ∧
    (∃ evs, (feed (zeroGlobals [] []) ((encodeFrame 0x33 [5, 6]).set (4 + 1) 7)).trace =
        (zeroGlobals [] []).trace ++ evs ∧
      ∀ e ∈ evs, e.isTransport = true) ∧
    (feed (zeroGlobals [] []) ((encodeFrame 0x33 [5, 6]).set (4 + 1) 7)).g_pending_command.ans_length
      = (zeroGlobals [] []).g_pending_command.ans_length :=
  C4_payload_corruption (zeroGlobals [] []) 0x33 [5, 6] 1 7 rfl (Or.inr rfl) (by decide)
    (by decide) (by decide) (by decide) (by decide)

/-- C4 as stated fails for each of the four header positions, on frames with
command `0x33` and no command pending.  (1) Start marker `0x23` replaced by
`0x00`: every byte is ignored, no negative acknowledgement is written.
(2) Command `0x33` replaced by `0x34`: unknown command, nothing is written.
(3) Length-low `2` replaced by `1` in the frame with payload `[47, 134]`: the
shortened frame passes the checksum and the receive callback is invoked with
`[47]`.  (4) Length-high `0` replaced by `1`: the receiver is left waiting for
257 payload bytes. -/
theorem C4_counterexample :
    (feed (zeroGlobals [] []) ((encodeFrame 0x33 [5]).set 0 0x00)).trace = [] ∧
    (feed (zeroGlobals [] []) ((encodeFrame 0x33 [5]).set 1 0x34)).trace = [] ∧
    (feed (zeroGlobals [] []) ((encodeFrame 0x33 [47, 134]).set 2 1)).trace =
      [Event.receive_callback [47] 1] ∧
    ((feed (zeroGlobals [] []) ((encodeFrame 0x33 [5]).set 3 1)).trace = [] ∧
     (feed (zeroGlobals [] []) ((encodeFrame 0x33 [5]).set 3 1)).g_state
      = STATE_t.STATE_WAIT_FOR_DATA) := by
  decide

/-! ## Memory sizes never change -/

theorem store_length (s : Globals) (ptr : Ptr) (i d : Nat) :
    (store s ptr i d).heap.length = s.heap.length ∧
    (store s ptr i d).g_receive_buffer.length = s.g_receive_buffer.length := by
  cases ptr <;> simp [store]

theorem sendCommandWaitAnswer_write_fail (s : Globals) (cmd : Nat) (p : List Nat)
    (ans_payload : Ptr) (cap : Nat) (script : List WaitStep)
    (hfail : ¬ (writeResult s 0 = true ∧ writeResult s 1 = true ∧ writeResult s 2 = true)) :
    (GatewayModuleInterface_sendCommandWaitAnswer s cmd p ans_payload cap script).1 = false := by
  obtain ⟨ws, hws⟩ : ∃ ws, s.write_results = ws := ⟨_, rfl⟩
  rcases ws with _ | ⟨b1, _ | ⟨b2, _ | ⟨b3, r⟩⟩⟩ <;>
    simp only [writeResult, hws] at hfail ⊢ <;>
    (try cases b1) <;> (try cases b2) <;> (try cases b3) <;>
    simp_all [GatewayModuleInterface_sendCommandWaitAnswer, sendAndWait, sendStart, sendFinish,
      andWrite, g_write, g_write_lock]

theorem sendCommandWaitAnswer_timeout (s : Globals) (cmd : Nat) (p : List Nat)
    (ans_payload : Ptr) (cap : Nat) (fed : List Nat) (rest : List WaitStep) :
    (GatewayModuleInterface_sendCommandWaitAnswer s cmd p ans_payload cap
      ({ fed := fed, signaled := false } :: rest)).1 = false := by
  simp only [GatewayModuleInterface_sendCommandWaitAnswer, sendAndWait, waitLoop, g_signal_wait]
  split <;> simp

/-- C8: `sendCommandWaitAck` returns success exactly when the underlying
`sendCommandWaitAnswer`, called with the one-byte buffer `ack`, returned success
and the byte in that buffer is `0`.  It returns failure when a write failed and
when the wait timed out; and when the one-byte answer `[b]` of the command is
received while it waits, it returns success for `b = 0` and failure for every
other value of `b`. -/
theorem C8_ack (s : Globals) (cmd : Nat) (p : List Nat) (ack_addr : Nat)
    (script : List WaitStep) (fed : List Nat) (rest : List WaitStep) (b : Nat) :
    ((GatewayModuleInterface_sendCommandWaitAck s cmd p ack_addr script).1 = true ↔
      (GatewayModuleInterface_sendCommandWaitAnswer s cmd p (Ptr.heap ack_addr) 1 script).1 = true ∧
      (GatewayModuleInterface_sendCommandWaitAnswer s cmd p (Ptr.heap ack_addr) 1
        script).2.heap[ack_addr]? = some 0) ∧
    (¬ (writeResult s 0 = true ∧ writeResult s 1 = true ∧ writeResult s 2 = true) →
      (GatewayModuleInterface_sendCommandWaitAck s cmd p ack_addr script).1 = false) ∧
    (GatewayModuleInterface_sendCommandWaitAck s cmd p ack_addr
      ({ fed := fed, signaled := false } :: rest)).1 = false ∧
    (s.g_state = STATE_t.STATE_WAIT_FOR_START → writesSucceed s → 1 ≤ maxAnswerLength cmd →
      ack_addr < s.heap.length →
      (GatewayModuleInterface_sendCommandWaitAck s cmd p ack_addr
        ({ fed := encodeFrame cmd [b], signaled := true } :: rest)).1 = decide (b = 0)) := by
  refine ⟨?_, ?_, ?_, ?_⟩
  · simp [GatewayModuleInterface_sendCommandWaitAck]
  · intro hfail
    simp [GatewayModuleInterface_sendCommandWaitAck,
      sendCommandWaitAnswer_write_fail s cmd p (Ptr.heap ack_addr) 1 script hfail]
  · simp [GatewayModuleInterface_sendCommandWaitAck,
      sendCommandWaitAnswer_timeout s cmd p (Ptr.heap ack_addr) 1 fed rest]
  · intro hs hw hmax hmem
    have h := sendAndWait_answer s cmd p ack_addr 1 [b] rest hs hw (by simp) hmax
    simp [GatewayModuleInterface_sendCommandWaitAck, GatewayModuleInterface_sendCommandWaitAnswer,
      h, sendFinish, g_write_lock, blit, List.getElem?_set, hmem]

/-- The acknowledged command of C8: a failed header write gives failure, and the
answer byte `1` gives failure. -/
theorem C8_ack_witness :
    (GatewayModuleInterface_sendCommandWaitAck (zeroGlobals [9] [false]) 0x30 [] 0 [] ).1 = false ∧
    (GatewayModuleInterface_sendCommandWaitAck (zeroGlobals [9] []) 0x30 [] 0
      ({ fed := encodeFrame 0x30 [1], signaled := true } :: [])).1 = decide (1 = 0) :=
  ⟨(C8_ack (zeroGlobals [9] [false]) 0x30 [] 0 [] [] [] 0).2.1 (by decide),
   (C8_ack (zeroGlobals [9] []) 0x30 [] 0 [] [] [] 1).2.2.2 rfl (by decide) (by decide)
     (by decide)⟩

/-! ## A timeout in the middle of a frame -/

/-- In a quiet step the exit clean-up of `sendCommandWaitAnswer` and the
receiver commute. -/
theorem dispatch_sendFinish (u : Globals) (d : Nat) (hq : quiet u d) :
    GatewayModuleInterface_dispatch (sendFinish u) d =
      sendFinish (GatewayModuleInterface_dispatch u d) := by
  rcases hq with h | h | h | ⟨h, hck⟩
  · simp [GatewayModuleInterface_dispatch, sendFinish, g_write_lock, h, setState]
  · simp only [GatewayModuleInterface_dispatch, sendFinish, g_write_lock, h, setState]
    split <;> rfl
  · rw [dispatch_data u d h, dispatch_data (sendFinish u) d (by simpa [sendFinish, g_write_lock] using h)]
    simp [sendFinish, g_write_lock]
  · rw [dispatch_checksum u d h, if_pos hck,
      dispatch_checksum (sendFinish u) d (by simpa [sendFinish, g_write_lock] using h),
      if_pos (by simpa [sendFinish, g_write_lock] using hck)]
    simp [sendFinish, g_write_lock]

/-- Along the body of a well-formed frame every step is quiet, and the pending
command and the trace are as they were when the body began. -/
theorem body_quiet (s : Globals) (p : List Nat)
    (hs : s.g_state = STATE_t.STATE_WAIT_FOR_LEN0) (hp : p ≠ [])
    (hmax : p.length ≤ maxAnswerLength s.g_rx_context.cmd)
    (q : List Nat) (d : Nat) (ds : List Nat)
    (hsplit : q ++ d :: ds = [p.length % 256, p.length / 256 % 256] ++ p ++
      [sum8 s.g_rx_context.checksum ([p.length % 256, p.length / 256 % 256] ++ p)]) :
    quiet (feed s q) d ∧ (feed s q).g_pending_command = s.g_pending_command ∧
      (feed s q).trace = s.trace := by
  rcases q with _ | ⟨x, _ | ⟨y, r⟩⟩
  · exact ⟨Or.inl hs, rfl, rfl⟩
  · rw [feed_cons, feed_nil, dispatch_len0 s x hs]
    exact ⟨Or.inr (Or.inl rfl), rfl, rfl⟩
  · simp only [List.cons_append, List.nil_append, List.cons.injEq] at hsplit
    obtain ⟨hx, hy, hr⟩ := hsplit
    subst hx hy
    have hfl := feed_len s p.length hs hmax
    have hrq : feed s (p.length % 256 :: p.length / 256 % 256 :: r) =
        feed (feed s [p.length % 256, p.length / 256 % 256]) r := by
      rw [← feed_append]; rfl
    rw [hrq]
    rcases List.append_eq_append_iff.mp hr with ⟨a', h1, h2⟩ | ⟨c', h1, h2⟩
    · rcases a' with _ | ⟨e, a''⟩
      · -- the whole payload has been received
        simp only [List.nil_append, List.cons.injEq] at h2
        simp only [List.append_nil] at h1
        subst h1
        rw [← feed_append, feed_len_data s p.length p hs hp rfl hmax]
        exact ⟨Or.inr (Or.inr (Or.inr ⟨rfl, h2.1.symm⟩)), rfl, rfl⟩
      · -- inside the payload
        have hlt : r.length < p.length := by
          rw [h1]; simp
        rw [hfl, feed_data_part r _ rfl (by simpa using hlt)]
        exact ⟨Or.inr (Or.inr (Or.inl rfl)), rfl, rfl⟩
    · have hc' : c' = [] := by
        cases c' with
        | nil => rfl
        | cons e es =>
          have := congrArg List.length h2
          simp at this
      subst hc'
      simp only [List.nil_append, List.cons.injEq] at h2
      simp only [List.append_nil] at h1
      subst h1
      rw [← feed_append, feed_len_data s r.length r hs hp rfl hmax]
      exact ⟨Or.inr (Or.inr (Or.inr ⟨rfl, h2.1⟩)), rfl, rfl⟩

/-- A timeout that strikes inside the body of a frame: the clean-up can be
moved past the rest of the body. -/
theorem feed_sendFinish_body (s : Globals) (p : List Nat)
    (hs : s.g_state = STATE_t.STATE_WAIT_FOR_LEN0) (hp : p ≠ [])
    (hmax : p.length ≤ maxAnswerLength s.g_rx_context.cmd) :
    ∀ (r q : List Nat),
      q ++ r = [p.length % 256, p.length / 256 % 256] ++ p ++
        [sum8 s.g_rx_context.checksum ([p.length % 256, p.length / 256 % 256] ++ p)] →
      feed (sendFinish (feed s q)) r = sendFinish (feed s (q ++ r)) := by
  intro r
  induction r with
  | nil => intro q _; simp [feed_nil]
  | cons d ds ih =>
    intro q hsplit
    have hq := (body_quiet s p hs hp hmax q d ds hsplit).1
    have h2 : (q ++ [d]) ++ ds = q ++ d :: ds := by simp
    rw [feed_cons, dispatch_sendFinish _ d hq, ← h2, ← ih (q ++ [d]) (by rw [h2]; exact hsplit),
      feed_append s q [d]]
    rfl

/-- The call times out at its first wait after the reader thread has dispatched
`fed`: the result is failure and the state is the clean-up of the state the
reader left. -/
theorem sendCommandWaitAnswer_timeout_state (s : Globals) (c : Nat) (cmd_payload : List Nat)
    (ans_payload : Ptr) (cap : Nat) (fed : List Nat) (hw : writesSucceed s) :
    GatewayModuleInterface_sendCommandWaitAnswer s c cmd_payload ans_payload cap
        [{ fed := fed, signaled := false }] =
      (false, sendFinish (feed
        { s with
          g_pending_command := { s.g_pending_command with
            cmd := c
            ans_payload := ans_payload
            ans_payload_max_size := cap
            ans_length := 0 }
          write_results := s.write_results.tail.tail.tail
          trace := s.trace ++ [Event.write_lock true,
            Event.write (commandHeader c cmd_payload.length) true,
            Event.write cmd_payload true,
            Event.write (commandFooter c cmd_payload) true] ++ [Event.signal_wait 1000] }
        fed)) := by
  simp [GatewayModuleInterface_sendCommandWaitAnswer, sendAndWait,
    sendStart_ok s c cmd_payload ans_payload cap hw, waitLoop, g_signal_wait]

/-- The answer frame of the pending command is cut by a timeout after its
command byte: `q` is the part of the body received before the timeout, `r` the
part received after it.  The call fails, and the rest of the frame changes
neither the trace nor the pending command, whose answer sequence is the old
send sequence. -/
theorem timeout_mid_frame (s : Globals) (c : Nat) (cmd_payload : List Nat) (a cap : Nat)
    (p q r : List Nat)
    (hs : s.g_state = STATE_t.STATE_WAIT_FOR_START) (hw : writesSucceed s)
    (hp : p ≠ []) (hmax : p.length ≤ maxAnswerLength c)
    (hsplit : q ++ r = [p.length % 256, p.length / 256 % 256] ++ p ++
      [sum8 ((FRAME_START + c) % 256) ([p.length % 256, p.length / 256 % 256] ++ p)]) :
    (GatewayModuleInterface_sendCommandWaitAnswer s c cmd_payload (Ptr.heap a) cap
      [{ fed := [FRAME_START, c] ++ q, signaled := false }]).1 = false ∧
    (feed (GatewayModuleInterface_sendCommandWaitAnswer s c cmd_payload (Ptr.heap a) cap
      [{ fed := [FRAME_START, c] ++ q, signaled := false }]).2 (r ++ [FRAME_CR])).trace =
      (GatewayModuleInterface_sendCommandWaitAnswer s c cmd_payload (Ptr.heap a) cap
        [{ fed := [FRAME_START, c] ++ q, signaled := false }]).2.trace ∧
    (feed (GatewayModuleInterface_sendCommandWaitAnswer s c cmd_payload (Ptr.heap a) cap
      [{ fed := [FRAME_START, c] ++ q, signaled := false }]).2 (r ++ [FRAME_CR])).g_pending_command =
      { cmd := GATEWAY_MODULE_CMD_NONE
        cmd_sequence := (s.g_pending_command.cmd_sequence + 1) % 256
        ans_sequence := s.g_pending_command.cmd_sequence
        ans_payload := Ptr.null
        ans_payload_max_size := 0
        ans_length := 0 } := by
  rw [sendCommandWaitAnswer_timeout_state s c cmd_payload (Ptr.heap a) cap _ hw]
  simp only [feed_append]
  have hA : feed
      { s with
        g_pending_command := { s.g_pending_command with
          cmd := c
          ans_payload := Ptr.heap a
          ans_payload_max_size := cap
          ans_length := 0 }
        write_results := s.write_results.tail.tail.tail
        trace := s.trace ++ [Event.write_lock true,
          Event.write (commandHeader c cmd_payload.length) true,
          Event.write cmd_payload true,
          Event.write (commandFooter c cmd_payload) true] ++ [Event.signal_wait 1000] }
      [FRAME_START, c] =
      { s with
        g_rx_type := RX_TYPE_t.RX_TYPE_ANSWER
        g_rx_context := { s.g_rx_context with
          checksum := (FRAME_START + c) % 256
          cmd := c
          payload := Ptr.heap a
          max_size := cap }
        g_pending_command := { s.g_pending_command with
          cmd := c
          ans_payload := Ptr.heap a
          ans_payload_max_size := cap
          ans_length := 0
          ans_sequence := s.g_pending_command.cmd_sequence }
        g_state := STATE_t.STATE_WAIT_FOR_LEN0
        write_results := s.write_results.tail.tail.tail
        trace := s.trace ++ [Event.write_lock true,
          Event.write (commandHeader c cmd_payload.length) true,
          Event.write cmd_payload true,
          Event.write (commandFooter c cmd_payload) true] ++ [Event.signal_wait 1000] } := by
    simp [feed, GatewayModuleInterface_dispatch, setState, hs]
  rw [hA]
  generalize hsA :
      ({ s with
        g_rx_type := RX_TYPE_t.RX_TYPE_ANSWER
        g_rx_context := { s.g_rx_context with
          checksum := (FRAME_START + c) % 256
          cmd := c
          payload := Ptr.heap a
          max_size := cap }
        g_pending_command := { s.g_pending_command with
          cmd := c
          ans_payload := Ptr.heap a
          ans_payload_max_size := cap
          ans_length := 0
          ans_sequence := s.g_pending_command.cmd_sequence }
        g_state := STATE_t.STATE_WAIT_FOR_LEN0
        write_results := s.write_results.tail.tail.tail
        trace := s.trace ++ [Event.write_lock true,
          Event.write (commandHeader c cmd_payload.length) true,
          Event.write cmd_payload true,
          Event.write (commandFooter c cmd_payload) true] ++ [Event.signal_wait 1000] } : Globals)
      = sA
  have hA1 : sA.g_state = STATE_t.STATE_WAIT_FOR_LEN0 := by rw [← hsA]
  have hA2 : sA.g_rx_context.cmd = c := by rw [← hsA]
  have hA3 : sA.g_rx_context.checksum = (FRAME_START + c) % 256 := by rw [← hsA]
  have hA4 : sA.g_rx_type = RX_TYPE_t.RX_TYPE_ANSWER := by rw [← hsA]
  have hA5 : sA.g_pending_command.ans_sequence = s.g_pending_command.cmd_sequence := by
    rw [← hsA]
  have hA6 : sA.g_pending_command.cmd_sequence = s.g_pending_command.cmd_sequence := by
    rw [← hsA]
  clear hsA hA
  have hmax' : p.length ≤ maxAnswerLength sA.g_rx_context.cmd := by rw [hA2]; exact hmax
  rw [← hA3] at hsplit
  have hX := feed_body sA p hA1 hp hmax'
  rw [List.append_assoc] at hX
  -- the state the reader left at the timeout
  have hu : (feed sA q).g_pending_command = sA.g_pending_command ∧
      (feed sA q).trace = sA.trace := by
    rcases r with _ | ⟨d, ds⟩
    · rw [List.append_nil] at hsplit
      rw [hsplit, List.append_assoc, hX]
      exact ⟨rfl, rfl⟩
    · exact (body_quiet sA p hA1 hp hmax' q d ds hsplit).2
  have hne : s.g_pending_command.cmd_sequence ≠ (s.g_pending_command.cmd_sequence + 1) % 256 := by
    omega
  rw [feed_sendFinish_body sA p hA1 hp hmax' r q hsplit, hsplit, List.append_assoc, hX,
    feed_cons, feed_nil,
    dispatch_cr_stale _ (by simp [sendFinish, g_write_lock])
      (by simp [sendFinish, g_write_lock, hA4])
      (by simp [sendFinish, g_write_lock, hA5, hA6, hne])]
  refine ⟨trivial, ?_, ?_⟩
  · simp [sendFinish, g_write_lock, hu.2]
  · simp [sendFinish, g_write_lock, hA5, hA6]

/-! ## A frame that arrives when no command is pending -/

/-- The clean-up can be moved past any bytes along which every step is quiet. -/
theorem feed_sendFinish_quiet (s : Globals) (body : List Nat)
    (hq : ∀ (q : List Nat) (d : Nat) (ds : List Nat), q ++ d :: ds = body → quiet (feed s q) d) :
    ∀ (r q : List Nat), q ++ r = body →
      feed (sendFinish (feed s q)) r = sendFinish (feed s (q ++ r)) := by
  intro r
  induction r with
  | nil => intro q _; simp [feed_nil]
  | cons d ds ih =>
    intro q hsplit
    have h2 : (q ++ [d]) ++ ds = q ++ d :: ds := by simp
    rw [feed_cons, dispatch_sendFinish _ d (hq q d ds hsplit), ← h2,
      ← ih (q ++ [d]) (by rw [h2]; exact hsplit), feed_append s q [d]]
    rfl

/-- The receiver after the two zero length bytes of an empty frame. -/
theorem feed_len_zero (s : Globals) (hs : s.g_state = STATE_t.STATE_WAIT_FOR_LEN0) :
    feed s [0, 0] =
      { s with
        g_rx_context := { s.g_rx_context with
          checksum := sum8 s.g_rx_context.checksum [0, 0]
          length := 0
          counter := 0 }
        g_state := STATE_t.STATE_WAIT_FOR_DATA } :=
  feed_len s 0 hs (Nat.zero_le _)

/-- With declared length `0` the receiver still takes one byte as data: after
the bytes `0, 0, b` it waits for the checksum, having added `b` to the sum. -/
theorem feed_empty_body (s : Globals) (b : Nat)
    (hs : s.g_state = STATE_t.STATE_WAIT_FOR_LEN0) :
    (feed s [0, 0, b]).g_state = STATE_t.STATE_WAIT_FOR_CHECKSUM ∧
    (feed s [0, 0, b]).g_rx_context.checksum = (sum8 s.g_rx_context.checksum [0, 0] + b) % 256 ∧
    (feed s [0, 0, b]).g_rx_context.cmd = s.g_rx_context.cmd ∧
    (feed s [0, 0, b]).g_rx_type = s.g_rx_type ∧
    (feed s [0, 0, b]).g_pending_command = s.g_pending_command ∧
    (feed s [0, 0, b]).trace = s.trace := by
  have h : feed s [0, 0, b] = feed (feed s [0, 0]) [b] := by
    rw [← feed_append]; rfl
  rw [h, feed_len_zero s hs, feed_cons, feed_nil, dispatch_data _ b rfl]
  exact ⟨by simp, rfl, rfl, rfl, rfl, rfl⟩

/-- Along the bytes `0, 0, b` of an empty frame every step is quiet, and the
pending command and the trace are as they were. -/
theorem empty_body_quiet (s : Globals) (b : Nat)
    (hs : s.g_state = STATE_t.STATE_WAIT_FOR_LEN0)
    (q : List Nat) (d : Nat) (ds : List Nat) (hsplit : q ++ d :: ds = [0, 0, b]) :
    quiet (feed s q) d ∧ (feed s q).g_pending_command = s.g_pending_command ∧
      (feed s q).trace = s.trace := by
  rcases q with _ | ⟨x, _ | ⟨y, _ | ⟨z, t⟩⟩⟩
  · exact ⟨Or.inl hs, rfl, rfl⟩
  · rw [feed_cons, feed_nil, dispatch_len0 s x hs]
    exact ⟨Or.inr (Or.inl rfl), rfl, rfl⟩
  · simp only [List.cons_append, List.nil_append, List.cons.injEq] at hsplit
    obtain ⟨hx, hy, _⟩ := hsplit
    subst hx hy
    rw [feed_len_zero s hs]
    exact ⟨Or.inr (Or.inr (Or.inl rfl)), rfl, rfl⟩
  · have := congrArg List.length hsplit
    simp at this

/-- The answer frame with an empty payload is cut by a timeout after its
command byte.  The call fails; the rest of the frame ends in a checksum
mismatch, so the trace grows by the lock and write events of a negative
acknowledgement only, and the pending command is as the clean-up left it. -/
theorem timeout_mid_frame_empty (s : Globals) (c : Nat) (cmd_payload : List Nat) (a cap : Nat)
    (q r : List Nat)
    (hs : s.g_state = STATE_t.STATE_WAIT_FOR_START) (hw : writesSucceed s)
    (hsplit : q ++ r = [0, 0, sum8 ((FRAME_START + c) % 256) [0, 0]]) :
    (∃ evs, (feed (GatewayModuleInterface_sendCommandWaitAnswer s c cmd_payload (Ptr.heap a) cap
        [{ fed := [FRAME_START, c] ++ q, signaled := false }]).2 (r ++ [FRAME_CR])).trace =
        (GatewayModuleInterface_sendCommandWaitAnswer s c cmd_payload (Ptr.heap a) cap
          [{ fed := [FRAME_START, c] ++ q, signaled := false }]).2.trace ++ evs ∧
      ∀ e ∈ evs, e.isTransport = true) ∧
    (feed (GatewayModuleInterface_sendCommandWaitAnswer s c cmd_payload (Ptr.heap a) cap
      [{ fed := [FRAME_START, c] ++ q, signaled := false }]).2 (r ++ [FRAME_CR])).g_pending_command =
      { cmd := GATEWAY_MODULE_CMD_NONE
        cmd_sequence := (s.g_pending_command.cmd_sequence + 1) % 256
        ans_sequence := s.g_pending_command.cmd_sequence
        ans_payload := Ptr.null
        ans_payload_max_size := 0
        ans_length := 0 } := by
  rw [sendCommandWaitAnswer_timeout_state s c cmd_payload (Ptr.heap a) cap _ hw]
  simp only [feed_append]
  have hA : feed
      { s with
        g_pending_command := { s.g_pending_command with
          cmd := c
          ans_payload := Ptr.heap a
          ans_payload_max_size := cap
          ans_length := 0 }
        write_results := s.write_results.tail.tail.tail
        trace := s.trace ++ [Event.write_lock true,
          Event.write (commandHeader c cmd_payload.length) true,
          Event.write cmd_payload true,
          Event.write (commandFooter c cmd_payload) true] ++ [Event.signal_wait 1000] }
      [FRAME_START, c] =
      { s with
        g_rx_type := RX_TYPE_t.RX_TYPE_ANSWER
        g_rx_context := { s.g_rx_context with
          checksum := (FRAME_START + c) % 256
          cmd := c
          payload := Ptr.heap a
          max_size := cap }
        g_pending_command := { s.g_pending_command with
          cmd := c
          ans_payload := Ptr.heap a
          ans_payload_max_size := cap
          ans_length := 0
          ans_sequence := s.g_pending_command.cmd_sequence }
        g_state := STATE_t.STATE_WAIT_FOR_LEN0
        write_results := s.write_results.tail.tail.tail
        trace := s.trace ++ [Event.write_lock true,
          Event.write (commandHeader c cmd_payload.length) true,
          Event.write cmd_payload true,
          Event.write (commandFooter c cmd_payload) true] ++ [Event.signal_wait 1000] } := by
    simp [feed, GatewayModuleInterface_dispatch, setState, hs]
  rw [hA]
  generalize hsA :
      ({ s with
        g_rx_type := RX_TYPE_t.RX_TYPE_ANSWER
        g_rx_context := { s.g_rx_context with
          checksum := (FRAME_START + c) % 256
          cmd := c
          payload := Ptr.heap a
          max_size := cap }
        g_pending_command := { s.g_pending_command with
          cmd := c
          ans_payload := Ptr.heap a
          ans_payload_max_size := cap
          ans_length := 0
          ans_sequence := s.g_pending_command.cmd_sequence }
        g_state := STATE_t.STATE_WAIT_FOR_LEN0
        write_results := s.write_results.tail.tail.tail
        trace := s.trace ++ [Event.write_lock true,
          Event.write (commandHeader c cmd_payload.length) true,
          Event.write cmd_payload true,
          Event.write (commandFooter c cmd_payload) true] ++ [Event.signal_wait 1000] } : Globals)
      = sA
  have hA1 : sA.g_state = STATE_t.STATE_WAIT_FOR_LEN0 := by rw [← hsA]
  have hA3 : sA.g_rx_context.checksum = (FRAME_START + c) % 256 := by rw [← hsA]
  have hA5 : sA.g_pending_command.ans_sequence = s.g_pending_command.cmd_sequence := by
    rw [← hsA]
  have hA6 : sA.g_pending_command.cmd_sequence = s.g_pending_command.cmd_sequence := by
    rw [← hsA]
  clear hsA hA
  rw [← hA3] at hsplit
  obtain ⟨x1, x2, _, _, x5, x6⟩ :=
    feed_empty_body sA (sum8 sA.g_rx_context.checksum [0, 0]) hA1
  -- the state the reader left at the timeout
  have hu : (feed sA q).g_pending_command = sA.g_pending_command ∧
      (feed sA q).trace = sA.trace := by
    rcases r with _ | ⟨d, ds⟩
    · rw [List.append_nil] at hsplit
      rw [hsplit]
      exact ⟨x5, x6⟩
    · exact (empty_body_quiet sA _ hA1 q d ds hsplit).2
  rw [feed_sendFinish_quiet sA _
    (fun q d ds h => (empty_body_quiet sA _ hA1 q d ds h).1) r q hsplit, hsplit]
  generalize feed sA [0, 0, sum8 sA.g_rx_context.checksum [0, 0]] = sX at x1 x2 x5 x6
  have hck : (sendFinish sX).g_rx_context.checksum ≠ FRAME_CR := by
    show sX.g_rx_context.checksum ≠ FRAME_CR
    rw [x2]
    have e13 : FRAME_CR = 13 := rfl
    omega
  rw [feed_cons, feed_nil, dispatch_checksum (sendFinish sX) _ x1, if_neg hck]
  obtain ⟨a1, _, _, _, _, _, evs, ht, hev⟩ :=
    grewBy_sendAck (sendFinish sX) (sendFinish sX).g_rx_context.cmd false
  refine ⟨⟨evs, ?_, hev⟩, ?_⟩
  · show (GatewayModuleInterface_sendAck (sendFinish sX) _ false).trace = _
    rw [ht]
    simp [sendFinish, g_write_lock, hu.2, x6]
  · show (GatewayModuleInterface_sendAck (sendFinish sX) _ false).g_pending_command = _
    rw [a1]
    simp [sendFinish, g_write_lock, x5, hA5, hA6]

/-! ## Sequences after timed-out calls -/

/-- With successful writes, `sendAck` takes the lock, writes header, payload
byte and footer, and releases the lock. -/
theorem sendAck_ok (s : Globals) (c : Nat) (ack : Bool) (hw : writesSucceed s) :
    GatewayModuleInterface_sendAck s c ack =
      { s with
        write_results := s.write_results.tail.tail.tail
        trace := s.trace ++ [Event.write_lock true,
          Event.write [FRAME_START, c % 256, 1, 0] true,
          Event.write [if ack then 0 else 1] true,
          Event.write [(sum8 0 [FRAME_START, c % 256, 1, 0] + (if ack then 0 else 1)) % 256,
            FRAME_CR] true,
          Event.write_lock false] } := by
  unfold writesSucceed at hw
  obtain ⟨ws, hws⟩ : ∃ ws, s.write_results = ws := ⟨_, rfl⟩
  rw [hws] at hw
  rcases ws with _ | ⟨b1, _ | ⟨b2, _ | ⟨b3, r⟩⟩⟩ <;>
    simp_all [GatewayModuleInterface_sendAck, andWrite, g_write, g_write_lock]

/-- C11: for every command code `c` (one byte) and boolean `ack`, when every
write succeeds, `sendAck(c, ack)` takes the lock, writes in three writes the
bytes `[0x23, c, 1, 0, b, (0x23 + c + 1 + b) mod 256, 0x0D]` with `b = 0` for
`ack` true and `b = 1` for `ack` false, and releases the lock; these are the
bytes the command encoder produces for `c` with the one-byte payload `[b]`.
Whatever the writes report, `sendAck` leaves the pending command, the receive
context, the receiver state and type and both buffers unchanged. -/
theorem C11_sendAck_frame (s : Globals) (c : Nat) (ack : Bool) :
    (c < 256 → writesSucceed s →
      (GatewayModuleInterface_sendAck s c ack).trace =
        s.trace ++ [Event.write_lock true,
          Event.write [0x23, c, 1, 0] true,
          Event.write [if ack then 0 else 1] true,
          Event.write [(0x23 + c + 1 + (if ack then 0 else 1)) % 256, 0x0D] true,
          Event.write_lock false] ∧
      writtenBytes (GatewayModuleInterface_sendAck s c ack).trace =
        writtenBytes s.trace ++ encodeFrame c [if ack then 0 else 1] ∧
      encodeFrame c [if ack then 0 else 1] =
        [0x23, c, 1, 0, if ack then 0 else 1,
          (0x23 + c + 1 + (if ack then 0 else 1)) % 256, 0x0D]) ∧
    (GatewayModuleInterface_sendAck s c ack).g_pending_command = s.g_pending_command ∧
    (GatewayModuleInterface_sendAck s c ack).g_rx_context = s.g_rx_context ∧
    (GatewayModuleInterface_sendAck s c ack).g_state = s.g_state ∧
    (GatewayModuleInterface_sendAck s c ack).g_rx_type = s.g_rx_type ∧
    (GatewayModuleInterface_sendAck s c ack).g_receive_buffer = s.g_receive_buffer ∧
    (GatewayModuleInterface_sendAck s c ack).heap = s.heap := by
  obtain ⟨a1, a2, a3, a4, a5, a6, _⟩ := grewBy_sendAck s c ack
  refine ⟨?_, a1, a2, a3, a4, a5, a6⟩
  intro hc hw
  have hmod : c % 256 = c := Nat.mod_eq_of_lt hc
  have henc : encodeFrame c [if ack then 0 else 1] =
      [0x23, c, 1, 0, if ack then 0 else 1,
        (0x23 + c + 1 + (if ack then 0 else 1)) % 256, 0x0D] := by
    cases ack <;> simp [encodeFrame, commandHeader, commandFooter, sum8, hmod]
  have htr : (GatewayModuleInterface_sendAck s c ack).trace =
      s.trace ++ [Event.write_lock true,
        Event.write [0x23, c, 1, 0] true,
        Event.write [if ack then 0 else 1] true,
        Event.write [(0x23 + c + 1 + (if ack then 0 else 1)) % 256, 0x0D] true,
        Event.write_lock false] := by
    rw [sendAck_ok s c ack hw]
    cases ack <;> simp [sum8, hmod]
  refine ⟨htr, ?_, henc⟩
  rw [htr, henc, writtenBytes_append]
  simp [writtenBytes]

/-- The acknowledge frame of C11 for the receive command, negative. -/
theorem C11_sendAck_frame_witness :
    (GatewayModuleInterface_sendAck (zeroGlobals [] []) 0x33 false).trace =
      (zeroGlobals [] []).trace ++ [Event.write_lock true,
        Event.write [0x23, 0x33, 1, 0] true,
        Event.write [if false then 0 else 1] true,
        Event.write [(0x23 + 0x33 + 1 + (if false then 0 else 1)) % 256, 0x0D] true,
        Event.write_lock false] ∧
    writtenBytes (GatewayModuleInterface_sendAck (zeroGlobals [] []) 0x33 false).trace =
      writtenBytes (zeroGlobals [] []).trace ++ encodeFrame 0x33 [if false then 0 else 1] ∧
    encodeFrame 0x33 [if false then 0 else 1] =
      [0x23, 0x33, 1, 0, if false then 0 else 1,
        (0x23 + 0x33 + 1 + (if false then 0 else 1)) % 256, 0x0D] :=
  (C11_sendAck_frame (zeroGlobals [] []) 0x33 false).1 (by decide) (by decide)

/-! ## C17: length decoding and bound -/

/-- The two length bytes after an accepted command byte. -/
theorem feed_len_bytes (s : Globals) (lo hi : Nat)
    (hs : s.g_state = STATE_t.STATE_WAIT_FOR_LEN0) :
    feed s [lo, hi] =
      if lo + 256 * hi ≤ maxAnswerLength s.g_rx_context.cmd then
        { s with
          g_rx_context := { s.g_rx_context with
            checksum := sum8 s.g_rx_context.checksum [lo, hi]
            length := lo + 256 * hi
            counter := 0 }
          g_state := STATE_t.STATE_WAIT_FOR_DATA }
      else
        { s with
          g_rx_context := { s.g_rx_context with
            checksum := sum8 s.g_rx_context.checksum [lo, hi]
            length := lo + 256 * hi }
          g_state := STATE_t.STATE_WAIT_FOR_START } := by
  have hcomm : lo + hi * 256 = lo + 256 * hi := by omega
  rw [feed_cons, feed_cons, feed_nil, dispatch_len0 s lo hs, dispatch_len1 _ hi rfl]
  simp only [hcomm, sum8, List.foldl_cons, List.foldl_nil]

/-- C17: for every pair of length bytes `(lo, hi)` received after an accepted
command byte, the declared length is `lo + 256 * hi`.  If it exceeds
`maxAnswerLength` of the frame's command, the receiver is idle right after the
length-high byte and nothing else has happened: no byte stored, nothing
written, no signal, no callback (memory, write oracle, trace and pending
command are unchanged).  Otherwise the byte counter is `0` and the receiver is
in the data state, again with nothing else changed. -/
theorem C17_length_bound (s : Globals) (lo hi : Nat)
    (hs : s.g_state = STATE_t.STATE_WAIT_FOR_LEN0) :
    (feed s [lo, hi]).g_rx_context.length = lo + 256 * hi ∧
    (maxAnswerLength s.g_rx_context.cmd < lo + 256 * hi →
      feed s [lo, hi] =
        { s with
          g_rx_context := { s.g_rx_context with
            checksum := sum8 s.g_rx_context.checksum [lo, hi]
            length := lo + 256 * hi }
          g_state := STATE_t.STATE_WAIT_FOR_START }) ∧
    (lo + 256 * hi ≤ maxAnswerLength s.g_rx_context.cmd →
      feed s [lo, hi] =
        { s with
          g_rx_context := { s.g_rx_context with
            checksum := sum8 s.g_rx_context.checksum [lo, hi]
            length := lo + 256 * hi
            counter := 0 }
          g_state := STATE_t.STATE_WAIT_FOR_DATA }) := by
  have h := feed_len_bytes s lo hi hs
  refine ⟨?_, ?_, ?_⟩
  · rw [h]; split <;> rfl
  · intro hgt
    rw [h, if_neg (by omega)]
  · intro hle
    rw [h, if_pos hle]

/-- The length bound of C17 on a receive frame that declares 301 bytes. -/
theorem C17_length_bound_witness :
    (feed (feed (zeroGlobals [] []) [0x23, 0x33]) [45, 1]).g_rx_context.length = 45 + 256 * 1 ∧
    (maxAnswerLength (feed (zeroGlobals [] []) [0x23, 0x33]).g_rx_context.cmd < 45 + 256 * 1 →
      feed (feed (zeroGlobals [] []) [0x23, 0x33]) [45, 1] =
        { feed (zeroGlobals [] []) [0x23, 0x33] with
          g_rx_context := { (feed (zeroGlobals [] []) [0x23, 0x33]).g_rx_context with
            checksum := sum8 (feed (zeroGlobals [] []) [0x23, 0x33]).g_rx_context.checksum [45, 1]
            length := 45 + 256 * 1 }
          g_state := STATE_t.STATE_WAIT_FOR_START }) ∧
    (45 + 256 * 1 ≤ maxAnswerLength (feed (zeroGlobals [] []) [0x23, 0x33]).g_rx_context.cmd →
      feed (feed (zeroGlobals [] []) [0x23, 0x33]) [45, 1] =
        { feed (zeroGlobals [] []) [0x23, 0x33] with
          g_rx_context := { (feed (zeroGlobals [] []) [0x23, 0x33]).g_rx_context with
            checksum := sum8 (feed (zeroGlobals [] []) [0x23, 0x33]).g_rx_context.checksum [45, 1]
            length := 45 + 256 * 1
            counter := 0 }
          g_state := STATE_t.STATE_WAIT_FOR_DATA }) :=
  C17_length_bound (feed (zeroGlobals [] []) [0x23, 0x33]) 45 1 rfl

/-! ## C18: terminator handling -/

/-- C18 (amended): in the terminator state every input byte returns the
receiver to idle.  The frame is dispatched (a collaborator is called) if and
only if the byte equals `0x0D` and, for an Answer frame, the answer sequence
equals the send sequence: then an Answer sets the answer length to the declared
length and raises the signal, an Invalid frame sets the answer length to `0`
and raises the signal, and a Receive frame invokes the receive callback.  A
stale Answer and every frame with a terminator mismatch change nothing but the
receiver state: no signal, no callback, answer length not set, buffers as they
are. -/
theorem C18_terminator (s : Globals) (d : Nat) (hs : s.g_state = STATE_t.STATE_WAIT_FOR_CR) :
    (GatewayModuleInterface_dispatch s d).g_state = STATE_t.STATE_WAIT_FOR_START ∧
    ((GatewayModuleInterface_dispatch s d).trace ≠ s.trace ↔
      d = FRAME_CR ∧ (s.g_rx_type = RX_TYPE_t.RX_TYPE_ANSWER →
        s.g_pending_command.ans_sequence = s.g_pending_command.cmd_sequence)) ∧
    (d = FRAME_CR → s.g_rx_type = RX_TYPE_t.RX_TYPE_ANSWER →
      s.g_pending_command.ans_sequence = s.g_pending_command.cmd_sequence →
      GatewayModuleInterface_dispatch s d =
        { s with
          g_pending_command := { s.g_pending_command with ans_length := s.g_rx_context.length }
          trace := s.trace ++ [Event.signal_set]
          g_state := STATE_t.STATE_WAIT_FOR_START }) ∧
    (d = FRAME_CR → s.g_rx_type = RX_TYPE_t.RX_TYPE_INVALID →
      GatewayModuleInterface_dispatch s d =
        { s with
          g_pending_command := { s.g_pending_command with ans_length := 0 }
          trace := s.trace ++ [Event.signal_set]
          g_state := STATE_t.STATE_WAIT_FOR_START }) ∧
    (d = FRAME_CR → s.g_rx_type = RX_TYPE_t.RX_TYPE_RECEIVE →
      GatewayModuleInterface_dispatch s d =
        { s with
          trace := s.trace ++
            [Event.receive_callback (s.g_receive_buffer.take s.g_rx_context.length)
              s.g_rx_context.length]
          g_state := STATE_t.STATE_WAIT_FOR_START }) ∧
    ((d ≠ FRAME_CR ∨ (s.g_rx_type = RX_TYPE_t.RX_TYPE_ANSWER ∧
        s.g_pending_command.ans_sequence ≠ s.g_pending_command.cmd_sequence)) →
      GatewayModuleInterface_dispatch s d = { s with g_state := STATE_t.STATE_WAIT_FOR_START }) := by
  have hquiet : (d ≠ FRAME_CR ∨ (s.g_rx_type = RX_TYPE_t.RX_TYPE_ANSWER ∧
        s.g_pending_command.ans_sequence ≠ s.g_pending_command.cmd_sequence)) →
      GatewayModuleInterface_dispatch s d =
        { s with g_state := STATE_t.STATE_WAIT_FOR_START } := by
    intro h
    by_cases hd : d = FRAME_CR
    · subst hd
      rcases h with h | ⟨ht, hseq⟩
      · exact absurd rfl h
      · exact dispatch_cr_stale s hs ht hseq
    · exact dispatch_cr_other s d hs hd
  refine ⟨?_, ?_, ?_, ?_, ?_, hquiet⟩
  · simp [GatewayModuleInterface_dispatch, hs, setState]
  · constructor
    · intro hne
      by_contra hcon
      apply hne
      rw [hquiet (by
        by_cases hd : d = FRAME_CR
        · right
          by_cases ht : s.g_rx_type = RX_TYPE_t.RX_TYPE_ANSWER
          · exact ⟨ht, fun hseq => hcon ⟨hd, fun _ => hseq⟩⟩
          · exact absurd ⟨hd, fun h => absurd h ht⟩ hcon
        · exact Or.inl hd)]
    · rintro ⟨hd, hseq⟩
      subst hd
      cases ht : s.g_rx_type
      · rw [dispatch_cr_answer s hs ht (hseq ht)]
        simp
      · rw [dispatch_cr_invalid s hs ht]
        simp
      · rw [dispatch_cr_receive s hs ht]
        simp
  · intro hd ht hseq
    subst hd
    exact dispatch_cr_answer s hs ht hseq
  · intro hd ht
    subst hd
    exact dispatch_cr_invalid s hs ht
  · intro hd ht
    subst hd
    exact dispatch_cr_receive s hs ht

/-- The terminator of C18 on a complete receive frame: the callback is invoked. -/
theorem C18_terminator_witness :
    GatewayModuleInterface_dispatch (feed (zeroGlobals [] []) [0x23, 0x33, 1, 0, 5, 0x5C]) 0x0D =
      { feed (zeroGlobals [] []) [0x23, 0x33, 1, 0, 5, 0x5C] with
        trace := (feed (zeroGlobals [] []) [0x23, 0x33, 1, 0, 5, 0x5C]).trace ++
          [Event.receive_callback
            ((feed (zeroGlobals [] []) [0x23, 0x33, 1, 0, 5, 0x5C]).g_receive_buffer.take
              (feed (zeroGlobals [] []) [0x23, 0x33, 1, 0, 5, 0x5C]).g_rx_context.length)
            (feed (zeroGlobals [] []) [0x23, 0x33, 1, 0, 5, 0x5C]).g_rx_context.length]
        g_state := STATE_t.STATE_WAIT_FOR_START } :=
  (C18_terminator (feed (zeroGlobals [] []) [0x23, 0x33, 1, 0, 5, 0x5C]) 0x0D
    (by decide)).2.2.2.2.1 rfl (by decide)

/-- C18 as stated fails for a stale Answer: a VERSION call times out when the
whole answer frame but its terminator has been received; the terminator `0x0D`
then arrives, and although the byte equals `0x0D` the frame is not dispatched:
the trace and the answer length are unchanged. -/
theorem C18_counterexample :
    (timedOut (zeroGlobals [0, 0] []) 0x3A [] (Ptr.heap 0) 2
      [0x23, 0x3A, 2, 0, 7, 8, 0x6E]).2.g_state = STATE_t.STATE_WAIT_FOR_CR ∧
    (GatewayModuleInterface_dispatch (timedOut (zeroGlobals [0, 0] []) 0x3A [] (Ptr.heap 0) 2
      [0x23, 0x3A, 2, 0, 7, 8, 0x6E]).2 0x0D).trace =
      (timedOut (zeroGlobals [0, 0] []) 0x3A [] (Ptr.heap 0) 2
        [0x23, 0x3A, 2, 0, 7, 8, 0x6E]).2.trace ∧
    (GatewayModuleInterface_dispatch (timedOut (zeroGlobals [0, 0] []) 0x3A [] (Ptr.heap 0) 2
      [0x23, 0x3A, 2, 0, 7, 8, 0x6E]).2 0x0D).g_pending_command.ans_length = 0 := by
  decide

/-! ## C16: the checksum decision -/

/-- The start marker and a command byte of any of the three accepted kinds
(the pending command's code, `0x33`, `0xFF`), from the idle state. -/
theorem feed_start_accepted (s : Globals) (c : Nat)
    (hs : s.g_state = STATE_t.STATE_WAIT_FOR_START)
    (hacc : c = s.g_pending_command.cmd ∨ c = GATEWAY_MODULE_CMD_RECEIVE ∨
      c = GATEWAY_MODULE_CMD_INVALID) :
    (feed s [FRAME_START, c]).g_state = STATE_t.STATE_WAIT_FOR_LEN0 ∧
    (feed s [FRAME_START, c]).g_rx_context.cmd = c ∧
    (feed s [FRAME_START, c]).g_rx_context.checksum = (FRAME_START + c) % 256 ∧
    (feed s [FRAME_START, c]).trace = s.trace ∧
    (feed s [FRAME_START, c]).write_results = s.write_results ∧
    (feed s [FRAME_START, c]).heap = s.heap ∧
    (feed s [FRAME_START, c]).g_receive_buffer = s.g_receive_buffer ∧
    (feed s [FRAME_START, c]).g_pending_command.ans_length = s.g_pending_command.ans_length := by
  rw [feed_cons, feed_cons, feed_nil, dispatch_start_marker s hs]
  by_cases hcmd : c = s.g_pending_command.cmd
  · simp [GatewayModuleInterface_dispatch, hcmd, setState]
  · rcases hacc with h | h | h
    · exact absurd h hcmd
    · subst h
      simp [GatewayModuleInterface_dispatch, hcmd, setState]
    · subst h
      simp [GatewayModuleInterface_dispatch, hcmd, setState]

/-- The receiver after header and data bytes of a frame begun from idle: it
waits for the checksum byte, the accumulator holds the 8-bit sum of all bytes
consumed, and nothing has been emitted. -/
theorem feed_to_checksum (s : Globals) (c lo hi : Nat) (data : List Nat)
    (hs : s.g_state = STATE_t.STATE_WAIT_FOR_START)
    (hacc : c = s.g_pending_command.cmd ∨ c = GATEWAY_MODULE_CMD_RECEIVE ∨
      c = GATEWAY_MODULE_CMD_INVALID)
    (hmax : lo + 256 * hi ≤ maxAnswerLength c)
    (hlen : data.length = max 1 (lo + 256 * hi)) :
    (feed s ([FRAME_START, c, lo, hi] ++ data)).g_state = STATE_t.STATE_WAIT_FOR_CHECKSUM ∧
    (feed s ([FRAME_START, c, lo, hi] ++ data)).g_rx_context.checksum =
      (FRAME_START + c + lo + hi + data.sum) % 256 ∧
    (feed s ([FRAME_START, c, lo, hi] ++ data)).g_rx_context.cmd = c ∧
    (feed s ([FRAME_START, c, lo, hi] ++ data)).g_rx_context.counter = data.length ∧
    (feed s ([FRAME_START, c, lo, hi] ++ data)).trace = s.trace ∧
    (feed s ([FRAME_START, c, lo, hi] ++ data)).write_results = s.write_results ∧
    (feed s ([FRAME_START, c, lo, hi] ++ data)).g_pending_command.ans_length =
      s.g_pending_command.ans_length := by
  obtain ⟨h1, h2, h3, h4, h5, _, _, h8⟩ := feed_start_accepted s c hs hacc
  have hne : data ≠ [] := by
    intro h
    rw [h] at hlen
    simp at hlen
    omega
  have hsplit : [FRAME_START, c, lo, hi] ++ data = [FRAME_START, c] ++ ([lo, hi] ++ data) := rfl
  have hlenb := feed_len_bytes (feed s [FRAME_START, c]) lo hi h1
  rw [h2, if_pos hmax] at hlenb
  rw [hsplit, feed_append, feed_append, hlenb, feed_data data _ rfl hne (by simp; omega)]
  refine ⟨rfl, ?_, h2, by simp, h4, h5, h8⟩
  show sum8 (sum8 (feed s [FRAME_START, c]).g_rx_context.checksum [lo, hi]) data = _
  rw [h3, sum8_eq _ _ (Nat.mod_lt _ (by decide)), sum8_eq _ _ (Nat.mod_lt _ (by decide))]
  simp only [List.sum_cons, List.sum_nil]
  omega

/-- C16: the receiver is brought from idle to the checksum state by the start
marker, an accepted command byte `c`, two length bytes within the command's
maximum and the data bytes of the frame.  The next byte `d` is accepted
(terminator state, nothing emitted, nothing else changed) if and only if it
equals the sum modulo 256 of all bytes consumed from the start marker through
the last data byte.  Otherwise the receiver calls `sendAck(c, false)` once and
returns to idle: only lock and write events are emitted (no signal, no receive
callback), the pending command and both buffers are unchanged, and when the
writes succeed the bytes written are
`[0x23, c, 1, 0, 1, (0x23 + c + 2) mod 256, 0x0D]`. -/
theorem C16_checksum_decision (s : Globals) (c lo hi : Nat) (data : List Nat) (d : Nat)
    (hs : s.g_state = STATE_t.STATE_WAIT_FOR_START) (hc : c < 256)
    (hacc : c = s.g_pending_command.cmd ∨ c = GATEWAY_MODULE_CMD_RECEIVE ∨
      c = GATEWAY_MODULE_CMD_INVALID)
    (hmax : lo + 256 * hi ≤ maxAnswerLength c)
    (hlen : data.length = max 1 (lo + 256 * hi)) :
    (feed s ([FRAME_START, c, lo, hi] ++ data)).g_state = STATE_t.STATE_WAIT_FOR_CHECKSUM ∧
    (feed s ([FRAME_START, c, lo, hi] ++ data)).trace = s.trace ∧
    ((GatewayModuleInterface_dispatch (feed s ([FRAME_START, c, lo, hi] ++ data)) d).g_state
        = STATE_t.STATE_WAIT_FOR_CR ↔ d = (0x23 + c + lo + hi + data.sum) % 256) ∧
    (d = (0x23 + c + lo + hi + data.sum) % 256 →
      GatewayModuleInterface_dispatch (feed s ([FRAME_START, c, lo, hi] ++ data)) d =
        { feed s ([FRAME_START, c, lo, hi] ++ data) with
          g_state := STATE_t.STATE_WAIT_FOR_CR }) ∧
    (d ≠ (0x23 + c + lo + hi + data.sum) % 256 →
      (GatewayModuleInterface_dispatch (feed s ([FRAME_START, c, lo, hi] ++ data)) d).g_state
        = STATE_t.STATE_WAIT_FOR_START ∧
      (GatewayModuleInterface_dispatch (feed s ([FRAME_START, c, lo, hi] ++ data)) d).trace
        = (GatewayModuleInterface_sendAck s c false).trace ∧
      (∃ evs,
        (GatewayModuleInterface_dispatch (feed s ([FRAME_START, c, lo, hi] ++ data)) d).trace
          = s.trace ++ evs ∧ ∀ e ∈ evs, e.isTransport = true) ∧
      (GatewayModuleInterface_dispatch (feed s ([FRAME_START, c, lo, hi] ++ data))
          d).g_pending_command = (feed s ([FRAME_START, c, lo, hi] ++ data)).g_pending_command ∧
      (GatewayModuleInterface_dispatch (feed s ([FRAME_START, c, lo, hi] ++ data)) d).heap
        = (feed s ([FRAME_START, c, lo, hi] ++ data)).heap ∧
      (GatewayModuleInterface_dispatch (feed s ([FRAME_START, c, lo, hi] ++ data))
          d).g_receive_buffer = (feed s ([FRAME_START, c, lo, hi] ++ data)).g_receive_buffer ∧
      (writesSucceed s →
        (GatewayModuleInterface_dispatch (feed s ([FRAME_START, c, lo, hi] ++ data)) d).trace
          = s.trace ++ [Event.write_lock true, Event.write [0x23, c, 1, 0] true,
              Event.write [1] true, Event.write [(0x23 + c + 2) % 256, 0x0D] true,
              Event.write_lock false] ∧
        writtenBytes
            (GatewayModuleInterface_dispatch (feed s ([FRAME_START, c, lo, hi] ++ data)) d).trace
          = writtenBytes s.trace ++ [0x23, c, 1, 0, 1, (0x23 + c + 2) % 256, 0x0D])) := by
  obtain ⟨b1, b2, b3, _, b5, b6, _⟩ := feed_to_checksum s c lo hi data hs hacc hmax hlen
  generalize feed s ([FRAME_START, c, lo, hi] ++ data) = t at b1 b2 b3 b5 b6
  have hstep := dispatch_checksum t d b1
  rw [b2, b3] at hstep
  have e35 : FRAME_START = 35 := rfl
  refine ⟨b1, b5, ?_, ?_, ?_⟩
  · constructor
    · intro h
      by_contra hne
      rw [hstep, if_neg (by rw [e35]; omega)] at h
      simp at h
    · intro h
      rw [hstep, if_pos (by rw [e35]; omega)]
  · intro h
    rw [hstep, if_pos (by rw [e35]; omega)]
  · intro h
    rw [hstep, if_neg (by rw [e35]; omega)]
    obtain ⟨a1, _, _, _, a5, a6, evs, ht, hev⟩ := grewBy_sendAck t c false
    have hcongr := sendAck_congr s t c false b5 b6
    refine ⟨rfl, hcongr.1, ⟨evs, ?_, hev⟩, a1, a6, a5, ?_⟩
    · show (GatewayModuleInterface_sendAck t c false).trace = _
      rw [ht, b5]
    · intro hw
      have hok := sendAck_ok s c false hw
      have htr : (GatewayModuleInterface_sendAck t c false).trace =
          s.trace ++ [Event.write_lock true, Event.write [0x23, c, 1, 0] true,
              Event.write [1] true, Event.write [(0x23 + c + 2) % 256, 0x0D] true,
              Event.write_lock false] := by
        rw [hcongr.1, hok]
        have hcm : c % 256 = c := Nat.mod_eq_of_lt hc
        simp [sum8, hcm, e35, FRAME_CR]
      refine ⟨htr, ?_⟩
      show writtenBytes (GatewayModuleInterface_sendAck t c false).trace = _
      rw [htr, writtenBytes_append]
      simp [writtenBytes]

/-- The checksum decision of C16 on the receive frame `23 33 01 00 05` followed by
the wrong checksum byte `0x00`. -/
theorem C16_checksum_decision_witness :
    (GatewayModuleInterface_dispatch (feed (zeroGlobals [] []) ([FRAME_START, 0x33, 1, 0] ++ [5]))
        0).g_state = STATE_t.STATE_WAIT_FOR_START ∧
    writtenBytes (GatewayModuleInterface_dispatch
        (feed (zeroGlobals [] []) ([FRAME_START, 0x33, 1, 0] ++ [5])) 0).trace
      = writtenBytes (zeroGlobals [] []).trace ++
        [0x23, 0x33, 1, 0, 1, (0x23 + 0x33 + 2) % 256, 0x0D] :=
  ⟨((C16_checksum_decision (zeroGlobals [] []) 0x33 1 0 [5] 0 rfl (by decide) (Or.inr (Or.inl rfl))
      (by decide) (by decide)).2.2.2.2 (by decide)).1,
   (((C16_checksum_decision (zeroGlobals [] []) 0x33 1 0 [5] 0 rfl (by decide) (Or.inr (Or.inl rfl))
      (by decide) (by decide)).2.2.2.2 (by decide)).2.2.2.2.2.2 (by decide)).2⟩

/-! ## C19: stores of the data state -/

/-- The target buffer and capacity chosen at the command byte. -/
theorem feed_start_target (s : Globals) (c : Nat)
    (hs : s.g_state = STATE_t.STATE_WAIT_FOR_START) :
    (c = s.g_pending_command.cmd →
      (feed s [FRAME_START, c]).g_rx_context.payload = s.g_pending_command.ans_payload ∧
      (feed s [FRAME_START, c]).g_rx_context.max_size
        = s.g_pending_command.ans_payload_max_size) ∧
    (c ≠ s.g_pending_command.cmd → c = GATEWAY_MODULE_CMD_RECEIVE →
      (feed s [FRAME_START, c]).g_rx_context.payload = Ptr.receive_buffer ∧
      (feed s [FRAME_START, c]).g_rx_context.max_size = 300) ∧
    (c ≠ s.g_pending_command.cmd → c = GATEWAY_MODULE_CMD_INVALID →
      (feed s [FRAME_START, c]).g_rx_context.payload = Ptr.null ∧
      (feed s [FRAME_START, c]).g_rx_context.max_size = 0) := by
  rw [feed_cons, feed_cons, feed_nil, dispatch_start_marker s hs]
  refine ⟨?_, ?_, ?_⟩
  · intro h
    simp [GatewayModuleInterface_dispatch, h, setState]
  · intro h1 h2
    subst h2
    simp [GatewayModuleInterface_dispatch, h1, setState]
  · intro h1 h2
    subst h2
    simp [GatewayModuleInterface_dispatch, h1, setState]

/-- With capacity `0` nothing is stored. -/
theorem blit_cap_zero (base : Nat) (p : List Nat) : ∀ (mem : List Nat) (k : Nat),
    blit mem base 0 k p = mem := by
  induction p with
  | nil => intro mem k; rfl
  | cons d ds ih => intro mem k; simp [blit, ih]

/-- Memory after header and data bytes of a frame begun from idle. -/
theorem feed_to_checksum_mem (s : Globals) (c lo hi : Nat) (data : List Nat)
    (hs : s.g_state = STATE_t.STATE_WAIT_FOR_START)
    (hacc : c = s.g_pending_command.cmd ∨ c = GATEWAY_MODULE_CMD_RECEIVE ∨
      c = GATEWAY_MODULE_CMD_INVALID)
    (hmax : lo + 256 * hi ≤ maxAnswerLength c)
    (hlen : data.length = max 1 (lo + 256 * hi)) :
    (feed s ([FRAME_START, c, lo, hi] ++ data)).g_rx_context.payload
      = (feed s [FRAME_START, c]).g_rx_context.payload ∧
    (feed s ([FRAME_START, c, lo, hi] ++ data)).g_rx_context.max_size
      = (feed s [FRAME_START, c]).g_rx_context.max_size ∧
    (feed s ([FRAME_START, c, lo, hi] ++ data)).g_rx_context.length = lo + 256 * hi ∧
    (feed s ([FRAME_START, c, lo, hi] ++ data)).heap =
      heapAfter (feed s [FRAME_START, c]).g_rx_context.payload
        (feed s [FRAME_START, c]).g_rx_context.max_size s.heap 0 data ∧
    (feed s ([FRAME_START, c, lo, hi] ++ data)).g_receive_buffer =
      rbufAfter (feed s [FRAME_START, c]).g_rx_context.payload
        (feed s [FRAME_START, c]).g_rx_context.max_size s.g_receive_buffer 0 data := by
  obtain ⟨h1, h2, _, _, _, h6, h7, _⟩ := feed_start_accepted s c hs hacc
  have hne : data ≠ [] := by
    intro h
    rw [h] at hlen
    simp at hlen
    omega
  have hsplit : [FRAME_START, c, lo, hi] ++ data = [FRAME_START, c] ++ ([lo, hi] ++ data) := rfl
  have hlenb := feed_len_bytes (feed s [FRAME_START, c]) lo hi h1
  rw [h2, if_pos hmax] at hlenb
  rw [hsplit, feed_append, feed_append, hlenb, feed_data data _ rfl hne (by simp; omega)]
  refine ⟨rfl, rfl, rfl, ?_, ?_⟩
  · show heapAfter _ _ (feed s [FRAME_START, c]).heap 0 data = _
    rw [h6]
  · show rbufAfter _ _ (feed s [FRAME_START, c]).g_receive_buffer 0 data = _
    rw [h7]

/-- C19: the start marker, an accepted command byte `c`, two length bytes
declaring `L = lo + 256 * hi` with `1 ≤ L ≤ maxAnswerLength c`, and `L` payload
bytes `p` are fed to the idle receiver.  Afterwards the receiver waits for the
checksum byte, the counter equals `L`, and the checksum accumulator holds the
8-bit sum of header and all `L` payload bytes.  The target is the pending
command's answer buffer and capacity when `c` is the pending command, the
receive buffer with capacity 300 for `0x33`, and no buffer with capacity 0 for
`0xFF`.  With target capacity `C`: a caller buffer at address `a` holds
`p[i]` at `a + i` for every `i < min L C` (inside the caller memory), every
other position of the caller memory is unchanged and the receive buffer is
unchanged; the receive buffer as target holds `p[i]` at `i` for `i < min L C`,
is unchanged from `min L C` on, and the caller memory is unchanged; with
capacity `0` nothing is stored. -/
theorem C19_truncate_with_count (s : Globals) (c lo hi : Nat) (p : List Nat)
    (hs : s.g_state = STATE_t.STATE_WAIT_FOR_START)
    (hacc : c = s.g_pending_command.cmd ∨ c = GATEWAY_MODULE_CMD_RECEIVE ∨
      c = GATEWAY_MODULE_CMD_INVALID)
    (hL : 1 ≤ lo + 256 * hi)
    (hmax : lo + 256 * hi ≤ maxAnswerLength c)
    (hp : p.length = lo + 256 * hi) :
    (feed s ([FRAME_START, c, lo, hi] ++ p)).g_state = STATE_t.STATE_WAIT_FOR_CHECKSUM ∧
    (feed s ([FRAME_START, c, lo, hi] ++ p)).g_rx_context.counter = lo + 256 * hi ∧
    (feed s ([FRAME_START, c, lo, hi] ++ p)).g_rx_context.length = lo + 256 * hi ∧
    (feed s ([FRAME_START, c, lo, hi] ++ p)).g_rx_context.checksum
      = (0x23 + c + lo + hi + p.sum) % 256 ∧
    (c = s.g_pending_command.cmd →
      (feed s ([FRAME_START, c, lo, hi] ++ p)).g_rx_context.payload
        = s.g_pending_command.ans_payload ∧
      (feed s ([FRAME_START, c, lo, hi] ++ p)).g_rx_context.max_size
        = s.g_pending_command.ans_payload_max_size) ∧
    (c ≠ s.g_pending_command.cmd → c = GATEWAY_MODULE_CMD_RECEIVE →
      (feed s ([FRAME_START, c, lo, hi] ++ p)).g_rx_context.payload = Ptr.receive_buffer ∧
      (feed s ([FRAME_START, c, lo, hi] ++ p)).g_rx_context.max_size = 300) ∧
    (c ≠ s.g_pending_command.cmd → c = GATEWAY_MODULE_CMD_INVALID →
      (feed s ([FRAME_START, c, lo, hi] ++ p)).g_rx_context.max_size = 0) ∧
    (∀ a, (feed s ([FRAME_START, c, lo, hi] ++ p)).g_rx_context.payload = Ptr.heap a →
      (∀ i, i < min (lo + 256 * hi)
            (feed s ([FRAME_START, c, lo, hi] ++ p)).g_rx_context.max_size →
          a + i < s.heap.length →
          (feed s ([FRAME_START, c, lo, hi] ++ p)).heap[a + i]? = p[i]?) ∧
      (∀ j, (j < a ∨ a + min (lo + 256 * hi)
            (feed s ([FRAME_START, c, lo, hi] ++ p)).g_rx_context.max_size ≤ j) →
          (feed s ([FRAME_START, c, lo, hi] ++ p)).heap[j]? = s.heap[j]?) ∧
      (feed s ([FRAME_START, c, lo, hi] ++ p)).g_receive_buffer = s.g_receive_buffer) ∧
    ((feed s ([FRAME_START, c, lo, hi] ++ p)).g_rx_context.payload = Ptr.receive_buffer →
      (∀ i, i < min (lo + 256 * hi)
            (feed s ([FRAME_START, c, lo, hi] ++ p)).g_rx_context.max_size →
          i < s.g_receive_buffer.length →
          (feed s ([FRAME_START, c, lo, hi] ++ p)).g_receive_buffer[i]? = p[i]?) ∧
      (∀ j, min (lo + 256 * hi)
            (feed s ([FRAME_START, c, lo, hi] ++ p)).g_rx_context.max_size ≤ j →
          (feed s ([FRAME_START, c, lo, hi] ++ p)).g_receive_buffer[j]?
            = s.g_receive_buffer[j]?) ∧
      (feed s ([FRAME_START, c, lo, hi] ++ p)).heap = s.heap) ∧
    ((feed s ([FRAME_START, c, lo, hi] ++ p)).g_rx_context.max_size = 0 →
      (feed s ([FRAME_START, c, lo, hi] ++ p)).heap = s.heap ∧
      (feed s ([FRAME_START, c, lo, hi] ++ p)).g_receive_buffer = s.g_receive_buffer) := by
  have hlen : p.length = max 1 (lo + 256 * hi) := by omega
  obtain ⟨b1, b2, _, b4, _⟩ := feed_to_checksum s c lo hi p hs hacc hmax hlen
  obtain ⟨m1, m2, m3, m4, m5⟩ := feed_to_checksum_mem s c lo hi p hs hacc hmax hlen
  obtain ⟨t1, t2, t3⟩ := feed_start_target s c hs
  rw [← m1, ← m2] at m4 m5 t1 t2 t3
  generalize feed s ([FRAME_START, c, lo, hi] ++ p) = t at b1 b2 b4 m3 m4 m5 t1 t2 t3
  have e35 : FRAME_START = 35 := rfl
  refine ⟨b1, by omega, m3, by rw [b2, e35], t1, t2, fun h1 h2 => (t3 h1 h2).2, ?_, ?_, ?_⟩
  · intro a ha
    rw [ha] at m4 m5
    simp only [heapAfter, rbufAfter] at m4 m5
    refine ⟨?_, ?_, m5⟩
    · intro i hi hin
      rw [m4, blit_getElem?, if_pos (by omega)]
      simp
    · intro j hj
      rw [m4, blit_getElem?, if_neg (by omega)]
  · intro ha
    rw [ha] at m4 m5
    simp only [heapAfter, rbufAfter] at m4 m5
    refine ⟨?_, ?_, m4⟩
    · intro i hi hin
      rw [m5, blit_getElem?, if_pos (by omega)]
      simp
    · intro j hj
      rw [m5, blit_getElem?, if_neg (by omega)]
  · intro h0
    rw [h0] at m4 m5
    constructor
    · rw [m4]
      cases t.g_rx_context.payload <;> simp [heapAfter, blit_cap_zero]
    · rw [m5]
      cases t.g_rx_context.payload <;> simp [rbufAfter, blit_cap_zero]

/-- The stores of C19 for a VERSION answer of three bytes into a caller buffer of
capacity two at address `1` of a four-byte memory. -/
theorem C19_truncate_with_count_witness :
    (feed (sendStart (zeroGlobals [9, 9, 9, 9] []) GATEWAY_MODULE_CMD_VERSION [] (Ptr.heap 1) 2).2
      ([FRAME_START, 0x3A, 3, 0] ++ [5, 6, 7])).g_rx_context.counter = 3 + 256 * 0 ∧
    (feed (sendStart (zeroGlobals [9, 9, 9, 9] []) GATEWAY_MODULE_CMD_VERSION [] (Ptr.heap 1) 2).2
      ([FRAME_START, 0x3A, 3, 0] ++ [5, 6, 7])).heap = [9, 5, 6, 9] :=
  ⟨(C19_truncate_with_count
      (sendStart (zeroGlobals [9, 9, 9, 9] []) GATEWAY_MODULE_CMD_VERSION [] (Ptr.heap 1) 2).2
      0x3A 3 0 [5, 6, 7] (by decide) (Or.inl (by decide)) (by decide) (by decide)
      (by decide)).2.1, by decide⟩

/-! ## C20: the reported answer length -/

/-- C12: after a successful VERSION exchange the send sequence is 1 and the
answer sequence 0.  The next call sends command `8`; during its first wait the
peer's invalid-command frame `23 FF 01 00 00 23 0D` is dispatched and the wait
reports the signal.  At that wake the signal has been raised and the answer
length is 0, but the answer sequence differs from the send sequence: the call
does not return on that wake, waits again, times out and returns failure. -/
theorem C12_invalid_frame_keeps_waiting :
    versionAnswered.g_state = STATE_t.STATE_WAIT_FOR_START ∧
    versionAnswered.g_pending_command.cmd_sequence = 1 ∧
    versionAnswered.g_pending_command.ans_sequence = 0 ∧
    encodeFrame GATEWAY_MODULE_CMD_INVALID [0] = [0x23, 0xFF, 1, 0, 0, 0x23, 0x0D] ∧
    (g_signal_wait (sendStart versionAnswered 8 [] Ptr.null 0).2 1000
      { fed := encodeFrame GATEWAY_MODULE_CMD_INVALID [0], signaled := true }).2.trace =
      (sendStart versionAnswered 8 [] Ptr.null 0).2.trace ++
        [Event.signal_wait 1000, Event.signal_set] ∧
    (g_signal_wait (sendStart versionAnswered 8 [] Ptr.null 0).2 1000
      { fed := encodeFrame GATEWAY_MODULE_CMD_INVALID [0],
        signaled := true }).2.g_pending_command.ans_length = 0 ∧
    (g_signal_wait (sendStart versionAnswered 8 [] Ptr.null 0).2 1000
      { fed := encodeFrame GATEWAY_MODULE_CMD_INVALID [0],
        signaled := true }).2.g_pending_command.ans_sequence = 0 ∧
    (g_signal_wait (sendStart versionAnswered 8 [] Ptr.null 0).2 1000
      { fed := encodeFrame GATEWAY_MODULE_CMD_INVALID [0],
        signaled := true }).2.g_pending_command.cmd_sequence = 1 ∧
    (GatewayModuleInterface_sendCommandWaitAnswer versionAnswered 8 [] Ptr.null 0
      [{ fed := encodeFrame GATEWAY_MODULE_CMD_INVALID [0], signaled := true }]).1 = false ∧
    (GatewayModuleInterface_sendCommandWaitAnswer versionAnswered 8 [] Ptr.null 0
      [{ fed := encodeFrame GATEWAY_MODULE_CMD_INVALID [0], signaled := true }]).2.trace =
      versionAnswered.trace ++
        [Event.write_lock true, Event.write [0x23, 8, 0, 0] true, Event.write [] true,
         Event.write [0x2B, 0x0D] true, Event.signal_wait 1000, Event.signal_set,
         Event.signal_wait 1000, Event.write_lock false] := by
  decide

/-- C13: the first call after `init` on zero-initialised statics, for VERSION
with a two-byte answer buffer.  The writes succeed, the reader thread
dispatches no byte at all, and the first wait reports the signal.  The call
returns success on that wake: send and answer sequence are both 0 from the
start.  No signal was raised by the receiver and the answer buffer is
untouched. -/
theorem C13_spurious_wake_succeeds :
    (GatewayModuleInterface_init (zeroGlobals [0, 0] [])).g_pending_command.ans_sequence =
      (GatewayModuleInterface_init (zeroGlobals [0, 0] [])).g_pending_command.cmd_sequence ∧
    (GatewayModuleInterface_sendCommandWaitAnswer
      (GatewayModuleInterface_init (zeroGlobals [0, 0] [])) GATEWAY_MODULE_CMD_VERSION []
      (Ptr.heap 0) 2 [{ fed := [], signaled := true }]).1 = true ∧
    (GatewayModuleInterface_sendCommandWaitAnswer
      (GatewayModuleInterface_init (zeroGlobals [0, 0] [])) GATEWAY_MODULE_CMD_VERSION []
      (Ptr.heap 0) 2 [{ fed := [], signaled := true }]).2.trace =
      [Event.write_lock true, Event.write [0x23, 0x3A, 0, 0] true, Event.write [] true,
       Event.write [0x5D, 0x0D] true, Event.signal_wait 1000, Event.write_lock false] ∧
    (GatewayModuleInterface_sendCommandWaitAnswer
      (GatewayModuleInterface_init (zeroGlobals [0, 0] [])) GATEWAY_MODULE_CMD_VERSION []
      (Ptr.heap 0) 2 [{ fed := [], signaled := true }]).2.heap = [0, 0] := by
  decide

/-- C14: no command is pending (a call has timed out, an unsolicited frame has
been received since, so the last frame type is Receive).  After the start
marker the command byte `0x00` equals the pending command code `none` (0): the
receiver goes on to the length-low state, the frame is classified as Answer,
and the answer sequence of the pending command changes from 0 to the send
sequence 1. -/
theorem C14_none_byte_is_answer :
    timedOutThenReceive.g_state = STATE_t.STATE_WAIT_FOR_START ∧
    timedOutThenReceive.g_pending_command.cmd = GATEWAY_MODULE_CMD_NONE ∧
    timedOutThenReceive.g_rx_type = RX_TYPE_t.RX_TYPE_RECEIVE ∧
    timedOutThenReceive.g_pending_command.ans_sequence = 0 ∧
    (feed timedOutThenReceive [0x23]).g_state = STATE_t.STATE_WAIT_FOR_CMD ∧
    (feed timedOutThenReceive [0x23, 0x00]).g_state = STATE_t.STATE_WAIT_FOR_LEN0 ∧
    (feed timedOutThenReceive [0x23, 0x00]).g_rx_type = RX_TYPE_t.RX_TYPE_ANSWER ∧
    (feed timedOutThenReceive [0x23, 0x00]).g_pending_command.ans_sequence = 1 ∧
    (feed timedOutThenReceive [0x23, 0x00]).g_pending_command ≠
      timedOutThenReceive.g_pending_command := by
  decide

/-- C15: the well-formed unsolicited-receive frame with an empty payload,
`23 33 00 00 56 0D`, fed to the receiver after `init`.  The declared length 0
passes the length check, but the receiver enters the data state and takes
the checksum byte `0x56` as a payload byte (counter 1, declared length 0); it
then compares the terminator `0x0D` with the checksum, writes a negative
acknowledgement and returns to idle without invoking the receive callback. -/
theorem C15_zero_length_frame :
    encodeFrame GATEWAY_MODULE_CMD_RECEIVE [] = [0x23, 0x33, 0, 0, 0x56, 0x0D] ∧
    0 ≤ maxAnswerLength GATEWAY_MODULE_CMD_RECEIVE ∧
    (feed (GatewayModuleInterface_init (zeroGlobals [] [])) [0x23, 0x33, 0, 0]).g_state
      = STATE_t.STATE_WAIT_FOR_DATA ∧
    (feed (GatewayModuleInterface_init (zeroGlobals [] [])) [0x23, 0x33, 0, 0]).g_rx_context.length
      = 0 ∧
    (feed (GatewayModuleInterface_init (zeroGlobals [] [])) [0x23, 0x33, 0, 0]).g_rx_context.counter
      = 0 ∧
    (feed (GatewayModuleInterface_init (zeroGlobals [] []))
      [0x23, 0x33, 0, 0, 0x56]).g_state = STATE_t.STATE_WAIT_FOR_CHECKSUM ∧
    (feed (GatewayModuleInterface_init (zeroGlobals [] []))
      [0x23, 0x33, 0, 0, 0x56]).g_rx_context.counter = 1 ∧
    (feed (GatewayModuleInterface_init (zeroGlobals [] []))
      [0x23, 0x33, 0, 0, 0x56]).g_receive_buffer.take 1 = [0x56] ∧
    (feed (GatewayModuleInterface_init (zeroGlobals [] []))
      (encodeFrame GATEWAY_MODULE_CMD_RECEIVE [])).g_state = STATE_t.STATE_WAIT_FOR_START ∧
    (feed (GatewayModuleInterface_init (zeroGlobals [] []))
      (encodeFrame GATEWAY_MODULE_CMD_RECEIVE [])).trace =
      [Event.write_lock true, Event.write [0x23, 0x33, 1, 0] true, Event.write [1] true,
       Event.write [0x58, 0x0D] true, Event.write_lock false] := by
  decide

/-! ## C21: the table of maximum answer lengths -/

/-- The enumerators by value. -/
theorem isCommandCode_values (c : Nat) :
    isCommandCode c ↔
      c = 0 ∨ c = 0x6E ∨ c = 0x21 ∨ c = 0x42 ∨ c = 0x62 ∨ c = 0x30 ∨ c = 0x31 ∨ c = 0x32
        ∨ c = 0x33 ∨ c = 0x34 ∨ c = 0x35 ∨ c = 0x36 ∨ c = 0x37 ∨ c = 0x38 ∨ c = 0x39
        ∨ c = 0x3A ∨ c = 0x3B ∨ c = 0x3C ∨ c = 0x3D ∨ c = 0x3E ∨ c = 0x3F ∨ c = 0x40
        ∨ c = 0x41 ∨ c = 0x43 ∨ c = 0x50 ∨ c = 0x51 ∨ c = 0x25 ∨ c = 0xFF ∨ c = 0x07 :=
  Iff.rfl

/-- The table of `maxAnswerLength`: at most 300 for every code; 300 for `0x33`,
16 for `0x3A`, 0 for `0x51`; 0 for every value that is not an enumerator; and
at least 1 for every enumerator other than `none`, `reset` and `factory`. -/
theorem maxAnswerLength_table (c : Nat) :
    maxAnswerLength c ≤ 300 ∧
    maxAnswerLength GATEWAY_MODULE_CMD_RECEIVE = 300 ∧
    maxAnswerLength GATEWAY_MODULE_CMD_VERSION = 16 ∧
    maxAnswerLength GATEWAY_MODULE_CMD_RESET = 0 ∧
    maxAnswerLength GATEWAY_MODULE_CMD_NONE = 0 ∧
    (¬ isCommandCode c → maxAnswerLength c = 0) ∧
    (isCommandCode c → c ≠ GATEWAY_MODULE_CMD_NONE → c ≠ GATEWAY_MODULE_CMD_RESET →
      c ≠ GATEWAY_MODULE_CMD_FACTORY → 1 ≤ maxAnswerLength c) := by
  have e0 : GATEWAY_MODULE_CMD_NONE = 0 := rfl
  have e1 : GATEWAY_MODULE_CMD_RESET = 0x51 := rfl
  have e2 : GATEWAY_MODULE_CMD_FACTORY = 0x6E := rfl
  refine ⟨maxAnswerLength_le c, rfl, rfl, rfl, rfl, ?_, ?_⟩
  · intro h
    rw [isCommandCode_values] at h
    rw [maxAnswerLength_values]
    repeat' split
    all_goals omega
  · intro h h0 h1 h2
    rw [isCommandCode_values] at h
    rw [e0] at h0
    rw [e1] at h1
    rw [e2] at h2
    rw [maxAnswerLength_values]
    repeat' split
    all_goals omega

/-- C21: `maxAnswerLength` of the enumerated command code FACTORY (`0x6E`) is 0:
the code has no case in the switch.  The one-byte acknowledgement of FACTORY,
the well-formed frame `23 6E 01 00 00 92 0D`, fails the length check: the
receiver is idle again after the length-high byte, the rest of the frame is
ignored, no signal is raised and the byte `ack` is not written, so
`sendCommandWaitAck(FACTORY)` times out and returns failure.  The same exchange
for SAVE (`0x21`), whose maximum is 1, returns success. -/
theorem C21_factory_answer_rejected :
    isCommandCode GATEWAY_MODULE_CMD_FACTORY ∧
    maxAnswerLength GATEWAY_MODULE_CMD_FACTORY = 0 ∧
    encodeFrame GATEWAY_MODULE_CMD_FACTORY [0] = [0x23, 0x6E, 1, 0, 0, 0x92, 0x0D] ∧
    factoryPending.g_pending_command.cmd = GATEWAY_MODULE_CMD_FACTORY ∧
    (feed factoryPending [0x23, 0x6E]).g_state = STATE_t.STATE_WAIT_FOR_LEN0 ∧
    (feed factoryPending [0x23, 0x6E, 1, 0]).g_state = STATE_t.STATE_WAIT_FOR_START ∧
    (feed factoryPending (encodeFrame GATEWAY_MODULE_CMD_FACTORY [0])).g_state
      = STATE_t.STATE_WAIT_FOR_START ∧
    (feed factoryPending (encodeFrame GATEWAY_MODULE_CMD_FACTORY [0])).trace
      = factoryPending.trace ∧
    (feed factoryPending (encodeFrame GATEWAY_MODULE_CMD_FACTORY [0])).heap = [1] ∧
    (GatewayModuleInterface_sendCommandWaitAck
      (GatewayModuleInterface_init (zeroGlobals [1] [])) GATEWAY_MODULE_CMD_FACTORY [] 0
      [{ fed := encodeFrame GATEWAY_MODULE_CMD_FACTORY [0], signaled := false }]).1 = false ∧
    (GatewayModuleInterface_sendCommandWaitAck
      (GatewayModuleInterface_init (zeroGlobals [1] [])) GATEWAY_MODULE_CMD_SAVE [] 0
      [{ fed := encodeFrame GATEWAY_MODULE_CMD_SAVE [0], signaled := true }]).1 = true := by
  decide

/-! ## C22: idle framing and the order of the states -/

/-- C22: in the idle state every byte other than `0x23` leaves the whole state
unchanged (receiver state, receive context, pending command, buffers, and no
collaborator is called); the byte `0x23` sets the checksum accumulator to
`0x23`, moves the receiver to the command state and changes nothing else.  For
every state and byte the next receiver state is the successor in the pipeline
order, or idle, or the data state again; and it equals the state before only
in the idle and the data state. -/
theorem C22_idle_framing (s : Globals) (d : Nat) :
    (s.g_state = STATE_t.STATE_WAIT_FOR_START → d ≠ 0x23 →
      GatewayModuleInterface_dispatch s d = s) ∧
    (s.g_state = STATE_t.STATE_WAIT_FOR_START → d = 0x23 →
      GatewayModuleInterface_dispatch s d =
        { s with g_rx_context := { s.g_rx_context with checksum := 0x23 },
                 g_state := STATE_t.STATE_WAIT_FOR_CMD }) ∧
    ((GatewayModuleInterface_dispatch s d).g_state = pipelineNext s.g_state ∨
     (GatewayModuleInterface_dispatch s d).g_state = STATE_t.STATE_WAIT_FOR_START ∨
     ((GatewayModuleInterface_dispatch s d).g_state = s.g_state ∧
        s.g_state = STATE_t.STATE_WAIT_FOR_DATA)) ∧
    ((GatewayModuleInterface_dispatch s d).g_state = s.g_state →
      s.g_state = STATE_t.STATE_WAIT_FOR_START ∨ s.g_state = STATE_t.STATE_WAIT_FOR_DATA) := by
  have hstep : ((GatewayModuleInterface_dispatch s d).g_state = pipelineNext s.g_state ∨
     (GatewayModuleInterface_dispatch s d).g_state = STATE_t.STATE_WAIT_FOR_START ∨
     ((GatewayModuleInterface_dispatch s d).g_state = s.g_state ∧
        s.g_state = STATE_t.STATE_WAIT_FOR_DATA)) ∧
    ((GatewayModuleInterface_dispatch s d).g_state = s.g_state →
      s.g_state = STATE_t.STATE_WAIT_FOR_START ∨ s.g_state = STATE_t.STATE_WAIT_FOR_DATA) := by
    cases hst : s.g_state
    · by_cases hd : d = FRAME_START
      · subst hd
        rw [dispatch_start_marker s hst]
        simp [pipelineNext]
      · rw [dispatch_start_other s d hst hd]
        simp [hst]
    · by_cases h0 : d = s.g_pending_command.cmd
      · rw [dispatch_cmd_answer s d hst h0]
        simp [pipelineNext]
      · by_cases h1 : d = GATEWAY_MODULE_CMD_RECEIVE
        · rw [dispatch_cmd_receive s d hst h0 h1]
          simp [pipelineNext]
        · by_cases h2 : d = GATEWAY_MODULE_CMD_INVALID
          · rw [dispatch_cmd_invalid s d hst h0 h2]
            simp [pipelineNext]
          · rw [dispatch_cmd_unknown s d hst h0 h1 h2]
            simp [pipelineNext]
    · rw [dispatch_len0 s d hst]
      simp [pipelineNext]
    · rw [dispatch_len1 s d hst]
      split <;> simp [pipelineNext]
    · rw [dispatch_data s d hst]
      simp only [pipelineNext]
      split <;> simp
    · rw [dispatch_checksum s d hst]
      split <;> simp [pipelineNext]
    · have h : (GatewayModuleInterface_dispatch s d).g_state = STATE_t.STATE_WAIT_FOR_START := by
        simp [GatewayModuleInterface_dispatch, hst, setState]
      rw [h]
      simp [pipelineNext]
  refine ⟨?_, ?_, hstep.1, hstep.2⟩
  · intro hs hd
    exact dispatch_start_other s d hs hd
  · intro hs hd
    subst hd
    exact dispatch_start_marker s hs

/-- The idle receiver of C22 ignores the byte `0x0D`. -/
theorem C22_idle_framing_witness :
    GatewayModuleInterface_dispatch (GatewayModuleInterface_init (zeroGlobals [] [])) 0x0D =
      GatewayModuleInterface_init (zeroGlobals [] []) :=
  (C22_idle_framing (GatewayModuleInterface_init (zeroGlobals [] [])) 0x0D).1 rfl (by decide)

/-! ## C5: resynchronisation -/

/-- When a start marker leaves the receiver idle, for every state: when it is
read as an unknown command byte, as a length-high byte (the length then
exceeds every maximum), as a wrong checksum byte, or as a wrong terminator. -/
theorem dispatch_marker_idle_iff (u : Globals) :
    (GatewayModuleInterface_dispatch u FRAME_START).g_state = STATE_t.STATE_WAIT_FOR_START ↔
      ((u.g_state = STATE_t.STATE_WAIT_FOR_CMD ∧ u.g_pending_command.cmd ≠ FRAME_START) ∨
       u.g_state = STATE_t.STATE_WAIT_FOR_LEN1 ∨
       (u.g_state = STATE_t.STATE_WAIT_FOR_CHECKSUM ∧ u.g_rx_context.checksum ≠ FRAME_START) ∨
       u.g_state = STATE_t.STATE_WAIT_FOR_CR) := by
  have h300 := maxAnswerLength_le u.g_rx_context.cmd
  have e35 : FRAME_START = 35 := rfl
  cases hst : u.g_state
  · rw [dispatch_start_marker u hst]
    simp
  · by_cases hpend : u.g_pending_command.cmd = FRAME_START
    · have h : (GatewayModuleInterface_dispatch u FRAME_START).g_state
          = STATE_t.STATE_WAIT_FOR_LEN0 := by
        simp [GatewayModuleInterface_dispatch, setState, hst, hpend]
      rw [h]
      simp [hpend]
    · have h1 : FRAME_START ≠ u.g_pending_command.cmd := fun h => hpend h.symm
      have h : (GatewayModuleInterface_dispatch u FRAME_START).g_state
          = STATE_t.STATE_WAIT_FOR_START := by
        simp [GatewayModuleInterface_dispatch, setState, hst, h1]
      rw [h]
      simp [hpend]
  · rw [dispatch_len0 u _ hst]
    simp
  · rw [dispatch_len1 u _ hst, if_neg (by omega)]
    simp
  · rw [dispatch_data u _ hst]
    constructor
    · intro h
      split at h <;> simp at h
    · intro h
      simp at h
  · rw [dispatch_checksum u _ hst]
    by_cases hck : u.g_rx_context.checksum = FRAME_START
    · rw [if_pos hck]
      simp [hck]
    · rw [if_neg hck]
      simp [hck]
  · rw [dispatch_cr_other u _ hst (by decide)]
    simp

theorem runActions_append (s : Globals) (xs ys : List Action) :
    runActions s (xs ++ ys) = runActions (runActions s xs) ys := by
  simp [runActions, List.foldl_append]

theorem runActions_callers (ys : List CallerStmt) : ∀ (s : Globals),
    runActions s (ys.map Action.caller) = callerRun s ys := by
  induction ys with
  | nil => intro s; rfl
  | cons y ys ih => intro s; exact ih (callerStep s y)

theorem runActions_readers (bytes : List Nat) : ∀ (s : Globals),
    runActions s (bytes.map Action.reader) = feed s bytes := by
  induction bytes with
  | nil => intro s; rfl
  | cons d ds ih => intro s; exact ih (GatewayModuleInterface_dispatch s d)

theorem readerBytes_callers (ys : List CallerStmt) : readerBytes (ys.map Action.caller) = [] := by
  induction ys with
  | nil => rfl
  | cons y ys ih => simpa [readerBytes] using ih

theorem increments_append (xs ys : List CallerStmt) :
    increments (xs ++ ys) = increments xs + increments ys := by
  induction xs with
  | nil => simp [increments]
  | cons x xs ih =>
    cases x <;> simp [increments, ih]
    omega

/-- The exit clean-up of the sequential model is the run of its six
statements. -/
theorem sendFinish_eq_callerRun (s : Globals) : sendFinish s = callerRun s cleanupStmts := by
  simp [sendFinish, callerRun, cleanupStmts, callerStep, g_write_lock]

/-- A call of the sequential model that times out at its first wait is one
interleaving: the statements up to the wait, the bytes dispatched during the
wait, the clean-up. -/
theorem timedOut_eq_runActions (s : Globals) (c : Nat) (cmd_payload : List Nat)
    (ans_payload : Ptr) (cap : Nat) (fed : List Nat) (hw : writesSucceed s) :
    (timedOut s c cmd_payload ans_payload cap fed).2 =
      runActions s ((callStmts c cmd_payload ans_payload cap).map Action.caller ++
        fed.map Action.reader ++ cleanupStmts.map Action.caller) := by
  unfold timedOut
  rw [sendCommandWaitAnswer_timeout_state s c cmd_payload ans_payload cap fed hw,
    runActions_append, runActions_append, runActions_callers, runActions_readers,
    runActions_callers, sendFinish_eq_callerRun]
  have h3 : ∀ b ∈ s.write_results, b = true := hw
  rcases hws : s.write_results with _ | ⟨b1, _ | ⟨b2, _ | ⟨b3, r⟩⟩⟩ <;>
    simp_all [callerRun, callStmts, callerStep, g_write_lock, g_write]

/-- The reader thread alone: a frame fed to the receiver is the interleaving in
which the calling thread executes nothing. -/
theorem feed_frameRun (s : Globals) (c : Nat) (body : List Nat) :
    feed s (FRAME_START :: c :: (body ++ [FRAME_CR])) =
      frameRun s [] c (body.map Action.reader) := by
  unfold frameRun
  rw [← runActions_readers]
  simp

/-- The sequential model as an interleaving: a call times out after the reader
thread has dispatched the start marker, the command byte and the bytes `q` of
a frame during the wait; the bytes `back` and the terminator follow after the
call has returned. -/
theorem timedOut_frameRun (s : Globals) (c : Nat) (cmd_payload : List Nat)
    (ans_payload : Ptr) (cap : Nat) (q back : List Nat) (hw : writesSucceed s) :
    feed (timedOut s c cmd_payload ans_payload cap (FRAME_START :: c :: q)).2
        (back ++ [FRAME_CR]) =
      frameRun (callerRun s (callStmts c cmd_payload ans_payload cap)) [] c
        (q.map Action.reader ++ cleanupStmts.map Action.caller ++ back.map Action.reader) := by
  unfold frameRun
  rw [timedOut_eq_runActions s c cmd_payload ans_payload cap _ hw, ← runActions_readers,
    ← runActions_append, ← runActions_callers, ← runActions_append]
  simp

/-! ## C6: stale answers -/

end GatewayModule
